import Mathlib

set_option maxRecDepth 20000

/-!
# The qede flow-director filter manager (`drivers/net/qede/qede_filter.c`)

A shallow embedding of the packet-template builder `qede_fdir_construct_pkt`
and of the filter life cycle `qede_config_cmn_fdir_filter`, followed by the
properties established about them.

Conventions of the embedding.

* Memory is a list of bytes (`List Nat`, every byte below 256).  A template
  buffer is the 86-byte memzone the driver reserves for each request.
* Unsigned C integers are `Nat`; where a store narrows or a counter can wrap,
  the reduction modulo `2 ^ w` is explicit.
* The byte order of the host is the parameter `be` (`true` on a big-endian
  host): a plain C store of a 16-bit value writes its two bytes in host order,
  `rte_cpu_to_be_16` makes the stored bytes big-endian on every host.
* Calls that leave the driver (`rte_malloc`, `rte_memzone_reserve_aligned`,
  `ecore_configure_rfs_ntuple_filter`) get their outcome from an explicit
  environment record; the hardware calls a request makes are collected, in
  order, in the result.
* `QEDE_RFS_MAX_FLTR` is defined in `qede_ethdev.h`, which is not among the
  sources; it is a parameter of every definition that uses it.

The namespace `Bnxt` holds the embedding of the default-rule parameter handler
`ulp_df_dev_port_handler` of `drivers/net/bnxt/tf_ulp/ulp_def_rules.c` and the
property established about it.
-/

namespace Qede

/-! ## Constants of the DPDK and libc headers used by the source -/

/-- Flow type `RTE_ETH_FLOW_NONFRAG_IPV4_TCP` of `rte_eth_ctrl.h`. -/
def RTE_ETH_FLOW_NONFRAG_IPV4_TCP : Nat := 4
/-- Flow type `RTE_ETH_FLOW_NONFRAG_IPV4_UDP` of `rte_eth_ctrl.h`. -/
def RTE_ETH_FLOW_NONFRAG_IPV4_UDP : Nat := 5
/-- Flow type `RTE_ETH_FLOW_NONFRAG_IPV6_TCP` of `rte_eth_ctrl.h`. -/
def RTE_ETH_FLOW_NONFRAG_IPV6_TCP : Nat := 10
/-- Flow type `RTE_ETH_FLOW_NONFRAG_IPV6_UDP` of `rte_eth_ctrl.h`. -/
def RTE_ETH_FLOW_NONFRAG_IPV6_UDP : Nat := 11

def IPPROTO_TCP : Nat := 6
def IPPROTO_UDP : Nat := 17
def ETHER_TYPE_IPv4 : Nat := 0x0800
def ETHER_TYPE_IPv6 : Nat := 0x86DD

def EINVAL : Int := 22
def ENOMEM : Int := 12
def EEXIST : Int := 17
def EAGAIN : Int := 11
def ENOTSUP : Int := 95
def ECORE_SUCCESS : Int := 0
/-- The status `ECORE_INVAL` of `ecore_status.h`. -/
def ECORE_INVAL : Int := -3

def IP_VERSION : Nat := 0x40
def IP_HDRLEN : Nat := 0x5
/-- The macro `IP_VERSION | IP_HDRLEN`. -/
def QEDE_FDIR_IP_DEFAULT_VERSION_IHL : Nat := IP_VERSION ||| IP_HDRLEN
def QEDE_FDIR_TCP_DEFAULT_DATAOFF : Nat := 0x50
def QEDE_FDIR_IPV4_DEF_TTL : Nat := 64
def QEDE_FDIR_IPV6_DEFAULT_VTC_FLOW : Nat := 0x60000000
def QEDE_MAX_FDIR_PKT_LEN : Nat := 86
def IPV6_ADDR_LEN : Nat := 16

/-- Size of `struct ether_addr`. -/
def sizeof_ether_addr : Nat := 6
/-- Size of `struct ipv4_hdr`. -/
def sizeof_ipv4_hdr : Nat := 20
/-- Size of `struct ipv6_hdr`. -/
def sizeof_ipv6_hdr : Nat := 40
/-- Size of `struct udp_hdr`. -/
def sizeof_udp_hdr : Nat := 8
/-- Size of `struct tcp_hdr`. -/
def sizeof_tcp_hdr : Nat := 20

/-! ## Bytes and stores -/

/-- The bytes a C store of the 16-bit value `v` leaves in memory. -/
def store16 (be : Bool) (v : Nat) : List Nat :=
  if be then [v / 256 % 256, v % 256] else [v % 256, v / 256 % 256]

/-- The bytes a C store of the 32-bit value `v` leaves in memory. -/
def store32 (be : Bool) (v : Nat) : List Nat :=
  if be then [v / 16777216 % 256, v / 65536 % 256, v / 256 % 256, v % 256]
  else [v % 256, v / 256 % 256, v / 65536 % 256, v / 16777216 % 256]

/-- The function `rte_cpu_to_be_16`: the identity on a big-endian host, a byte
swap on a little-endian one. -/
def rte_cpu_to_be_16 (be : Bool) (v : Nat) : Nat :=
  if be then v % 65536 else (v % 256) * 256 + v / 256 % 256

/-- The function `rte_cpu_to_be_32`. -/
def rte_cpu_to_be_32 (be : Bool) (v : Nat) : Nat :=
  if be then v % 4294967296
  else (v % 256) * 16777216 + (v / 256 % 256) * 65536 + (v / 65536 % 256) * 256
    + v / 16777216 % 256

/-- Writing the bytes `src` into `buf` from offset `off` on. -/
def buf_write (buf : List Nat) (off : Nat) : List Nat → List Nat
  | [] => buf
  | b :: bs => buf_write (buf.set off b) (off + 1) bs

/-- The first `n` bytes of an array held as a list (missing bytes read 0). -/
def bytes_of (n : Nat) (l : List Nat) : List Nat :=
  (List.range n).map (fun i => l.getD i 0 % 256)

/-- The `n` bytes of `buf` from offset `off` on (bytes past the end read 0). -/
def buf_read (buf : List Nat) (off n : Nat) : List Nat :=
  (List.range n).map (fun i => buf.getD (off + i) 0)

/-- The test `memcmp(a, b, n) == 0`. -/
def memcmp_eq (a b : List Nat) (n : Nat) : Bool :=
  decide (a.take n = b.take n)

/-! ## The filter descriptor (`struct rte_eth_fdir_filter`) -/

/-- The structure `rte_eth_ipv4_flow`. -/
structure rte_eth_ipv4_flow where
  src_ip : Nat := 0
  dst_ip : Nat := 0
  tos : Nat := 0
  ttl : Nat := 0
  proto : Nat := 0
  deriving DecidableEq

/-- The structures `rte_eth_udpv4_flow` and `rte_eth_tcpv4_flow`, which have
the same members at the same offsets. -/
structure rte_eth_udpv4_flow where
  ip : rte_eth_ipv4_flow := {}
  src_port : Nat := 0
  dst_port : Nat := 0
  deriving DecidableEq

/-- The structure `rte_eth_ipv6_flow`; `src_ip` and `dst_ip` are the 16 bytes
of the `uint32_t [4]` arrays as they lie in memory. -/
structure rte_eth_ipv6_flow where
  src_ip : List Nat := []
  dst_ip : List Nat := []
  tc : Nat := 0
  proto : Nat := 0
  hop_limits : Nat := 0
  deriving DecidableEq

/-- The structures `rte_eth_udpv6_flow` and `rte_eth_tcpv6_flow`. -/
structure rte_eth_udpv6_flow where
  ip : rte_eth_ipv6_flow := {}
  src_port : Nat := 0
  dst_port : Nat := 0
  deriving DecidableEq

/-- The union `rte_eth_fdir_flow`, as the members the source reads:
`ip4_flow`, `udp4_flow` and `tcp4_flow` are views of `udp4_flow`; `ipv6_flow`,
`udp6_flow` and `tcp6_flow` are views of `udp6_flow`.  The builder reads only
the view that belongs to the flow type. -/
structure rte_eth_fdir_flow where
  udp4_flow : rte_eth_udpv4_flow := {}
  udp6_flow : rte_eth_udpv6_flow := {}
  deriving DecidableEq

/-- The members of `rte_eth_fdir_flow_ext` the source reads. -/
structure rte_eth_fdir_flow_ext where
  vlan_tci : Nat := 0
  is_vf : Nat := 0
  deriving DecidableEq

structure rte_eth_fdir_input where
  flow_type : Nat
  flow : rte_eth_fdir_flow := {}
  flow_ext : rte_eth_fdir_flow_ext := {}
  deriving DecidableEq

/-- The member of `rte_eth_fdir_action` the source reads. -/
structure rte_eth_fdir_action where
  rx_queue : Nat := 0
  deriving DecidableEq

structure rte_eth_fdir_filter where
  input : rte_eth_fdir_input
  action : rte_eth_fdir_action := {}
  deriving DecidableEq

/-! ## Device state -/

/-- The members of `struct ecore_arfs_config_params` the source uses. -/
structure ecore_arfs_config_params where
  tcp : Bool := false
  udp : Bool := false
  ipv4 : Bool := false
  ipv6 : Bool := false
  arfs_enable : Bool := false
  deriving DecidableEq

/-- One node of the filter list: the memzone holding the template, the
template length and the receive queue. -/
structure qede_fdir_entry where
  rx_queue : Nat
  pkt_len : Nat
  mz : List Nat
  deriving DecidableEq

/-- The structure `qede_fdir_info`; `filter_count` is a `uint16_t`. -/
structure qede_fdir_info where
  arfs : ecore_arfs_config_params := {}
  filter_count : Nat := 0
  fdir_list_head : List qede_fdir_entry := []
  deriving DecidableEq

/-- The enumeration `rte_fdir_mode`. -/
inductive rte_fdir_mode where
  | RTE_FDIR_MODE_NONE
  | RTE_FDIR_MODE_SIGNATURE
  | RTE_FDIR_MODE_PERFECT
  | RTE_FDIR_MODE_PERFECT_MAC_VLAN
  | RTE_FDIR_MODE_PERFECT_TUNNEL
  deriving DecidableEq

/-- The structure `qede_tunn_params`, the state kept per tunnel kind;
`num_filters`, `filter_type` and `udp_port` are `uint16_t`. -/
structure qede_tunn_params where
  enable : Bool := false
  num_filters : Nat := 0
  filter_type : Nat := 0
  udp_port : Nat := 0
  deriving DecidableEq

/-- The part of the device the filter code reads and writes:
`qdev->fdir_info`, `eth_dev->data->dev_conf.fdir_conf.mode`, the value of the
macro `QEDE_RSS_COUNT(qdev)` and of `ECORE_IS_CMT(edev)`; for the tunnel code
`qdev->vxlan`, `qdev->geneve`, `qdev->ipgre` and the value of `IS_VF(edev)`. -/
structure qede_dev where
  fdir_info : qede_fdir_info := {}
  fdir_mode : rte_fdir_mode := rte_fdir_mode.RTE_FDIR_MODE_NONE
  rss_count : Nat := 0
  is_cmt : Bool := false
  vxlan : qede_tunn_params := {}
  geneve : qede_tunn_params := {}
  ipgre : qede_tunn_params := {}
  is_vf : Bool := false
  deriving DecidableEq

/-- A call into the ecore layer. -/
inductive hw_call where
  | arfs_mode_configure (params : ecore_arfs_config_params)
  | rfs_ntuple_filter (pkt : List Nat) (pkt_len : Nat) (rx_queue : Nat) (add : Bool)
  deriving DecidableEq

/-- Outcomes of the calls that leave the driver during one request. -/
structure fdir_env where
  malloc_ok : Bool := true
  mz_ok : Bool := true
  rte_errno : Int := 12
  hw_rc : Int := 0
  deriving DecidableEq

/-- What a request returns: the C return value, the device afterwards and the
ecore calls made, in order. -/
structure fdir_result where
  rc : Int
  dev : qede_dev
  calls : List hw_call
  deriving DecidableEq

/-! ## `qede_valid_flow` and `qede_check_fdir_support` -/

def qede_valid_flow (flow_type : Nat) : Bool :=
  flow_type == RTE_ETH_FLOW_NONFRAG_IPV4_TCP ||
  flow_type == RTE_ETH_FLOW_NONFRAG_IPV4_UDP ||
  flow_type == RTE_ETH_FLOW_NONFRAG_IPV6_TCP ||
  flow_type == RTE_ETH_FLOW_NONFRAG_IPV6_UDP

def qede_check_fdir_support (qdev : qede_dev) : Int × qede_dev :=
  match qdev.fdir_mode with
  | rte_fdir_mode.RTE_FDIR_MODE_NONE =>
    (0, { qdev with fdir_info := { qdev.fdir_info with
            arfs := { qdev.fdir_info.arfs with arfs_enable := false } } })
  | rte_fdir_mode.RTE_FDIR_MODE_PERFECT =>
    if qdev.is_cmt then
      (-ENOTSUP, { qdev with fdir_info := { qdev.fdir_info with
            arfs := { qdev.fdir_info.arfs with arfs_enable := false } } })
    else
      (0, { qdev with fdir_info := { qdev.fdir_info with
            arfs := { qdev.fdir_info.arfs with arfs_enable := true } } })
  | _ => (-ENOTSUP, qdev)

/-! ## `qede_fdir_construct_pkt` -/

/-- The static array `vlan_frame`. -/
def vlan_frame : List Nat := [0x81, 0, 0, 0]

/-- The static table `next_proto`; entries without an initialiser are 0. -/
def next_proto (flow_type : Nat) : Nat :=
  if flow_type = RTE_ETH_FLOW_NONFRAG_IPV4_TCP then IPPROTO_TCP
  else if flow_type = RTE_ETH_FLOW_NONFRAG_IPV4_UDP then IPPROTO_UDP
  else if flow_type = RTE_ETH_FLOW_NONFRAG_IPV6_TCP then IPPROTO_TCP
  else if flow_type = RTE_ETH_FLOW_NONFRAG_IPV6_UDP then IPPROTO_UDP
  else 0

/-- What the builder returns and leaves behind: the length, the buffer and the
classification parameters it has written to. -/
structure pkt_result where
  len : Nat
  buff : List Nat
  params : ecore_arfs_config_params
  deriving DecidableEq

/-- The IPv4 branch of the switch in `qede_fdir_construct_pkt`; `et` is the
offset of the EtherType and `b` the buffer after the link-layer part. -/
def construct_ipv4 (be : Bool) (input : rte_eth_fdir_input) (b : List Nat) (et : Nat)
    (params : ecore_arfs_config_params) : pkt_result :=
  let ip := et + 2
  let len := et + 2
  let f := input.flow.udp4_flow
  let b := buf_write b et (store16 be (rte_cpu_to_be_16 be ETHER_TYPE_IPv4))
  let b := buf_write b ip [QEDE_FDIR_IP_DEFAULT_VERSION_IHL]
  let b := buf_write b (ip + 2) (store16 be sizeof_ipv4_hdr)
  let b := buf_write b (ip + 9)
    [if f.ip.proto % 256 ≠ 0 then f.ip.proto % 256 else next_proto input.flow_type]
  let b := buf_write b (ip + 8)
    [if f.ip.ttl % 256 ≠ 0 then f.ip.ttl % 256 else QEDE_FDIR_IPV4_DEF_TTL]
  let b := buf_write b (ip + 1) [f.ip.tos % 256]
  let b := buf_write b (ip + 16) (store32 be f.ip.dst_ip)
  let b := buf_write b (ip + 12) (store32 be f.ip.src_ip)
  let len := len + sizeof_ipv4_hdr
  let params := { params with ipv4 := true }
  if input.flow_type = RTE_ETH_FLOW_NONFRAG_IPV4_UDP then
    let b := buf_write b (len + 2) (store16 be f.dst_port)
    let b := buf_write b len (store16 be f.src_port)
    let b := buf_write b (len + 4) (store16 be sizeof_udp_hdr)
    let b := buf_write b (ip + 2) (store16 be (sizeof_ipv4_hdr + sizeof_udp_hdr))
    { len := len + sizeof_udp_hdr, buff := b, params := { params with udp := true } }
  else
    let b := buf_write b len (store16 be f.src_port)
    let b := buf_write b (len + 2) (store16 be f.dst_port)
    let b := buf_write b (len + 12) [QEDE_FDIR_TCP_DEFAULT_DATAOFF]
    let b := buf_write b (ip + 2) (store16 be (sizeof_ipv4_hdr + sizeof_tcp_hdr))
    { len := len + sizeof_tcp_hdr, buff := b, params := { params with tcp := true } }

/-- The IPv6 branch of the switch in `qede_fdir_construct_pkt`. -/
def construct_ipv6 (be : Bool) (input : rte_eth_fdir_input) (b : List Nat) (et : Nat)
    (params : ecore_arfs_config_params) : pkt_result :=
  let ip6 := et + 2
  let len := et + 2
  let f := input.flow.udp6_flow
  let b := buf_write b et (store16 be (rte_cpu_to_be_16 be ETHER_TYPE_IPv6))
  let b := buf_write b (ip6 + 6)
    [if f.ip.proto % 256 ≠ 0 then f.ip.proto % 256 else next_proto input.flow_type]
  let b := buf_write b ip6 (store32 be (rte_cpu_to_be_32 be QEDE_FDIR_IPV6_DEFAULT_VTC_FLOW))
  let b := buf_write b (ip6 + 8) (bytes_of IPV6_ADDR_LEN f.ip.src_ip)
  let b := buf_write b (ip6 + 24) (bytes_of IPV6_ADDR_LEN f.ip.dst_ip)
  let len := len + sizeof_ipv6_hdr
  let params := { params with ipv6 := true }
  if input.flow_type = RTE_ETH_FLOW_NONFRAG_IPV6_UDP then
    let b := buf_write b len (store16 be f.src_port)
    let b := buf_write b (len + 2) (store16 be f.dst_port)
    { len := len + sizeof_udp_hdr, buff := b, params := { params with udp := true } }
  else
    let b := buf_write b len (store16 be f.src_port)
    let b := buf_write b (len + 2) (store16 be f.dst_port)
    let b := buf_write b (len + 12) [QEDE_FDIR_TCP_DEFAULT_DATAOFF]
    { len := len + sizeof_tcp_hdr, buff := b, params := { params with tcp := true } }

/-- The part of `qede_fdir_construct_pkt` before the switch: skips the two
Ethernet addresses, writes the VLAN header when `vlan_tci` is non-zero, and
reserves the EtherType.  Returns the buffer and the offset of the EtherType. -/
def construct_l2 (be : Bool) (input : rte_eth_fdir_input) (buff : List Nat) :
    List Nat × Nat :=
  if input.flow_ext.vlan_tci % 65536 ≠ 0 then
    (buf_write (buf_write buff (2 * sizeof_ether_addr) vlan_frame)
        (2 * sizeof_ether_addr + 2) (store16 be input.flow_ext.vlan_tci),
      2 * sizeof_ether_addr + 4)
  else (buff, 2 * sizeof_ether_addr)

/-- The function `qede_fdir_construct_pkt`: fills the L2/L3/L4 headers into
`buff` and returns the length of the flow-director packet, 0 for a flow type
outside the switch. -/
def qede_fdir_construct_pkt (be : Bool) (fdir : rte_eth_fdir_filter) (buff : List Nat)
    (params : ecore_arfs_config_params) : pkt_result :=
  if fdir.input.flow_type = RTE_ETH_FLOW_NONFRAG_IPV4_TCP ∨
      fdir.input.flow_type = RTE_ETH_FLOW_NONFRAG_IPV4_UDP then
    construct_ipv4 be fdir.input (construct_l2 be fdir.input buff).1
      (construct_l2 be fdir.input buff).2 params
  else if fdir.input.flow_type = RTE_ETH_FLOW_NONFRAG_IPV6_TCP ∨
      fdir.input.flow_type = RTE_ETH_FLOW_NONFRAG_IPV6_UDP then
    construct_ipv6 be fdir.input (construct_l2 be fdir.input buff).1
      (construct_l2 be fdir.input buff).2 params
  else
    { len := 0, buff := (construct_l2 be fdir.input buff).1, params := params }

/-! ## `qede_config_cmn_fdir_filter` and `qede_fdir_filter_add` -/

/-- The loop `SLIST_FOREACH` with `memcmp(tmp->mz->addr, pkt, pkt_len) == 0`:
the first node of the list whose memzone agrees with `pkt` on `pkt_len` bytes. -/
def fdir_lookup (l : List qede_fdir_entry) (pkt : List Nat) (pkt_len : Nat) :
    Option qede_fdir_entry :=
  l.find? (fun tmp => memcmp_eq tmp.mz pkt pkt_len)

/-- The macro `SLIST_REMOVE` applied to the node the delete loop stopped at,
the first one that agrees with `pkt`. -/
def fdir_remove (l : List qede_fdir_entry) (pkt : List Nat) (pkt_len : Nat) :
    List qede_fdir_entry :=
  l.eraseP (fun tmp => memcmp_eq tmp.mz pkt pkt_len)

/-- The tail of `qede_config_cmn_fdir_filter` from the comment
"Disable ARFS searcher if there are no more filters" on. -/
def fdir_finish (qdev : qede_dev) (calls : List hw_call) : fdir_result :=
  if qdev.fdir_info.filter_count = 0 then
    let arfs : ecore_arfs_config_params := {}
    { rc := 0,
      dev := { qdev with fdir_info := { qdev.fdir_info with arfs := arfs } },
      calls := calls ++ [hw_call.arfs_mode_configure arfs] }
  else
    { rc := 0, dev := qdev, calls := calls }

/-- The block "Force update" of `qede_config_cmn_fdir_filter`: an add request
on a device whose searcher is off switches the flow-director mode to perfect
and sets `arfs_enable`. -/
def fdir_force_enable (qdev : qede_dev) : qede_dev :=
  if qdev.fdir_info.arfs.arfs_enable = false then
    { qdev with
      fdir_mode := rte_fdir_mode.RTE_FDIR_MODE_PERFECT,
      fdir_info := { qdev.fdir_info with
        arfs := { qdev.fdir_info.arfs with arfs_enable := true } } }
  else qdev

/-- The block under `if (rc == ECORE_SUCCESS)`: an add puts the new node at the
head of the list and increments the 16-bit count, a delete unlinks the node the
loop stopped at and decrements the count. -/
def fdir_list_update (qdev : qede_dev) (rx_queue : Nat) (pkt : List Nat) (pkt_len : Nat)
    (add : Bool) : qede_dev :=
  if add = true then
    { qdev with fdir_info := { qdev.fdir_info with
        fdir_list_head :=
          { rx_queue := rx_queue, pkt_len := pkt_len, mz := pkt } ::
            qdev.fdir_info.fdir_list_head,
        filter_count := (qdev.fdir_info.filter_count + 1) % 65536 } }
  else
    { qdev with fdir_info := { qdev.fdir_info with
        fdir_list_head := fdir_remove qdev.fdir_info.fdir_list_head pkt pkt_len,
        filter_count := (qdev.fdir_info.filter_count + 65535) % 65536 } }

/-- The device after the builder has run: `qede_fdir_construct_pkt` writes to
`qdev->fdir_info.arfs` through its `params` argument. -/
def fdir_built (be : Bool) (qdev : qede_dev) (fdir_filter : rte_eth_fdir_filter) : qede_dev :=
  { qdev with fdir_info := { qdev.fdir_info with
      arfs := (qede_fdir_construct_pkt be fdir_filter
        (List.replicate QEDE_MAX_FDIR_PKT_LEN 0) qdev.fdir_info.arfs).params } }

/-- The function `qede_config_cmn_fdir_filter`. -/
def qede_config_cmn_fdir_filter (QEDE_RFS_MAX_FLTR : Nat) (be : Bool) (env : fdir_env)
    (qdev : qede_dev) (fdir_filter : rte_eth_fdir_filter) (add : Bool) : fdir_result :=
  if add = true ∧ (qdev.fdir_info.filter_count : Int) = (QEDE_RFS_MAX_FLTR : Int) - 1 then
    { rc := -EINVAL, dev := qdev, calls := [] }
  else if add = true ∧ env.malloc_ok = false then
    { rc := -ENOMEM, dev := qdev, calls := [] }
  else if env.mz_ok = false then
    { rc := -env.rte_errno, dev := qdev, calls := [] }
  else
    let r := qede_fdir_construct_pkt be fdir_filter
      (List.replicate QEDE_MAX_FDIR_PKT_LEN 0) qdev.fdir_info.arfs
    let pkt := r.buff
    let pkt_len := r.len
    let qdev := fdir_built be qdev fdir_filter
    if pkt_len = 0 then
      { rc := -EINVAL, dev := qdev, calls := [] }
    else
      let tmp := fdir_lookup qdev.fdir_info.fdir_list_head pkt pkt_len
      if add = true ∧ tmp.isSome = true then
        { rc := 0, dev := qdev, calls := [] }
      else if add = false ∧ tmp.isSome = false then
        { rc := -EEXIST, dev := qdev, calls := [] }
      else
        let qdev := if add = true then fdir_force_enable qdev else qdev
        let calls : List hw_call :=
          if add = true then [hw_call.arfs_mode_configure qdev.fdir_info.arfs] else []
        let rc := env.hw_rc
        let calls := calls ++
          [hw_call.rfs_ntuple_filter pkt pkt_len (fdir_filter.action.rx_queue % 65536) add]
        let qdev :=
          if rc = ECORE_SUCCESS then
            fdir_list_update qdev (fdir_filter.action.rx_queue % 65536) pkt pkt_len add
          else qdev
        fdir_finish qdev calls

/-- The function `qede_fdir_filter_add`. -/
def qede_fdir_filter_add (QEDE_RFS_MAX_FLTR : Nat) (be : Bool) (env : fdir_env)
    (qdev : qede_dev) (fdir : rte_eth_fdir_filter) (add : Bool) : fdir_result :=
  if qede_valid_flow fdir.input.flow_type = false then
    { rc := -EINVAL, dev := qdev, calls := [] }
  else if fdir.action.rx_queue % 65536 ≥ qdev.rss_count then
    { rc := -EINVAL, dev := qdev, calls := [] }
  else if fdir.input.flow_ext.is_vf % 256 ≠ 0 then
    { rc := -EINVAL, dev := qdev, calls := [] }
  else
    qede_config_cmn_fdir_filter QEDE_RFS_MAX_FLTR be env qdev fdir add

/-- Whether a request submitted a filter to the hardware
(`ecore_configure_rfs_ntuple_filter`). -/
def hw_submitted (r : fdir_result) : Bool :=
  r.calls.any (fun c => match c with
    | hw_call.rfs_ntuple_filter _ _ _ _ => true
    | _ => false)

/-- The template bytes the request for `fdir` works with: the builder run on
the zeroed memzone. -/
def fdir_pkt (be : Bool) (fdir : rte_eth_fdir_filter) : List Nat :=
  (qede_fdir_construct_pkt be fdir (List.replicate QEDE_MAX_FDIR_PKT_LEN 0) {}).buff

/-- The template length the request for `fdir` works with. -/
def fdir_pkt_len (be : Bool) (fdir : rte_eth_fdir_filter) : Nat :=
  (qede_fdir_construct_pkt be fdir (List.replicate QEDE_MAX_FDIR_PKT_LEN 0) {}).len

/-- The node an add request for `fdir` puts at the head of the list. -/
def fdir_new_entry (be : Bool) (fdir : rte_eth_fdir_filter) : qede_fdir_entry :=
  { rx_queue := fdir.action.rx_queue % 65536, pkt_len := fdir_pkt_len be fdir,
    mz := fdir_pkt be fdir }

/-- Two records hold the same filter in the sense of the data model: the same
template length and the same bytes over that length. -/
def same_template (a b : qede_fdir_entry) : Prop :=
  a.pkt_len = b.pkt_len ∧ a.mz.take a.pkt_len = b.mz.take b.pkt_len

instance (a b : qede_fdir_entry) : Decidable (same_template a b) := by
  unfold same_template; infer_instance

/-! ## Sequences of requests -/

/-- One flow-director request with the outcomes of the outside calls made while
it is served: `fdir` enters through `qede_fdir_filter_add` (the flow-director
filter operations ADD and DELETE), `cmn` calls `qede_config_cmn_fdir_filter`
directly, as the ntuple operations do. -/
inductive fdir_request where
  | fdir (env : fdir_env) (filter : rte_eth_fdir_filter) (add : Bool)
  | cmn (env : fdir_env) (filter : rte_eth_fdir_filter) (add : Bool)
  deriving DecidableEq

/-- The device after one request. -/
def fdir_step (QEDE_RFS_MAX_FLTR : Nat) (be : Bool) (qdev : qede_dev) :
    fdir_request → qede_dev
  | fdir_request.fdir env filter add =>
    (qede_fdir_filter_add QEDE_RFS_MAX_FLTR be env qdev filter add).dev
  | fdir_request.cmn env filter add =>
    (qede_config_cmn_fdir_filter QEDE_RFS_MAX_FLTR be env qdev filter add).dev

/-- The device after a sequence of requests, served one after the other. -/
def fdir_run (QEDE_RFS_MAX_FLTR : Nat) (be : Bool) (qdev : qede_dev)
    (reqs : List fdir_request) : qede_dev :=
  reqs.foldl (fdir_step QEDE_RFS_MAX_FLTR be) qdev

/-- No two records at different places of the list hold the same filter. -/
def fdir_distinct (l : List qede_fdir_entry) : Prop :=
  l.Pairwise (fun a b => ¬ same_template a b)

/-! ## Concrete descriptors and devices used in the examples -/

/-- The descriptor of the specification scenario: IPv4/TCP from 10.0.0.1 port
1234 to 10.0.0.2 port 80, queue 0 (addresses and ports in network byte order,
read as integers of a little-endian host). -/
def d_tcp4 : rte_eth_fdir_filter :=
  { input := { flow_type := RTE_ETH_FLOW_NONFRAG_IPV4_TCP,
               flow := { udp4_flow := { ip := { src_ip := 0x0100000a, dst_ip := 0x0200000a },
                                        src_port := 0xd204, dst_port := 0x5000 } } } }

/-- An IPv4/UDP descriptor with source port `i`. -/
def d_udp4 (i : Nat) : rte_eth_fdir_filter :=
  { input := { flow_type := RTE_ETH_FLOW_NONFRAG_IPV4_UDP,
               flow := { udp4_flow := { src_port := i, dst_port := 0x5000 } } } }

/-- An IPv6/TCP descriptor, ports 1 and 2, no protocol override. -/
def d_tcp6 : rte_eth_fdir_filter :=
  { input := { flow_type := RTE_ETH_FLOW_NONFRAG_IPV6_TCP,
               flow := { udp6_flow := { src_port := 1, dst_port := 2 } } } }

/-- A device with no filters and the searcher off. -/
def dev_empty : qede_dev := {}

/-- A device holding `n` IPv4/UDP filters with source ports `1 .. n`, the
searcher on. -/
def dev_with (n : Nat) : qede_dev :=
  { fdir_info :=
      { arfs := { udp := true, ipv4 := true, arfs_enable := true },
        filter_count := n,
        fdir_list_head := (List.range n).reverse.map (fun i => fdir_new_entry false (d_udp4 (i + 1))) },
    fdir_mode := rte_fdir_mode.RTE_FDIR_MODE_PERFECT }

/-- An environment in which the hardware submission fails with status -1. -/
def env_hw_fail : fdir_env := { hw_rc := -1 }

/-- A sequence of requests on a device with 4 receive queues: an add through
the flow-director entry, an add whose submission fails, the first add again, an
ntuple-style add, a delete and a delete of a descriptor that is not stored. -/
def reqs_example : List fdir_request :=
  [fdir_request.fdir {} d_tcp4 true,
   fdir_request.fdir env_hw_fail (d_udp4 7) true,
   fdir_request.fdir {} d_tcp4 true,
   fdir_request.cmn {} (d_udp4 9) true,
   fdir_request.cmn {} d_tcp6 true,
   fdir_request.fdir {} (d_udp4 9) false,
   fdir_request.fdir {} (d_udp4 5) false]

/-- A device with 4 receive queues and no filter. -/
def dev_four_queues : qede_dev := { rss_count := 4 }

/-! ## Layout of the template -/

/-- The number of bytes the VLAN header takes in the template of `fdir`: 4 when
`vlan_tci` is non-zero, else 0. -/
def fdir_vlan_len (fdir : rte_eth_fdir_filter) : Nat :=
  if fdir.input.flow_ext.vlan_tci % 65536 ≠ 0 then 4 else 0

/-- An IPv4/UDP descriptor with VLAN 5, type of service 3, time to live 9 and
the protocol override 200. -/
def d_udp4_vlan : rte_eth_fdir_filter :=
  { input := { flow_type := RTE_ETH_FLOW_NONFRAG_IPV4_UDP,
               flow := { udp4_flow := { ip := { src_ip := 0x0100000a, dst_ip := 0x0200000a,
                                                 tos := 3, ttl := 9, proto := 200 },
                                        src_port := 0xd204, dst_port := 0x5000 } },
               flow_ext := { vlan_tci := 5 } } }

/-- An IPv6/UDP descriptor from port 1234 to port 80 between the addresses
`1, 2, .., 16` and `16, 15, .., 1`, without VLAN and without overrides. -/
def d_udp6_plain : rte_eth_fdir_filter :=
  { input := { flow_type := RTE_ETH_FLOW_NONFRAG_IPV6_UDP,
               flow := { udp6_flow := { ip := { src_ip := (List.range 16).map (fun i => i + 1),
                                                 dst_ip := (List.range 16).map (fun i => 16 - i) },
                                        src_port := 0xd204, dst_port := 0x5000 } } } }

/-- A descriptor of the flow type `RTE_ETH_FLOW_NONFRAG_IPV4_SCTP` (6), which
the driver does not support, with VLAN 5. -/
def d_sctp4 : rte_eth_fdir_filter :=
  { input := { flow_type := 6, flow_ext := { vlan_tci := 5 } } }

/-- The scenario descriptor aimed at receive queue 9. -/
def d_tcp4_q9 : rte_eth_fdir_filter := { d_tcp4 with action := { rx_queue := 9 } }

/-- The scenario descriptor marked as coming from a VF. -/
def d_tcp4_vf : rte_eth_fdir_filter :=
  { d_tcp4 with input := { d_tcp4.input with flow_ext := { is_vf := 1 } } }

/-- A device with 4 receive queues holding 255 filters. -/
def dev_full_four_queues : qede_dev := { dev_with 255 with rss_count := 4 }

/-- A device holding the single record of the scenario descriptor, searcher on. -/
def dev_one : qede_dev :=
  { fdir_info :=
      { arfs := { tcp := true, ipv4 := true, arfs_enable := true },
        filter_count := 1,
        fdir_list_head := [fdir_new_entry false d_tcp4] },
    fdir_mode := rte_fdir_mode.RTE_FDIR_MODE_PERFECT }

/-! ## Tunnel filters: types -/

/-- The enumeration `rte_eth_tunnel_type`. -/
inductive rte_eth_tunnel_type where
  | RTE_TUNNEL_TYPE_NONE
  | RTE_TUNNEL_TYPE_VXLAN
  | RTE_TUNNEL_TYPE_GENEVE
  | RTE_TUNNEL_TYPE_TEREDO
  | RTE_TUNNEL_TYPE_NVGRE
  | RTE_TUNNEL_TYPE_IP_IN_GRE
  | RTE_L2_TUNNEL_TYPE_E_TAG
  | RTE_TUNNEL_TYPE_MAX
  deriving DecidableEq

/-- The enumeration `rte_filter_op`. -/
inductive rte_filter_op where
  | RTE_ETH_FILTER_NOP
  | RTE_ETH_FILTER_ADD
  | RTE_ETH_FILTER_UPDATE
  | RTE_ETH_FILTER_DELETE
  | RTE_ETH_FILTER_FLUSH
  | RTE_ETH_FILTER_GET
  | RTE_ETH_FILTER_SET
  | RTE_ETH_FILTER_INFO
  | RTE_ETH_FILTER_STATS
  | RTE_ETH_FILTER_OP_MAX
  deriving DecidableEq

/-- The enumeration `ecore_filter_ucast_type`. -/
inductive ecore_filter_ucast_type where
  | ECORE_FILTER_MAC
  | ECORE_FILTER_VLAN
  | ECORE_FILTER_MAC_VLAN
  | ECORE_FILTER_INNER_MAC
  | ECORE_FILTER_INNER_VLAN
  | ECORE_FILTER_INNER_PAIR
  | ECORE_FILTER_INNER_MAC_VNI_PAIR
  | ECORE_FILTER_MAC_VNI_PAIR
  | ECORE_FILTER_VNI
  | ECORE_FILTER_UNUSED
  deriving DecidableEq

/-- The enumeration `ecore_tunn_clss`. -/
inductive ecore_tunn_clss where
  | ECORE_TUNN_CLSS_MAC_VLAN
  | ECORE_TUNN_CLSS_MAC_VNI
  | ECORE_TUNN_CLSS_INNER_MAC_VLAN
  | ECORE_TUNN_CLSS_INNER_MAC_VNI
  | ECORE_TUNN_CLSS_MAC_VLAN_DUAL_STAGE
  | MAX_ECORE_TUNN_CLSS
  deriving DecidableEq

def ETH_TUNNEL_FILTER_OMAC : Nat := 0x01
def ETH_TUNNEL_FILTER_OIP : Nat := 0x02
def ETH_TUNNEL_FILTER_TENID : Nat := 0x04
def ETH_TUNNEL_FILTER_IMAC : Nat := 0x08
def ETH_TUNNEL_FILTER_IVLAN : Nat := 0x10
def ETH_TUNNEL_FILTER_IIP : Nat := 0x20
def RTE_TUNNEL_FILTER_IMAC_IVLAN : Nat := ETH_TUNNEL_FILTER_IMAC ||| ETH_TUNNEL_FILTER_IVLAN
def RTE_TUNNEL_FILTER_IMAC_IVLAN_TENID : Nat :=
  ETH_TUNNEL_FILTER_IMAC ||| ETH_TUNNEL_FILTER_IVLAN ||| ETH_TUNNEL_FILTER_TENID
def RTE_TUNNEL_FILTER_IMAC_TENID : Nat := ETH_TUNNEL_FILTER_IMAC ||| ETH_TUNNEL_FILTER_TENID
def RTE_TUNNEL_FILTER_OMAC_TENID_IMAC : Nat :=
  ETH_TUNNEL_FILTER_OMAC ||| ETH_TUNNEL_FILTER_TENID ||| ETH_TUNNEL_FILTER_IMAC

/-- The default UDP ports `QEDE_VXLAN_DEF_PORT` and `QEDE_GENEVE_DEF_PORT`,
defined in `qede_ethdev.h`, which is not among the sources; they are a
parameter of every definition that uses them. -/
structure qede_def_ports where
  QEDE_VXLAN_DEF_PORT : Nat
  QEDE_GENEVE_DEF_PORT : Nat
  deriving DecidableEq

/-- The members of `rte_eth_tunnel_filter_conf` the source reads. -/
structure rte_eth_tunnel_filter_conf where
  outer_mac : List Nat := [0, 0, 0, 0, 0, 0]
  inner_mac : List Nat := [0, 0, 0, 0, 0, 0]
  inner_vlan : Nat := 0
  filter_type : Nat := 0
  tunnel_type : rte_eth_tunnel_type
  tenant_id : Nat := 0
  deriving DecidableEq

/-- The members of `ecore_filter_ucast` the source writes after
`qede_set_ucast_cmn_params`. -/
structure ecore_filter_ucast where
  opcode_add : Bool := false
  type : ecore_filter_ucast_type := ecore_filter_ucast_type.ECORE_FILTER_MAC
  mac : List Nat := [0, 0, 0, 0, 0, 0]
  vlan : Nat := 0
  vni : Nat := 0
  deriving DecidableEq

/-- The structure `ecore_tunn_update_type`. -/
structure ecore_tunn_update_type where
  b_update_mode : Bool := false
  b_mode_enabled : Bool := false
  tun_cls : ecore_tunn_clss := ecore_tunn_clss.ECORE_TUNN_CLSS_MAC_VLAN
  deriving DecidableEq

/-- The structure `ecore_tunn_update_udp_port`. -/
structure ecore_tunn_update_udp_port where
  b_update_port : Bool := false
  port : Nat := 0
  deriving DecidableEq

/-- The members of `ecore_tunnel_info` the source writes; the default value is
the structure after `memset(&tunn, 0, ...)`. -/
structure ecore_tunnel_info where
  vxlan : ecore_tunn_update_type := {}
  l2_geneve : ecore_tunn_update_type := {}
  ip_geneve : ecore_tunn_update_type := {}
  ip_gre : ecore_tunn_update_type := {}
  vxlan_port : ecore_tunn_update_udp_port := {}
  geneve_port : ecore_tunn_update_udp_port := {}
  b_update_rx_cls : Bool := false
  b_update_tx_cls : Bool := false
  deriving DecidableEq

/-- A call the tunnel code makes outside the source file: into ecore
(`ecore_sp_pf_update_tunn_cfg` on one hardware function,
`ecore_filter_ucast_cmd`) or into `qede_ethdev.c` (`qede_mac_int_ops`,
`qede_config_accept_any_vlan`, `qede_ucast_filter`). -/
inductive tunn_call where
  | sp_pf_update_tunn_cfg (tunn : ecore_tunnel_info)
  | mac_int_ops (ucast : ecore_filter_ucast) (add : Bool)
  | config_accept_any_vlan (flg : Bool)
  | ucast_filter (ucast : ecore_filter_ucast) (add : Bool)
  | filter_ucast_cmd (ucast : ecore_filter_ucast)
  deriving DecidableEq

/-- What happens on one hardware function during `qede_tunnel_update`: whether
`ecore_ptt_acquire` returns a PTT, and the status of
`ecore_sp_pf_update_tunn_cfg`. -/
structure hwfn_outcome where
  ptt_ok : Bool := true
  rc : Int := 0
  deriving DecidableEq

/-- Outcomes of the outside calls of one tunnel filter request; `hwfns` has one
entry per hardware function of the device. -/
structure tunn_env where
  mac_int_ops_rc : Int := 0
  ucast_filter_rc : Int := 0
  ucast_cmd_rc : Int := 0
  hwfns : List hwfn_outcome := [{}]
  deriving DecidableEq

/-- What a tunnel function returns: the C return value, the device afterwards
and the outside calls made, in order. -/
structure tunn_result where
  rc : Int
  dev : qede_dev
  calls : List tunn_call
  deriving DecidableEq

/-! ## Tunnel filters: functions -/

/-- The loop of `qede_tunnel_update` over the hardware functions, `rc` being the
status so far. -/
def qede_tunnel_update_loop (is_pf : Bool) (tunn : ecore_tunnel_info) :
    Int → List hwfn_outcome → Int × List tunn_call
  | rc, [] => (rc, [])
  | _, h :: hs =>
    if is_pf = true ∧ h.ptt_ok = false then (-EAGAIN, [])
    else if h.rc ≠ ECORE_SUCCESS then (h.rc, [tunn_call.sp_pf_update_tunn_cfg tunn])
    else
      ((qede_tunnel_update_loop is_pf tunn h.rc hs).1,
        tunn_call.sp_pf_update_tunn_cfg tunn :: (qede_tunnel_update_loop is_pf tunn h.rc hs).2)

/-- The function `qede_tunnel_update`. -/
def qede_tunnel_update (qdev : qede_dev) (tunn : ecore_tunnel_info)
    (hwfns : List hwfn_outcome) : Int × List tunn_call :=
  qede_tunnel_update_loop (!qdev.is_vf) tunn ECORE_INVAL hwfns

/-- The function `qede_vxlan_enable`. -/
def qede_vxlan_enable (c : qede_def_ports) (hwfns : List hwfn_outcome) (qdev : qede_dev)
    (clss : ecore_tunn_clss) (enable : Bool) : tunn_result :=
  if qdev.vxlan.enable = enable then
    { rc := ECORE_SUCCESS, dev := qdev, calls := [] }
  else
    let tunn : ecore_tunnel_info :=
      { vxlan := { b_update_mode := true, b_mode_enabled := enable, tun_cls := clss },
        b_update_rx_cls := true, b_update_tx_cls := true,
        vxlan_port := { b_update_port := true,
                        port := if enable = true then c.QEDE_VXLAN_DEF_PORT else 0 } }
    let r := qede_tunnel_update qdev tunn hwfns
    if r.1 = ECORE_SUCCESS then
      { rc := r.1,
        dev := { qdev with vxlan := { qdev.vxlan with
                  enable := enable,
                  udp_port := (if enable = true then c.QEDE_VXLAN_DEF_PORT else 0) % 65536 } },
        calls := r.2 }
    else
      { rc := r.1, dev := qdev, calls := r.2 }

/-- The function `qede_geneve_enable`. -/
def qede_geneve_enable (c : qede_def_ports) (hwfns : List hwfn_outcome) (qdev : qede_dev)
    (clss : ecore_tunn_clss) (enable : Bool) : tunn_result :=
  let tunn : ecore_tunnel_info :=
    { l2_geneve := { b_update_mode := true, b_mode_enabled := enable, tun_cls := clss },
      ip_geneve := { b_update_mode := true, b_mode_enabled := enable, tun_cls := clss },
      b_update_rx_cls := true, b_update_tx_cls := true,
      geneve_port := { b_update_port := true,
                       port := if enable = true then c.QEDE_GENEVE_DEF_PORT else 0 } }
  let r := qede_tunnel_update qdev tunn hwfns
  if r.1 = ECORE_SUCCESS then
    { rc := r.1,
      dev := { qdev with geneve := { qdev.geneve with
                enable := enable,
                udp_port := (if enable = true then c.QEDE_GENEVE_DEF_PORT else 0) % 65536 } },
      calls := r.2 }
  else
    { rc := r.1, dev := qdev, calls := r.2 }

/-- The function `qede_ipgre_enable`. -/
def qede_ipgre_enable (hwfns : List hwfn_outcome) (qdev : qede_dev)
    (clss : ecore_tunn_clss) (enable : Bool) : tunn_result :=
  let tunn : ecore_tunnel_info :=
    { ip_gre := { b_update_mode := true, b_mode_enabled := enable, tun_cls := clss },
      b_update_rx_cls := true, b_update_tx_cls := true }
  let r := qede_tunnel_update qdev tunn hwfns
  if r.1 = ECORE_SUCCESS then
    { rc := r.1, dev := { qdev with ipgre := { qdev.ipgre with enable := enable } },
      calls := r.2 }
  else
    { rc := r.1, dev := qdev, calls := r.2 }

/-- The function `qede_tunn_enable`. -/
def qede_tunn_enable (c : qede_def_ports) (hwfns : List hwfn_outcome) (qdev : qede_dev)
    (clss : ecore_tunn_clss) (tunn_type : rte_eth_tunnel_type) (enable : Bool) : tunn_result :=
  match tunn_type with
  | rte_eth_tunnel_type.RTE_TUNNEL_TYPE_VXLAN => qede_vxlan_enable c hwfns qdev clss enable
  | rte_eth_tunnel_type.RTE_TUNNEL_TYPE_GENEVE => qede_geneve_enable c hwfns qdev clss enable
  | rte_eth_tunnel_type.RTE_TUNNEL_TYPE_IP_IN_GRE => qede_ipgre_enable hwfns qdev clss enable
  | _ => { rc := -EINVAL, dev := qdev, calls := [] }

/-- The table `qede_tunn_types`: filter type, ecore filter type, tunnel
classification. -/
def qede_tunn_types : List (Nat × ecore_filter_ucast_type × ecore_tunn_clss) :=
  [(ETH_TUNNEL_FILTER_OMAC, ecore_filter_ucast_type.ECORE_FILTER_MAC,
      ecore_tunn_clss.ECORE_TUNN_CLSS_MAC_VLAN),
   (ETH_TUNNEL_FILTER_TENID, ecore_filter_ucast_type.ECORE_FILTER_VNI,
      ecore_tunn_clss.ECORE_TUNN_CLSS_MAC_VNI),
   (ETH_TUNNEL_FILTER_IMAC, ecore_filter_ucast_type.ECORE_FILTER_INNER_MAC,
      ecore_tunn_clss.ECORE_TUNN_CLSS_INNER_MAC_VLAN),
   (ETH_TUNNEL_FILTER_IVLAN, ecore_filter_ucast_type.ECORE_FILTER_INNER_VLAN,
      ecore_tunn_clss.ECORE_TUNN_CLSS_INNER_MAC_VLAN),
   (ETH_TUNNEL_FILTER_OMAC ||| ETH_TUNNEL_FILTER_TENID,
      ecore_filter_ucast_type.ECORE_FILTER_MAC_VNI_PAIR,
      ecore_tunn_clss.ECORE_TUNN_CLSS_MAC_VNI),
   (ETH_TUNNEL_FILTER_OMAC ||| ETH_TUNNEL_FILTER_IMAC,
      ecore_filter_ucast_type.ECORE_FILTER_UNUSED, ecore_tunn_clss.MAX_ECORE_TUNN_CLSS),
   (ETH_TUNNEL_FILTER_OMAC ||| ETH_TUNNEL_FILTER_IVLAN,
      ecore_filter_ucast_type.ECORE_FILTER_UNUSED, ecore_tunn_clss.MAX_ECORE_TUNN_CLSS),
   (ETH_TUNNEL_FILTER_TENID ||| ETH_TUNNEL_FILTER_IMAC,
      ecore_filter_ucast_type.ECORE_FILTER_INNER_MAC_VNI_PAIR,
      ecore_tunn_clss.ECORE_TUNN_CLSS_INNER_MAC_VNI),
   (ETH_TUNNEL_FILTER_TENID ||| ETH_TUNNEL_FILTER_IVLAN,
      ecore_filter_ucast_type.ECORE_FILTER_UNUSED, ecore_tunn_clss.MAX_ECORE_TUNN_CLSS),
   (ETH_TUNNEL_FILTER_IMAC ||| ETH_TUNNEL_FILTER_IVLAN,
      ecore_filter_ucast_type.ECORE_FILTER_INNER_PAIR,
      ecore_tunn_clss.ECORE_TUNN_CLSS_INNER_MAC_VLAN),
   (ETH_TUNNEL_FILTER_OIP,
      ecore_filter_ucast_type.ECORE_FILTER_UNUSED, ecore_tunn_clss.MAX_ECORE_TUNN_CLSS),
   (ETH_TUNNEL_FILTER_IIP,
      ecore_filter_ucast_type.ECORE_FILTER_UNUSED, ecore_tunn_clss.MAX_ECORE_TUNN_CLSS),
   (RTE_TUNNEL_FILTER_IMAC_IVLAN,
      ecore_filter_ucast_type.ECORE_FILTER_UNUSED, ecore_tunn_clss.MAX_ECORE_TUNN_CLSS),
   (RTE_TUNNEL_FILTER_IMAC_IVLAN_TENID,
      ecore_filter_ucast_type.ECORE_FILTER_UNUSED, ecore_tunn_clss.MAX_ECORE_TUNN_CLSS),
   (RTE_TUNNEL_FILTER_IMAC_TENID,
      ecore_filter_ucast_type.ECORE_FILTER_UNUSED, ecore_tunn_clss.MAX_ECORE_TUNN_CLSS),
   (RTE_TUNNEL_FILTER_OMAC_TENID_IMAC,
      ecore_filter_ucast_type.ECORE_FILTER_UNUSED, ecore_tunn_clss.MAX_ECORE_TUNN_CLSS)]

/-- The function `qede_get_ecore_tunn_params`: the ecore filter type of the
first table entry for `filter` (none when there is no entry, `*type` is then
left unset) and the classification, `MAX_ECORE_TUNN_CLSS` when there is no
entry. -/
def qede_get_ecore_tunn_params (filter : Nat) :
    Option ecore_filter_ucast_type × ecore_tunn_clss :=
  match qede_tunn_types.find? (fun e => e.1 == filter) with
  | some e => (some e.2.1, e.2.2)
  | none => (none, ecore_tunn_clss.MAX_ECORE_TUNN_CLSS)

/-- The function `qede_set_ucast_tunn_cmn_param`. -/
def qede_set_ucast_tunn_cmn_param (conf : rte_eth_tunnel_filter_conf)
    (type : ecore_filter_ucast_type) : Int × ecore_filter_ucast :=
  match type with
  | ecore_filter_ucast_type.ECORE_FILTER_VNI =>
    (ECORE_SUCCESS, { type := type, vni := conf.tenant_id })
  | ecore_filter_ucast_type.ECORE_FILTER_INNER_VLAN =>
    (ECORE_SUCCESS, { type := type, vlan := conf.inner_vlan })
  | ecore_filter_ucast_type.ECORE_FILTER_MAC =>
    (ECORE_SUCCESS, { type := type, mac := conf.outer_mac })
  | ecore_filter_ucast_type.ECORE_FILTER_INNER_MAC =>
    (ECORE_SUCCESS, { type := type, mac := conf.inner_mac })
  | ecore_filter_ucast_type.ECORE_FILTER_MAC_VNI_PAIR =>
    (ECORE_SUCCESS, { type := type, mac := conf.outer_mac, vni := conf.tenant_id })
  | ecore_filter_ucast_type.ECORE_FILTER_INNER_MAC_VNI_PAIR =>
    (ECORE_SUCCESS, { type := type, mac := conf.inner_mac, vni := conf.tenant_id })
  | ecore_filter_ucast_type.ECORE_FILTER_INNER_PAIR =>
    (ECORE_SUCCESS, { type := type, mac := conf.inner_mac, vlan := conf.inner_vlan })
  | _ => (-EINVAL, { type := type })

/-- What `_qede_tunn_filter_config` returns: the return value, the
classification left in `*clss` and the outside calls made. -/
structure tunn_filter_result where
  rc : Int
  clss : ecore_tunn_clss
  calls : List tunn_call
  deriving DecidableEq

/-- The function `_qede_tunn_filter_config`. -/
def _qede_tunn_filter_config (env : tunn_env) (conf : rte_eth_tunnel_filter_conf)
    (add : Bool) : tunn_filter_result :=
  let filter_type := conf.filter_type % 65536
  let p := qede_get_ecore_tunn_params filter_type
  if p.2 = ecore_tunn_clss.MAX_ECORE_TUNN_CLSS then
    { rc := -EINVAL, clss := p.2, calls := [] }
  else
    match p.1 with
    | none => { rc := -EINVAL, clss := p.2, calls := [] }
    | some type =>
      let u := qede_set_ucast_tunn_cmn_param conf type
      if u.1 ≠ ECORE_SUCCESS then
        { rc := u.1, clss := p.2, calls := [] }
      else
        let ucast := { u.2 with opcode_add := add }
        if filter_type &&& ETH_TUNNEL_FILTER_TENID = 0 then
          if env.mac_int_ops_rc = 0 ∧ add = true then
            { rc := env.mac_int_ops_rc, clss := p.2,
              calls := [tunn_call.mac_int_ops ucast add, tunn_call.config_accept_any_vlan true] }
          else
            { rc := env.mac_int_ops_rc, clss := p.2, calls := [tunn_call.mac_int_ops ucast add] }
        else
          if env.ucast_filter_rc = 0 then
            { rc := env.ucast_cmd_rc, clss := p.2,
              calls := [tunn_call.ucast_filter ucast add, tunn_call.filter_ucast_cmd ucast] }
          else
            { rc := env.ucast_filter_rc, clss := p.2,
              calls := [tunn_call.ucast_filter ucast add] }

/-- The counter update and the enable or disable decision of
`qede_tunn_filter_config` on a PF, after `_qede_tunn_filter_config` has
succeeded with classification `clss`. -/
def qede_tunn_filter_count (c : qede_def_ports) (hwfns : List hwfn_outcome) (qdev : qede_dev)
    (conf : rte_eth_tunnel_filter_conf) (clss : ecore_tunn_clss) (add : Bool) : tunn_result :=
  if add = true then
    let qdev :=
      if conf.tunnel_type = rte_eth_tunnel_type.RTE_TUNNEL_TYPE_VXLAN then
        { qdev with vxlan := { qdev.vxlan with
            num_filters := (qdev.vxlan.num_filters + 1) % 65536,
            filter_type := conf.filter_type % 65536 } }
      else
        { qdev with geneve := { qdev.geneve with
            num_filters := (qdev.geneve.num_filters + 1) % 65536,
            filter_type := conf.filter_type % 65536 } }
    if qdev.vxlan.enable = false ∨ qdev.geneve.enable = false ∨ qdev.ipgre.enable = false then
      qede_tunn_enable c hwfns qdev clss conf.tunnel_type true
    else
      { rc := 0, dev := qdev, calls := [] }
  else
    let qdev :=
      if conf.tunnel_type = rte_eth_tunnel_type.RTE_TUNNEL_TYPE_VXLAN then
        { qdev with vxlan := { qdev.vxlan with
            num_filters := (qdev.vxlan.num_filters + 65535) % 65536 } }
      else
        { qdev with geneve := { qdev.geneve with
            num_filters := (qdev.geneve.num_filters + 65535) % 65536 } }
    if qdev.vxlan.num_filters = 0 ∨ qdev.geneve.num_filters = 0 then
      qede_tunn_enable c hwfns qdev clss conf.tunnel_type false
    else
      { rc := 0, dev := qdev, calls := [] }

/-- The function `qede_tunn_filter_config`. -/
def qede_tunn_filter_config (c : qede_def_ports) (env : tunn_env) (qdev : qede_dev)
    (filter_op : rte_filter_op) (conf : rte_eth_tunnel_filter_conf) : tunn_result :=
  if filter_op ≠ rte_filter_op.RTE_ETH_FILTER_ADD ∧
      filter_op ≠ rte_filter_op.RTE_ETH_FILTER_DELETE then
    { rc := -EINVAL, dev := qdev, calls := [] }
  else
    let add : Bool := decide (filter_op = rte_filter_op.RTE_ETH_FILTER_ADD)
    if qdev.is_vf = true then
      qede_tunn_enable c env.hwfns qdev ecore_tunn_clss.ECORE_TUNN_CLSS_MAC_VLAN
        conf.tunnel_type add
    else
      let f := _qede_tunn_filter_config env conf add
      if f.rc ≠ ECORE_SUCCESS then
        { rc := f.rc, dev := qdev, calls := f.calls }
      else
        let r := qede_tunn_filter_count c env.hwfns qdev conf f.clss add
        { rc := r.rc, dev := r.dev, calls := f.calls ++ r.calls }

/-- One tunnel filter request with the outcomes of its outside calls. -/
structure tunn_request where
  env : tunn_env := {}
  filter_op : rte_filter_op
  conf : rte_eth_tunnel_filter_conf
  deriving DecidableEq

/-- The device after a sequence of tunnel filter requests, with the values the
requests returned, in order. -/
def tunn_run (c : qede_def_ports) (qdev : qede_dev) :
    List tunn_request → qede_dev × List Int
  | [] => (qdev, [])
  | r :: rs =>
    ((tunn_run c (qede_tunn_filter_config c r.env qdev r.filter_op r.conf).dev rs).1,
      (qede_tunn_filter_config c r.env qdev r.filter_op r.conf).rc ::
        (tunn_run c (qede_tunn_filter_config c r.env qdev r.filter_op r.conf).dev rs).2)

/-- The default ports of `qede_ethdev.h`: 4789 for VXLAN, 6081 for GENEVE. -/
def def_ports : qede_def_ports := { QEDE_VXLAN_DEF_PORT := 4789, QEDE_GENEVE_DEF_PORT := 6081 }

/-- A VXLAN filter on the outer MAC address `02:00:00:00:00:0i`. -/
def conf_vxlan (i : Nat) : rte_eth_tunnel_filter_conf :=
  { outer_mac := [2, 0, 0, 0, 0, i], filter_type := ETH_TUNNEL_FILTER_OMAC,
    tunnel_type := rte_eth_tunnel_type.RTE_TUNNEL_TYPE_VXLAN }

/-- An IP-in-GRE filter on the outer MAC address `02:00:00:00:00:01`. -/
def conf_ipgre : rte_eth_tunnel_filter_conf :=
  { outer_mac := [2, 0, 0, 0, 0, 1], filter_type := ETH_TUNNEL_FILTER_OMAC,
    tunnel_type := rte_eth_tunnel_type.RTE_TUNNEL_TYPE_IP_IN_GRE }

/-- Two VXLAN filters are added, then the first is deleted; every outside call
succeeds. -/
def reqs_vxlan_add_add_del : List tunn_request :=
  [{ filter_op := rte_filter_op.RTE_ETH_FILTER_ADD, conf := conf_vxlan 1 },
   { filter_op := rte_filter_op.RTE_ETH_FILTER_ADD, conf := conf_vxlan 2 },
   { filter_op := rte_filter_op.RTE_ETH_FILTER_DELETE, conf := conf_vxlan 1 }]

/-! ## The ntuple entry -/

/-- The members of `rte_eth_ntuple_filter` the source reads. -/
structure rte_eth_ntuple_filter where
  dst_ip : Nat := 0
  src_ip : Nat := 0
  dst_port : Nat := 0
  src_port : Nat := 0
  proto : Nat := 0
  queue : Nat := 0
  deriving DecidableEq

/-- The block "Internally convert ntuple to fdir entry" of
`qede_ntuple_filter_conf`: the zeroed `fdir_entry` with the members the source
assigns. -/
def ntuple_to_fdir (ntuple : rte_eth_ntuple_filter) : rte_eth_fdir_filter :=
  if ntuple.proto % 256 = IPPROTO_TCP then
    { input := { flow_type := RTE_ETH_FLOW_NONFRAG_IPV4_TCP,
                 flow := { udp4_flow := { ip := { src_ip := ntuple.src_ip, dst_ip := ntuple.dst_ip,
                                                   proto := IPPROTO_TCP },
                                          src_port := ntuple.src_port,
                                          dst_port := ntuple.dst_port } } },
      action := { rx_queue := ntuple.queue } }
  else
    { input := { flow_type := RTE_ETH_FLOW_NONFRAG_IPV4_UDP,
                 flow := { udp4_flow := { ip := { src_ip := ntuple.src_ip, dst_ip := ntuple.dst_ip,
                                                   proto := IPPROTO_TCP },
                                          src_port := ntuple.src_port,
                                          dst_port := ntuple.dst_port } } },
      action := { rx_queue := ntuple.queue } }

/-- The function `qede_ntuple_filter_conf`. -/
def qede_ntuple_filter_conf (QEDE_RFS_MAX_FLTR : Nat) (be : Bool) (env : fdir_env)
    (qdev : qede_dev) (filter_op : rte_filter_op) (ntuple : rte_eth_ntuple_filter) :
    fdir_result :=
  match filter_op with
  | rte_filter_op.RTE_ETH_FILTER_NOP =>
    if qdev.is_cmt = true then { rc := -ENOTSUP, dev := qdev, calls := [] }
    else { rc := 0, dev := qdev, calls := [] }
  | rte_filter_op.RTE_ETH_FILTER_ADD =>
    qede_config_cmn_fdir_filter QEDE_RFS_MAX_FLTR be env qdev (ntuple_to_fdir ntuple) true
  | rte_filter_op.RTE_ETH_FILTER_DELETE =>
    qede_config_cmn_fdir_filter QEDE_RFS_MAX_FLTR be env qdev (ntuple_to_fdir ntuple) false
  | _ => { rc := -ENOTSUP, dev := qdev, calls := [] }

/-- One filter request with the outcomes of its outside calls: a flow-director
add or delete (`qede_fdir_filter_add`) or an ntuple operation
(`qede_ntuple_filter_conf`). -/
inductive filter_request where
  | fdir (env : fdir_env) (filter : rte_eth_fdir_filter) (add : Bool)
  | ntuple (env : fdir_env) (filter_op : rte_filter_op) (ntuple : rte_eth_ntuple_filter)
  deriving DecidableEq

/-- The device after one flow-director or ntuple request. -/
def filter_step (QEDE_RFS_MAX_FLTR : Nat) (be : Bool) (qdev : qede_dev) :
    filter_request → qede_dev
  | filter_request.fdir env filter add =>
    (qede_fdir_filter_add QEDE_RFS_MAX_FLTR be env qdev filter add).dev
  | filter_request.ntuple env filter_op ntuple =>
    (qede_ntuple_filter_conf QEDE_RFS_MAX_FLTR be env qdev filter_op ntuple).dev

/-- The device after a sequence of flow-director and ntuple requests. -/
def filter_run (QEDE_RFS_MAX_FLTR : Nat) (be : Bool) (qdev : qede_dev)
    (reqs : List filter_request) : qede_dev :=
  reqs.foldl (filter_step QEDE_RFS_MAX_FLTR be) qdev

/-- An ntuple filter for UDP (protocol 17) from 10.0.0.1 port 1234 to 10.0.0.2
port 80, queue 1. -/
def ntuple_udp : rte_eth_ntuple_filter :=
  { src_ip := 0x0100000a, dst_ip := 0x0200000a, src_port := 0xd204, dst_port := 0x5000,
    proto := 17, queue := 1 }

/-- The same ntuple filter for TCP (protocol 6). -/
def ntuple_tcp : rte_eth_ntuple_filter := { ntuple_udp with proto := 6 }

/-- A sequence of flow-director and ntuple requests on a device with 4 receive
queues. -/
def filter_reqs_example : List filter_request :=
  [filter_request.fdir {} d_tcp4 true,
   filter_request.ntuple {} rte_filter_op.RTE_ETH_FILTER_ADD ntuple_udp,
   filter_request.ntuple env_hw_fail rte_filter_op.RTE_ETH_FILTER_ADD ntuple_tcp,
   filter_request.fdir {} d_tcp4 false,
   filter_request.ntuple {} rte_filter_op.RTE_ETH_FILTER_NOP ntuple_udp]

/-- The IPv4/UDP descriptor with source port 7 aimed at receive queue 3. -/
def d_udp4_q3 : rte_eth_fdir_filter := { d_udp4 7 with action := { rx_queue := 3 } }

/-! ## UDP tunnel ports -/

/-- The structure `rte_eth_udp_tunnel`; `prot_type` holds a value of
`rte_eth_tunnel_type`, which is what the source compares it with. -/
structure rte_eth_udp_tunnel where
  udp_port : Nat := 0
  prot_type : rte_eth_tunnel_type
  deriving DecidableEq

/-- Outcomes of the hardware updates of one UDP port request: `port_hwfns` for
the `qede_tunnel_update` that changes the port, `enable_hwfns` for the one
inside `qede_vxlan_enable` or `qede_geneve_enable`. -/
structure udp_port_env where
  port_hwfns : List hwfn_outcome := [{}]
  enable_hwfns : List hwfn_outcome := [{}]
  deriving DecidableEq

/-- The function `qede_udp_dst_port_del`. -/
def qede_udp_dst_port_del (c : qede_def_ports) (env : udp_port_env) (qdev : qede_dev)
    (tunnel_udp : rte_eth_udp_tunnel) : tunn_result :=
  match tunnel_udp.prot_type with
  | rte_eth_tunnel_type.RTE_TUNNEL_TYPE_VXLAN =>
    if qdev.vxlan.udp_port ≠ tunnel_udp.udp_port % 65536 then
      { rc := ECORE_INVAL, dev := qdev, calls := [] }
    else
      let tunn : ecore_tunnel_info := { vxlan_port := { b_update_port := true, port := 0 } }
      let r := qede_tunnel_update qdev tunn env.port_hwfns
      if r.1 ≠ ECORE_SUCCESS then
        { rc := r.1, dev := qdev, calls := r.2 }
      else
        let qdev1 : qede_dev := { qdev with vxlan := { qdev.vxlan with udp_port := 0 } }
        if qdev1.vxlan.enable = true ∧ qdev1.vxlan.num_filters = 0 then
          let e := qede_vxlan_enable c env.enable_hwfns qdev1
            ecore_tunn_clss.ECORE_TUNN_CLSS_MAC_VLAN false
          { rc := e.rc, dev := e.dev, calls := r.2 ++ e.calls }
        else
          { rc := 0, dev := qdev1, calls := r.2 }
  | rte_eth_tunnel_type.RTE_TUNNEL_TYPE_GENEVE =>
    if qdev.geneve.udp_port ≠ tunnel_udp.udp_port % 65536 then
      { rc := ECORE_INVAL, dev := qdev, calls := [] }
    else
      let tunn : ecore_tunnel_info := { geneve_port := { b_update_port := true, port := 0 } }
      let r := qede_tunnel_update qdev tunn env.port_hwfns
      if r.1 ≠ ECORE_SUCCESS then
        { rc := r.1, dev := qdev, calls := r.2 }
      else
        let qdev1 : qede_dev := { qdev with vxlan := { qdev.vxlan with udp_port := 0 } }
        if qdev1.geneve.enable = true ∧ qdev1.geneve.num_filters = 0 then
          let e := qede_geneve_enable c env.enable_hwfns qdev1
            ecore_tunn_clss.ECORE_TUNN_CLSS_MAC_VLAN false
          { rc := e.rc, dev := e.dev, calls := r.2 ++ e.calls }
        else
          { rc := 0, dev := qdev1, calls := r.2 }
  | _ => { rc := ECORE_INVAL, dev := qdev, calls := [] }

/-- The function `qede_udp_dst_port_add`. -/
def qede_udp_dst_port_add (c : qede_def_ports) (env : udp_port_env) (qdev : qede_dev)
    (tunnel_udp : rte_eth_udp_tunnel) : tunn_result :=
  match tunnel_udp.prot_type with
  | rte_eth_tunnel_type.RTE_TUNNEL_TYPE_VXLAN =>
    if qdev.vxlan.udp_port = tunnel_udp.udp_port % 65536 then
      { rc := ECORE_SUCCESS, dev := qdev, calls := [] }
    else
      let e : tunn_result :=
        if qdev.vxlan.enable = false then
          qede_vxlan_enable c env.enable_hwfns qdev ecore_tunn_clss.ECORE_TUNN_CLSS_MAC_VLAN true
        else
          { rc := ECORE_SUCCESS, dev := qdev, calls := [] }
      if e.rc ≠ ECORE_SUCCESS then
        e
      else
        let udp_port := tunnel_udp.udp_port % 65536
        let tunn : ecore_tunnel_info :=
          { vxlan_port := { b_update_port := true, port := udp_port } }
        let r := qede_tunnel_update e.dev tunn env.port_hwfns
        if r.1 ≠ ECORE_SUCCESS then
          { rc := r.1, dev := e.dev, calls := e.calls ++ r.2 }
        else
          { rc := 0, dev := { e.dev with vxlan := { e.dev.vxlan with udp_port := udp_port } },
            calls := e.calls ++ r.2 }
  | rte_eth_tunnel_type.RTE_TUNNEL_TYPE_GENEVE =>
    if qdev.geneve.udp_port = tunnel_udp.udp_port % 65536 then
      { rc := ECORE_SUCCESS, dev := qdev, calls := [] }
    else
      let e : tunn_result :=
        if qdev.geneve.enable = false then
          qede_geneve_enable c env.enable_hwfns qdev ecore_tunn_clss.ECORE_TUNN_CLSS_MAC_VLAN true
        else
          { rc := ECORE_SUCCESS, dev := qdev, calls := [] }
      if e.rc ≠ ECORE_SUCCESS then
        e
      else
        let udp_port := tunnel_udp.udp_port % 65536
        let tunn : ecore_tunnel_info :=
          { geneve_port := { b_update_port := true, port := udp_port } }
        let r := qede_tunnel_update e.dev tunn env.port_hwfns
        if r.1 ≠ ECORE_SUCCESS then
          { rc := r.1, dev := e.dev, calls := e.calls ++ r.2 }
        else
          { rc := 0, dev := { e.dev with geneve := { e.dev.geneve with udp_port := udp_port } },
            calls := e.calls ++ r.2 }
  | _ => { rc := ECORE_INVAL, dev := qdev, calls := [] }

/-- Whether an outside call is a hardware tunnel update
(`ecore_sp_pf_update_tunn_cfg`). -/
def tunn_is_update : tunn_call → Bool
  | tunn_call.sp_pf_update_tunn_cfg _ => true
  | _ => false

/-- Whether a request issued a hardware tunnel update. -/
def tunn_updated (r : tunn_result) : Bool := r.calls.any tunn_is_update

/-- Every hardware function hands out a PTT and accepts the update, and there
is at least one hardware function. -/
def hwfns_ok (hwfns : List hwfn_outcome) : Bool :=
  !hwfns.isEmpty && hwfns.all (fun h => h.ptt_ok && decide (h.rc = ECORE_SUCCESS))

/-- The enabled flag of a tunnel kind. -/
def tunn_kind_enabled (qdev : qede_dev) : rte_eth_tunnel_type → Bool
  | rte_eth_tunnel_type.RTE_TUNNEL_TYPE_VXLAN => qdev.vxlan.enable
  | rte_eth_tunnel_type.RTE_TUNNEL_TYPE_GENEVE => qdev.geneve.enable
  | rte_eth_tunnel_type.RTE_TUNNEL_TYPE_IP_IN_GRE => qdev.ipgre.enable
  | _ => false

/-- A GENEVE filter on the outer MAC address `02:00:00:00:00:0i`. -/
def conf_geneve (i : Nat) : rte_eth_tunnel_filter_conf :=
  { outer_mac := [2, 0, 0, 0, 0, i], filter_type := ETH_TUNNEL_FILTER_OMAC,
    tunnel_type := rte_eth_tunnel_type.RTE_TUNNEL_TYPE_GENEVE }

/-- The request to bind or release UDP port 1234 for GENEVE. -/
def geneve_port_1234 : rte_eth_udp_tunnel :=
  { udp_port := 1234, prot_type := rte_eth_tunnel_type.RTE_TUNNEL_TYPE_GENEVE }

/-- The request to bind or release UDP port 4790 for VXLAN. -/
def vxlan_port_4790 : rte_eth_udp_tunnel :=
  { udp_port := 4790, prot_type := rte_eth_tunnel_type.RTE_TUNNEL_TYPE_VXLAN }

/-- The device after UDP port 1234 was bound for GENEVE on the initial device,
every hardware update succeeding. -/
def dev_geneve_1234 : qede_dev := (qede_udp_dst_port_add def_ports {} {} geneve_port_1234).dev

/-- The device after one VXLAN filter and then one GENEVE filter were added on
the initial device, every outside call succeeding. -/
def dev_vxlan_geneve : qede_dev :=
  (tunn_run def_ports {}
    [{ filter_op := rte_filter_op.RTE_ETH_FILTER_ADD, conf := conf_vxlan 1 },
     { filter_op := rte_filter_op.RTE_ETH_FILTER_ADD, conf := conf_geneve 2 }]).1

/-- The device after one IP-in-GRE filter was added on the initial device. -/
def dev_ipgre : qede_dev :=
  (qede_tunn_filter_config def_ports {} {} rte_filter_op.RTE_ETH_FILTER_ADD conf_ipgre).dev

/-- The device after one VXLAN filter was added on the initial device. -/
def dev_vxlan_one : qede_dev :=
  (qede_tunn_filter_config def_ports {} {} rte_filter_op.RTE_ETH_FILTER_ADD (conf_vxlan 1)).dev

end Qede

namespace Bnxt

/-! ## The bnxt default-rule parameter handler (`drivers/net/bnxt/tf_ulp/ulp_def_rules.c`)

The port database (`ulp_port_db.h`) and the template enumerations
(`ulp_template_db_enum.h`) are not among the sources.  The lookups of the port
database are functions carried by the context; an enumeration is a type with
the enumerators the source names; a computed field holds the value last
handed to `ULP_COMP_FLD_IDX_WR` for it, or nothing when the macro was not
applied to it. -/

def BNXT_ULP_FREE_PARIF_BASE : Nat := 11

/-- The enumerators of `bnxt_ulp_svif_type` the source names. -/
inductive bnxt_ulp_svif_type where
  | BNXT_ULP_DRV_FUNC_SVIF
  | BNXT_ULP_VF_FUNC_SVIF
  | BNXT_ULP_PHY_PORT_SVIF
  deriving DecidableEq

/-- The enumerators of `bnxt_ulp_spif_type` the source names. -/
inductive bnxt_ulp_spif_type where
  | BNXT_ULP_DRV_FUNC_SPIF
  | BNXT_ULP_VF_FUNC_SPIF
  | BNXT_ULP_PHY_PORT_SPIF
  deriving DecidableEq

/-- The enumerators of `bnxt_ulp_parif_type` the source names. -/
inductive bnxt_ulp_parif_type where
  | BNXT_ULP_DRV_FUNC_PARIF
  | BNXT_ULP_VF_FUNC_PARIF
  | BNXT_ULP_PHY_PORT_PARIF
  deriving DecidableEq

/-- The computed-field indices (`BNXT_ULP_CF_IDX_...`) the source writes. -/
inductive bnxt_ulp_cf_idx where
  | BNXT_ULP_CF_IDX_PHY_PORT_SVIF
  | BNXT_ULP_CF_IDX_DRV_FUNC_SVIF
  | BNXT_ULP_CF_IDX_VF_FUNC_SVIF
  | BNXT_ULP_CF_IDX_PHY_PORT_SPIF
  | BNXT_ULP_CF_IDX_DRV_FUNC_SPIF
  | BNXT_ULP_CF_IDX_VF_FUNC_SPIF
  | BNXT_ULP_CF_IDX_PHY_PORT_PARIF
  | BNXT_ULP_CF_IDX_DRV_FUNC_PARIF
  | BNXT_ULP_CF_IDX_VF_FUNC_PARIF
  | BNXT_ULP_CF_IDX_PHY_PORT_VPORT
  | BNXT_ULP_CF_IDX_DRV_FUNC_VNIC
  | BNXT_ULP_CF_IDX_VF_FUNC_VNIC
  | BNXT_ULP_CF_IDX_DEV_PORT_ID
  deriving DecidableEq

/-- The action bits (`BNXT_ULP_ACTION_BIT_...`) the source tests and sets. -/
inductive bnxt_ulp_action_bit where
  | BNXT_ULP_ACTION_BIT_SET_VLAN_VID
  | BNXT_ULP_ACTION_BIT_MARK
  deriving DecidableEq

/-- Constants of headers that are not among the sources; they are a parameter
of every definition that uses them. -/
structure bnxt_ulp_consts where
  BNXT_TF_RC_ERROR : Int
  BNXT_ULP_DRV_FUNC_VNIC : Nat
  BNXT_ULP_ACT_PROP_IDX_ENCAP_VTAG : Nat
  deriving DecidableEq

/-- The part of `bnxt_ulp_context` the handler uses: the lookups of the port
database.  Each returns the C return value and the value left in the out
parameter. -/
structure bnxt_ulp_context where
  ulp_port_db_dev_port_to_ulp_index : Nat → Int × Nat
  ulp_port_db_svif_get : Nat → bnxt_ulp_svif_type → Int × Nat
  ulp_port_db_spif_get : Nat → bnxt_ulp_spif_type → Int × Nat
  ulp_port_db_parif_get : Nat → bnxt_ulp_parif_type → Int × Nat
  ulp_port_db_vport_get : Nat → Int × Nat
  ulp_port_db_default_vnic_get : Nat → Nat → Int × Nat

/-- The members of `ulp_tlv_param`. -/
structure ulp_tlv_param where
  type : Nat := 0
  length : Nat := 0
  value : List Nat := []
  deriving DecidableEq

/-- The members of `bnxt_ulp_mapper_create_parms` the handler reads and
writes: the computed fields, the action bitmap `act->bits` and the bytes
`act_prop->act_details`. -/
structure bnxt_ulp_mapper_create_parms where
  comp_fld : bnxt_ulp_cf_idx → Option Nat := fun _ => none
  act_bits : bnxt_ulp_action_bit → Bool := fun _ => false
  act_details : List Nat := []

/-- The effect of `ULP_COMP_FLD_IDX_WR(mapper_params, idx, val)`. -/
def comp_fld_wr (mapper_params : bnxt_ulp_mapper_create_parms) (idx : bnxt_ulp_cf_idx)
    (val : Nat) : bnxt_ulp_mapper_create_parms :=
  { mapper_params with
    comp_fld := fun i => if i = idx then some val else mapper_params.comp_fld i }

/-- The function `ulp_set_svif_in_comp_fld`. -/
def ulp_set_svif_in_comp_fld (ulp_ctx : bnxt_ulp_context) (ifindex : Nat)
    (svif_type : bnxt_ulp_svif_type) (mapper_params : bnxt_ulp_mapper_create_parms) :
    Int × bnxt_ulp_mapper_create_parms :=
  if (ulp_ctx.ulp_port_db_svif_get ifindex svif_type).1 ≠ 0 then
    ((ulp_ctx.ulp_port_db_svif_get ifindex svif_type).1, mapper_params)
  else
    (0, comp_fld_wr mapper_params
      (if svif_type = bnxt_ulp_svif_type.BNXT_ULP_PHY_PORT_SVIF then
        bnxt_ulp_cf_idx.BNXT_ULP_CF_IDX_PHY_PORT_SVIF
       else if svif_type = bnxt_ulp_svif_type.BNXT_ULP_DRV_FUNC_SVIF then
        bnxt_ulp_cf_idx.BNXT_ULP_CF_IDX_DRV_FUNC_SVIF
       else bnxt_ulp_cf_idx.BNXT_ULP_CF_IDX_VF_FUNC_SVIF)
      ((ulp_ctx.ulp_port_db_svif_get ifindex svif_type).2 % 65536))

/-- The function `ulp_set_spif_in_comp_fld`. -/
def ulp_set_spif_in_comp_fld (ulp_ctx : bnxt_ulp_context) (ifindex : Nat)
    (spif_type : bnxt_ulp_spif_type) (mapper_params : bnxt_ulp_mapper_create_parms) :
    Int × bnxt_ulp_mapper_create_parms :=
  if (ulp_ctx.ulp_port_db_spif_get ifindex spif_type).1 ≠ 0 then
    ((ulp_ctx.ulp_port_db_spif_get ifindex spif_type).1, mapper_params)
  else
    (0, comp_fld_wr mapper_params
      (if spif_type = bnxt_ulp_spif_type.BNXT_ULP_PHY_PORT_SPIF then
        bnxt_ulp_cf_idx.BNXT_ULP_CF_IDX_PHY_PORT_SPIF
       else if spif_type = bnxt_ulp_spif_type.BNXT_ULP_DRV_FUNC_SPIF then
        bnxt_ulp_cf_idx.BNXT_ULP_CF_IDX_DRV_FUNC_SPIF
       else bnxt_ulp_cf_idx.BNXT_ULP_CF_IDX_VF_FUNC_SPIF)
      ((ulp_ctx.ulp_port_db_spif_get ifindex spif_type).2 % 65536))

/-- The function `ulp_set_parif_in_comp_fld`. -/
def ulp_set_parif_in_comp_fld (ulp_ctx : bnxt_ulp_context) (ifindex : Nat)
    (parif_type : bnxt_ulp_parif_type) (mapper_params : bnxt_ulp_mapper_create_parms) :
    Int × bnxt_ulp_mapper_create_parms :=
  if (ulp_ctx.ulp_port_db_parif_get ifindex parif_type).1 ≠ 0 then
    ((ulp_ctx.ulp_port_db_parif_get ifindex parif_type).1, mapper_params)
  else if parif_type = bnxt_ulp_parif_type.BNXT_ULP_PHY_PORT_PARIF then
    (0, comp_fld_wr mapper_params bnxt_ulp_cf_idx.BNXT_ULP_CF_IDX_PHY_PORT_PARIF
      ((ulp_ctx.ulp_port_db_parif_get ifindex parif_type).2 % 65536))
  else if parif_type = bnxt_ulp_parif_type.BNXT_ULP_DRV_FUNC_PARIF then
    (0, comp_fld_wr mapper_params bnxt_ulp_cf_idx.BNXT_ULP_CF_IDX_DRV_FUNC_PARIF
      (((ulp_ctx.ulp_port_db_parif_get ifindex parif_type).2 % 65536
        + BNXT_ULP_FREE_PARIF_BASE) % 65536))
  else
    (0, comp_fld_wr mapper_params bnxt_ulp_cf_idx.BNXT_ULP_CF_IDX_VF_FUNC_PARIF
      ((ulp_ctx.ulp_port_db_parif_get ifindex parif_type).2 % 65536))

/-- The function `ulp_set_vport_in_comp_fld`. -/
def ulp_set_vport_in_comp_fld (ulp_ctx : bnxt_ulp_context) (ifindex : Nat)
    (mapper_params : bnxt_ulp_mapper_create_parms) : Int × bnxt_ulp_mapper_create_parms :=
  if (ulp_ctx.ulp_port_db_vport_get ifindex).1 ≠ 0 then
    ((ulp_ctx.ulp_port_db_vport_get ifindex).1, mapper_params)
  else
    (0, comp_fld_wr mapper_params bnxt_ulp_cf_idx.BNXT_ULP_CF_IDX_PHY_PORT_VPORT
      ((ulp_ctx.ulp_port_db_vport_get ifindex).2 % 65536))

/-- The function `ulp_set_vnic_in_comp_fld`; `vnic_type` is the `uint8_t` the
caller passes. -/
def ulp_set_vnic_in_comp_fld (c : bnxt_ulp_consts) (ulp_ctx : bnxt_ulp_context)
    (ifindex : Nat) (vnic_type : Nat) (mapper_params : bnxt_ulp_mapper_create_parms) :
    Int × bnxt_ulp_mapper_create_parms :=
  if (ulp_ctx.ulp_port_db_default_vnic_get ifindex vnic_type).1 ≠ 0 then
    ((ulp_ctx.ulp_port_db_default_vnic_get ifindex vnic_type).1, mapper_params)
  else
    (0, comp_fld_wr mapper_params
      (if vnic_type = c.BNXT_ULP_DRV_FUNC_VNIC then
        bnxt_ulp_cf_idx.BNXT_ULP_CF_IDX_DRV_FUNC_VNIC
       else bnxt_ulp_cf_idx.BNXT_ULP_CF_IDX_VF_FUNC_VNIC)
      ((ulp_ctx.ulp_port_db_default_vnic_get ifindex vnic_type).2 % 65536))

/-- The function `ulp_set_vlan_in_act_prop`; `be` is the byte order of the
host. -/
def ulp_set_vlan_in_act_prop (c : bnxt_ulp_consts) (be : Bool) (port_id : Nat)
    (mapper_params : bnxt_ulp_mapper_create_parms) : Int × bnxt_ulp_mapper_create_parms :=
  if mapper_params.act_bits bnxt_ulp_action_bit.BNXT_ULP_ACTION_BIT_SET_VLAN_VID = true then
    (c.BNXT_TF_RC_ERROR, mapper_params)
  else
    (0, { mapper_params with
          act_bits := fun b =>
            if b = bnxt_ulp_action_bit.BNXT_ULP_ACTION_BIT_SET_VLAN_VID then true
            else mapper_params.act_bits b,
          act_details := Qede.buf_write mapper_params.act_details
            c.BNXT_ULP_ACT_PROP_IDX_ENCAP_VTAG
            (Qede.store16 be (Qede.rte_cpu_to_be_16 be port_id)) })

/-- The function `ulp_set_mark_in_act_prop`. -/
def ulp_set_mark_in_act_prop (c : bnxt_ulp_consts) (port_id : Nat)
    (mapper_params : bnxt_ulp_mapper_create_parms) : Int × bnxt_ulp_mapper_create_parms :=
  if mapper_params.act_bits bnxt_ulp_action_bit.BNXT_ULP_ACTION_BIT_MARK = true then
    (c.BNXT_TF_RC_ERROR, mapper_params)
  else
    (0, comp_fld_wr mapper_params bnxt_ulp_cf_idx.BNXT_ULP_CF_IDX_DEV_PORT_ID port_id)

/-- The pattern `rc = f(..., mapper_params); if (rc) return rc;`: the next
step runs when the steps so far returned 0. -/
def ulp_then (r : Int × bnxt_ulp_mapper_create_parms)
    (f : bnxt_ulp_mapper_create_parms → Int × bnxt_ulp_mapper_create_parms) :
    Int × bnxt_ulp_mapper_create_parms :=
  if r.1 ≠ 0 then r else f r.2

/-- The steps of `ulp_df_dev_port_handler` after the port was found, in the
order of the source, each with the arguments the source passes. -/
def ulp_df_dev_port_steps (c : bnxt_ulp_consts) (be : Bool) (ulp_ctx : bnxt_ulp_context)
    (port_id ifindex : Nat) :
    List (bnxt_ulp_mapper_create_parms → Int × bnxt_ulp_mapper_create_parms) :=
  [ulp_set_svif_in_comp_fld ulp_ctx ifindex bnxt_ulp_svif_type.BNXT_ULP_PHY_PORT_SVIF,
   ulp_set_svif_in_comp_fld ulp_ctx ifindex bnxt_ulp_svif_type.BNXT_ULP_DRV_FUNC_SVIF,
   ulp_set_svif_in_comp_fld ulp_ctx ifindex bnxt_ulp_svif_type.BNXT_ULP_VF_FUNC_SVIF,
   ulp_set_spif_in_comp_fld ulp_ctx ifindex bnxt_ulp_spif_type.BNXT_ULP_PHY_PORT_SPIF,
   ulp_set_spif_in_comp_fld ulp_ctx ifindex bnxt_ulp_spif_type.BNXT_ULP_DRV_FUNC_SPIF,
   ulp_set_spif_in_comp_fld ulp_ctx ifindex bnxt_ulp_spif_type.BNXT_ULP_DRV_FUNC_SPIF,
   ulp_set_parif_in_comp_fld ulp_ctx ifindex bnxt_ulp_parif_type.BNXT_ULP_PHY_PORT_PARIF,
   ulp_set_parif_in_comp_fld ulp_ctx ifindex bnxt_ulp_parif_type.BNXT_ULP_DRV_FUNC_PARIF,
   ulp_set_parif_in_comp_fld ulp_ctx ifindex bnxt_ulp_parif_type.BNXT_ULP_VF_FUNC_PARIF,
   ulp_set_vnic_in_comp_fld c ulp_ctx ifindex 1,
   ulp_set_vnic_in_comp_fld c ulp_ctx ifindex 0,
   ulp_set_vport_in_comp_fld ulp_ctx ifindex,
   ulp_set_vlan_in_act_prop c be port_id,
   ulp_set_mark_in_act_prop c port_id]

/-- The function `ulp_df_dev_port_handler`: the return value and
`mapper_params` afterwards. -/
def ulp_df_dev_port_handler (c : bnxt_ulp_consts) (be : Bool) (ulp_ctx : bnxt_ulp_context)
    (param : ulp_tlv_param) (mapper_params : bnxt_ulp_mapper_create_parms) :
    Int × bnxt_ulp_mapper_create_parms :=
  let port_id := (param.value.getD 0 0 % 256) ||| (param.value.getD 1 0 % 256)
  if (ulp_ctx.ulp_port_db_dev_port_to_ulp_index port_id).1 ≠ 0 then
    (c.BNXT_TF_RC_ERROR, mapper_params)
  else
    (ulp_df_dev_port_steps c be ulp_ctx port_id
      ((ulp_ctx.ulp_port_db_dev_port_to_ulp_index port_id).2 % 4294967296)).foldl
      ulp_then (0, mapper_params)

/-- Example values of the header constants. -/
def consts_example : bnxt_ulp_consts :=
  { BNXT_TF_RC_ERROR := -1, BNXT_ULP_DRV_FUNC_VNIC := 0, BNXT_ULP_ACT_PROP_IDX_ENCAP_VTAG := 4 }

/-- A port database in which every lookup succeeds: device port 2 has
interface index 3, and for every interface the SVIF values are 10 (driver
function), 11 (VF function), 12 (physical port), the SPIF values 20, 21, 22,
the PARIF values 30, 31, 32, the default VNIC of type `t` is `40 + t` and the
VPORT is 50. -/
def ctx_example : bnxt_ulp_context :=
  { ulp_port_db_dev_port_to_ulp_index := fun port_id => (0, port_id + 1),
    ulp_port_db_svif_get := fun _ t =>
      (0, match t with
          | bnxt_ulp_svif_type.BNXT_ULP_DRV_FUNC_SVIF => 10
          | bnxt_ulp_svif_type.BNXT_ULP_VF_FUNC_SVIF => 11
          | bnxt_ulp_svif_type.BNXT_ULP_PHY_PORT_SVIF => 12),
    ulp_port_db_spif_get := fun _ t =>
      (0, match t with
          | bnxt_ulp_spif_type.BNXT_ULP_DRV_FUNC_SPIF => 20
          | bnxt_ulp_spif_type.BNXT_ULP_VF_FUNC_SPIF => 21
          | bnxt_ulp_spif_type.BNXT_ULP_PHY_PORT_SPIF => 22),
    ulp_port_db_parif_get := fun _ t =>
      (0, match t with
          | bnxt_ulp_parif_type.BNXT_ULP_DRV_FUNC_PARIF => 30
          | bnxt_ulp_parif_type.BNXT_ULP_VF_FUNC_PARIF => 31
          | bnxt_ulp_parif_type.BNXT_ULP_PHY_PORT_PARIF => 32),
    ulp_port_db_vport_get := fun _ => (0, 50),
    ulp_port_db_default_vnic_get := fun _ t => (0, 40 + t) }

/-- The parameter of type device port id with value 2. -/
def param_port_2 : ulp_tlv_param := { type := 0, length := 2, value := [2, 0] }

/-- The zeroed `mapper_params` of `ulp_default_flow_create`: no computed field
written, no action bit set, action details of 16 zero bytes. -/
def mapper_params_zero : bnxt_ulp_mapper_create_parms :=
  { act_details := List.replicate 16 0 }

end Bnxt

namespace Qede

/-! ## Properties of the builder used by the life cycle -/

theorem construct_ipv4_params_irrel (be : Bool) (i : rte_eth_fdir_input) (b : List Nat)
    (et : Nat) (p q : ecore_arfs_config_params) :
    (construct_ipv4 be i b et p).len = (construct_ipv4 be i b et q).len ∧
    (construct_ipv4 be i b et p).buff = (construct_ipv4 be i b et q).buff := by
  unfold construct_ipv4
  split_ifs <;> exact ⟨rfl, rfl⟩

theorem construct_ipv6_params_irrel (be : Bool) (i : rte_eth_fdir_input) (b : List Nat)
    (et : Nat) (p q : ecore_arfs_config_params) :
    (construct_ipv6 be i b et p).len = (construct_ipv6 be i b et q).len ∧
    (construct_ipv6 be i b et p).buff = (construct_ipv6 be i b et q).buff := by
  unfold construct_ipv6
  split_ifs <;> exact ⟨rfl, rfl⟩

/-- Length and bytes of the template do not depend on the classification
parameters handed to the builder. -/
theorem construct_params_irrel (be : Bool) (d : rte_eth_fdir_filter) (b : List Nat)
    (p q : ecore_arfs_config_params) :
    (qede_fdir_construct_pkt be d b p).len = (qede_fdir_construct_pkt be d b q).len ∧
    (qede_fdir_construct_pkt be d b p).buff = (qede_fdir_construct_pkt be d b q).buff := by
  unfold qede_fdir_construct_pkt
  split_ifs
  · exact construct_ipv4_params_irrel _ _ _ _ _ _
  · exact construct_ipv6_params_irrel _ _ _ _ _ _
  · exact ⟨rfl, rfl⟩

theorem construct_ipv4_len_pos (be : Bool) (i : rte_eth_fdir_input) (b : List Nat)
    (et : Nat) (p : ecore_arfs_config_params) :
    (construct_ipv4 be i b et p).len = et + 2 + 20 + 8 ∨
    (construct_ipv4 be i b et p).len = et + 2 + 20 + 20 := by
  unfold construct_ipv4
  split_ifs
  · left; rfl
  · right; rfl

theorem construct_ipv6_len_pos (be : Bool) (i : rte_eth_fdir_input) (b : List Nat)
    (et : Nat) (p : ecore_arfs_config_params) :
    (construct_ipv6 be i b et p).len = et + 2 + 40 + 8 ∨
    (construct_ipv6 be i b et p).len = et + 2 + 40 + 20 := by
  unfold construct_ipv6
  split_ifs
  · left; rfl
  · right; rfl

theorem valid_flow_iff (ft : Nat) :
    qede_valid_flow ft = true ↔
      (ft = RTE_ETH_FLOW_NONFRAG_IPV4_TCP ∨ ft = RTE_ETH_FLOW_NONFRAG_IPV4_UDP) ∨
      (ft = RTE_ETH_FLOW_NONFRAG_IPV6_TCP ∨ ft = RTE_ETH_FLOW_NONFRAG_IPV6_UDP) := by
  simp [qede_valid_flow, or_assoc]

/-- The builder returns length 0 exactly for the flow types `qede_valid_flow`
rejects. -/
theorem construct_len_eq_zero_iff (be : Bool) (d : rte_eth_fdir_filter) (b : List Nat)
    (p : ecore_arfs_config_params) :
    (qede_fdir_construct_pkt be d b p).len = 0 ↔ qede_valid_flow d.input.flow_type = false := by
  have hv := valid_flow_iff d.input.flow_type
  unfold qede_fdir_construct_pkt
  split_ifs with h4 h6
  · have h := construct_ipv4_len_pos be d.input (construct_l2 be d.input b).1
      (construct_l2 be d.input b).2 p
    have : qede_valid_flow d.input.flow_type = true := hv.2 (Or.inl h4)
    simp only [this]
    constructor
    · intro h0; omega
    · intro h0; cases h0
  · have h := construct_ipv6_len_pos be d.input (construct_l2 be d.input b).1
      (construct_l2 be d.input b).2 p
    have : qede_valid_flow d.input.flow_type = true := hv.2 (Or.inr h6)
    simp only [this]
    constructor
    · intro h0; omega
    · intro h0; cases h0
  · have : qede_valid_flow d.input.flow_type = false := by
      cases hq : qede_valid_flow d.input.flow_type
      · rfl
      · rcases hv.1 hq with h | h
        · exact absurd h h4
        · exact absurd h h6
    simp [this]

/-! ## The life cycle, block by block -/

@[simp] theorem fdir_built_list (be : Bool) (q : qede_dev) (d : rte_eth_fdir_filter) :
    (fdir_built be q d).fdir_info.fdir_list_head = q.fdir_info.fdir_list_head := rfl

@[simp] theorem fdir_built_count (be : Bool) (q : qede_dev) (d : rte_eth_fdir_filter) :
    (fdir_built be q d).fdir_info.filter_count = q.fdir_info.filter_count := rfl

@[simp] theorem fdir_force_enable_list (q : qede_dev) :
    (fdir_force_enable q).fdir_info.fdir_list_head = q.fdir_info.fdir_list_head := by
  unfold fdir_force_enable; split_ifs <;> rfl

@[simp] theorem fdir_force_enable_count (q : qede_dev) :
    (fdir_force_enable q).fdir_info.filter_count = q.fdir_info.filter_count := by
  unfold fdir_force_enable; split_ifs <;> rfl

@[simp] theorem fdir_force_enable_flag (q : qede_dev) :
    (fdir_force_enable q).fdir_info.arfs.arfs_enable = true := by
  unfold fdir_force_enable
  split_ifs with h
  · rfl
  · simpa using h

@[simp] theorem fdir_finish_rc (q : qede_dev) (c : List hw_call) : (fdir_finish q c).rc = 0 := by
  unfold fdir_finish; split_ifs <;> rfl

@[simp] theorem fdir_finish_list (q : qede_dev) (c : List hw_call) :
    (fdir_finish q c).dev.fdir_info.fdir_list_head = q.fdir_info.fdir_list_head := by
  unfold fdir_finish; split_ifs <;> rfl

@[simp] theorem fdir_finish_count (q : qede_dev) (c : List hw_call) :
    (fdir_finish q c).dev.fdir_info.filter_count = q.fdir_info.filter_count := by
  unfold fdir_finish; split_ifs <;> rfl

theorem fdir_finish_flag (q : qede_dev) (c : List hw_call) :
    (fdir_finish q c).dev.fdir_info.arfs.arfs_enable =
      (if q.fdir_info.filter_count = 0 then false else q.fdir_info.arfs.arfs_enable) := by
  unfold fdir_finish; split_ifs <;> rfl

/-- The function written over the template `fdir_pkt` and its length
`fdir_pkt_len`, one branch per exit of the C function. -/
theorem cmn_unfold (MAX : Nat) (be : Bool) (env : fdir_env) (qdev : qede_dev)
    (d : rte_eth_fdir_filter) (add : Bool) :
    qede_config_cmn_fdir_filter MAX be env qdev d add =
      if add = true ∧ (qdev.fdir_info.filter_count : Int) = (MAX : Int) - 1 then
        { rc := -EINVAL, dev := qdev, calls := [] }
      else if add = true ∧ env.malloc_ok = false then
        { rc := -ENOMEM, dev := qdev, calls := [] }
      else if env.mz_ok = false then
        { rc := -env.rte_errno, dev := qdev, calls := [] }
      else if fdir_pkt_len be d = 0 then
        { rc := -EINVAL, dev := fdir_built be qdev d, calls := [] }
      else if add = true ∧ (fdir_lookup qdev.fdir_info.fdir_list_head (fdir_pkt be d)
          (fdir_pkt_len be d)).isSome = true then
        { rc := 0, dev := fdir_built be qdev d, calls := [] }
      else if add = false ∧ (fdir_lookup qdev.fdir_info.fdir_list_head (fdir_pkt be d)
          (fdir_pkt_len be d)).isSome = false then
        { rc := -EEXIST, dev := fdir_built be qdev d, calls := [] }
      else
        fdir_finish
          (if env.hw_rc = ECORE_SUCCESS then
            fdir_list_update
              (if add = true then fdir_force_enable (fdir_built be qdev d)
                else fdir_built be qdev d)
              (d.action.rx_queue % 65536) (fdir_pkt be d) (fdir_pkt_len be d) add
          else
            (if add = true then fdir_force_enable (fdir_built be qdev d)
              else fdir_built be qdev d))
          ((if add = true then
              [hw_call.arfs_mode_configure
                (fdir_force_enable (fdir_built be qdev d)).fdir_info.arfs]
            else []) ++
            [hw_call.rfs_ntuple_filter (fdir_pkt be d) (fdir_pkt_len be d)
              (d.action.rx_queue % 65536) add]) := by
  have hl := (construct_params_irrel be d (List.replicate QEDE_MAX_FDIR_PKT_LEN 0)
    qdev.fdir_info.arfs {}).1
  have hb := (construct_params_irrel be d (List.replicate QEDE_MAX_FDIR_PKT_LEN 0)
    qdev.fdir_info.arfs {}).2
  simp only [qede_config_cmn_fdir_filter, fdir_pkt, fdir_pkt_len, hl, hb, fdir_built_list]
  cases add <;> simp

@[simp] theorem fdir_list_update_add_list (q : qede_dev) (rxq : Nat) (pkt : List Nat) (n : Nat) :
    (fdir_list_update q rxq pkt n true).fdir_info.fdir_list_head =
      { rx_queue := rxq, pkt_len := n, mz := pkt } :: q.fdir_info.fdir_list_head := rfl

@[simp] theorem fdir_list_update_add_count (q : qede_dev) (rxq : Nat) (pkt : List Nat) (n : Nat) :
    (fdir_list_update q rxq pkt n true).fdir_info.filter_count =
      (q.fdir_info.filter_count + 1) % 65536 := rfl

@[simp] theorem fdir_list_update_del_list (q : qede_dev) (rxq : Nat) (pkt : List Nat) (n : Nat) :
    (fdir_list_update q rxq pkt n false).fdir_info.fdir_list_head =
      fdir_remove q.fdir_info.fdir_list_head pkt n := rfl

@[simp] theorem fdir_list_update_del_count (q : qede_dev) (rxq : Nat) (pkt : List Nat) (n : Nat) :
    (fdir_list_update q rxq pkt n false).fdir_info.filter_count =
      (q.fdir_info.filter_count + 65535) % 65536 := rfl

@[simp] theorem fdir_list_update_flag (q : qede_dev) (rxq : Nat) (pkt : List Nat) (n : Nat)
    (add : Bool) :
    (fdir_list_update q rxq pkt n add).fdir_info.arfs = q.fdir_info.arfs := by
  unfold fdir_list_update
  split_ifs <;> rfl

theorem construct_ipv4_flag (be : Bool) (i : rte_eth_fdir_input) (b : List Nat)
    (et : Nat) (p : ecore_arfs_config_params) :
    (construct_ipv4 be i b et p).params.arfs_enable = p.arfs_enable := by
  unfold construct_ipv4
  split_ifs <;> rfl

theorem construct_ipv6_flag (be : Bool) (i : rte_eth_fdir_input) (b : List Nat)
    (et : Nat) (p : ecore_arfs_config_params) :
    (construct_ipv6 be i b et p).params.arfs_enable = p.arfs_enable := by
  unfold construct_ipv6
  split_ifs <;> rfl

/-- The builder never writes `arfs_enable`. -/
theorem construct_flag (be : Bool) (d : rte_eth_fdir_filter) (b : List Nat)
    (p : ecore_arfs_config_params) :
    (qede_fdir_construct_pkt be d b p).params.arfs_enable = p.arfs_enable := by
  unfold qede_fdir_construct_pkt
  split_ifs
  · exact construct_ipv4_flag _ _ _ _ _
  · exact construct_ipv6_flag _ _ _ _ _
  · rfl

@[simp] theorem fdir_built_flag (be : Bool) (q : qede_dev) (d : rte_eth_fdir_filter) :
    (fdir_built be q d).fdir_info.arfs.arfs_enable = q.fdir_info.arfs.arfs_enable :=
  construct_flag be d _ _

/-- An add request, exit by exit. -/
theorem cmn_add_unfold (MAX : Nat) (be : Bool) (env : fdir_env) (qdev : qede_dev)
    (d : rte_eth_fdir_filter) :
    qede_config_cmn_fdir_filter MAX be env qdev d true =
      if (qdev.fdir_info.filter_count : Int) = (MAX : Int) - 1 then
        { rc := -EINVAL, dev := qdev, calls := [] }
      else if env.malloc_ok = false then
        { rc := -ENOMEM, dev := qdev, calls := [] }
      else if env.mz_ok = false then
        { rc := -env.rte_errno, dev := qdev, calls := [] }
      else if fdir_pkt_len be d = 0 then
        { rc := -EINVAL, dev := fdir_built be qdev d, calls := [] }
      else if (fdir_lookup qdev.fdir_info.fdir_list_head (fdir_pkt be d)
          (fdir_pkt_len be d)).isSome = true then
        { rc := 0, dev := fdir_built be qdev d, calls := [] }
      else if env.hw_rc = ECORE_SUCCESS then
        fdir_finish
          (fdir_list_update (fdir_force_enable (fdir_built be qdev d))
            (d.action.rx_queue % 65536) (fdir_pkt be d) (fdir_pkt_len be d) true)
          [hw_call.arfs_mode_configure (fdir_force_enable (fdir_built be qdev d)).fdir_info.arfs,
            hw_call.rfs_ntuple_filter (fdir_pkt be d) (fdir_pkt_len be d)
              (d.action.rx_queue % 65536) true]
      else
        fdir_finish (fdir_force_enable (fdir_built be qdev d))
          [hw_call.arfs_mode_configure (fdir_force_enable (fdir_built be qdev d)).fdir_info.arfs,
            hw_call.rfs_ntuple_filter (fdir_pkt be d) (fdir_pkt_len be d)
              (d.action.rx_queue % 65536) true] := by
  rw [cmn_unfold]
  by_cases h : env.hw_rc = ECORE_SUCCESS <;> simp [h]

/-- A delete request, exit by exit. -/
theorem cmn_del_unfold (MAX : Nat) (be : Bool) (env : fdir_env) (qdev : qede_dev)
    (d : rte_eth_fdir_filter) :
    qede_config_cmn_fdir_filter MAX be env qdev d false =
      if env.mz_ok = false then
        { rc := -env.rte_errno, dev := qdev, calls := [] }
      else if fdir_pkt_len be d = 0 then
        { rc := -EINVAL, dev := fdir_built be qdev d, calls := [] }
      else if (fdir_lookup qdev.fdir_info.fdir_list_head (fdir_pkt be d)
          (fdir_pkt_len be d)).isSome = false then
        { rc := -EEXIST, dev := fdir_built be qdev d, calls := [] }
      else if env.hw_rc = ECORE_SUCCESS then
        fdir_finish
          (fdir_list_update (fdir_built be qdev d)
            (d.action.rx_queue % 65536) (fdir_pkt be d) (fdir_pkt_len be d) false)
          [hw_call.rfs_ntuple_filter (fdir_pkt be d) (fdir_pkt_len be d)
              (d.action.rx_queue % 65536) false]
      else
        fdir_finish (fdir_built be qdev d)
          [hw_call.rfs_ntuple_filter (fdir_pkt be d) (fdir_pkt_len be d)
              (d.action.rx_queue % 65536) false] := by
  rw [cmn_unfold]
  by_cases h : env.hw_rc = ECORE_SUCCESS <;> simp [h]

/-- What one request can do to the list and the count: nothing, or put the new
node in front (an add that found no agreeing node, below the limit), or unlink
the first agreeing node (a delete that found one). -/
theorem cmn_step_cases (MAX : Nat) (be : Bool) (env : fdir_env) (qdev : qede_dev)
    (d : rte_eth_fdir_filter) (add : Bool) :
    ((qede_config_cmn_fdir_filter MAX be env qdev d add).dev.fdir_info.fdir_list_head =
        qdev.fdir_info.fdir_list_head ∧
      (qede_config_cmn_fdir_filter MAX be env qdev d add).dev.fdir_info.filter_count =
        qdev.fdir_info.filter_count) ∨
    (add = true ∧ (qdev.fdir_info.filter_count : Int) ≠ (MAX : Int) - 1 ∧
      fdir_lookup qdev.fdir_info.fdir_list_head (fdir_pkt be d) (fdir_pkt_len be d) = none ∧
      (qede_config_cmn_fdir_filter MAX be env qdev d add).dev.fdir_info.fdir_list_head =
        fdir_new_entry be d :: qdev.fdir_info.fdir_list_head ∧
      (qede_config_cmn_fdir_filter MAX be env qdev d add).dev.fdir_info.filter_count =
        (qdev.fdir_info.filter_count + 1) % 65536) ∨
    (add = false ∧
      (fdir_lookup qdev.fdir_info.fdir_list_head (fdir_pkt be d)
        (fdir_pkt_len be d)).isSome = true ∧
      (qede_config_cmn_fdir_filter MAX be env qdev d add).dev.fdir_info.fdir_list_head =
        fdir_remove qdev.fdir_info.fdir_list_head (fdir_pkt be d) (fdir_pkt_len be d) ∧
      (qede_config_cmn_fdir_filter MAX be env qdev d add).dev.fdir_info.filter_count =
        (qdev.fdir_info.filter_count + 65535) % 65536) := by
  cases add
  · rw [cmn_del_unfold]
    split_ifs with h3 h4 h6 h7
    · left; exact ⟨rfl, rfl⟩
    · left; exact ⟨rfl, rfl⟩
    · left; exact ⟨rfl, rfl⟩
    · right; right
      have hs : (fdir_lookup qdev.fdir_info.fdir_list_head (fdir_pkt be d)
          (fdir_pkt_len be d)).isSome = true := by
        cases hl : fdir_lookup qdev.fdir_info.fdir_list_head (fdir_pkt be d) (fdir_pkt_len be d)
        · simp [hl] at h6
        · rfl
      simp [hs]
    · left; simp
  · rw [cmn_add_unfold]
    split_ifs with h1 h2 h3 h4 h5 h7
    · left; exact ⟨rfl, rfl⟩
    · left; exact ⟨rfl, rfl⟩
    · left; exact ⟨rfl, rfl⟩
    · left; exact ⟨rfl, rfl⟩
    · left; exact ⟨rfl, rfl⟩
    · right; left
      have hn : fdir_lookup qdev.fdir_info.fdir_list_head (fdir_pkt be d)
          (fdir_pkt_len be d) = none := by
        cases hl : fdir_lookup qdev.fdir_info.fdir_list_head (fdir_pkt be d) (fdir_pkt_len be d)
        · rfl
        · exact absurd (by simp [hl]) h5
      simp [hn, h1, fdir_new_entry]
    · left; simp

/-- A request whose hardware submission does not succeed leaves list and count
as they were. -/
theorem cmn_hw_fail_frame (MAX : Nat) (be : Bool) (env : fdir_env) (qdev : qede_dev)
    (d : rte_eth_fdir_filter) (add : Bool) (hrc : env.hw_rc ≠ ECORE_SUCCESS) :
    (qede_config_cmn_fdir_filter MAX be env qdev d add).dev.fdir_info.fdir_list_head =
        qdev.fdir_info.fdir_list_head ∧
    (qede_config_cmn_fdir_filter MAX be env qdev d add).dev.fdir_info.filter_count =
        qdev.fdir_info.filter_count := by
  rcases cmn_step_cases MAX be env qdev d add with h | h | h
  · exact h
  · exfalso
    obtain ⟨ha, hc, hn, hl, -⟩ := h
    subst ha
    rw [cmn_add_unfold] at hl
    simp [hc, hn, hrc] at hl
    split_ifs at hl <;> simp at hl
  · exfalso
    obtain ⟨ha, hs, hl, hcnt⟩ := h
    subst ha
    rw [cmn_del_unfold] at hcnt
    simp [hs, hrc] at hcnt
    split_ifs at hcnt <;> simp at hcnt <;> omega

/-- An add request that passes every check and whose submission succeeds. -/
theorem cmn_add_ok_eq (MAX : Nat) (be : Bool) (env : fdir_env) (qdev : qede_dev)
    (d : rte_eth_fdir_filter)
    (hcap : (qdev.fdir_info.filter_count : Int) ≠ (MAX : Int) - 1)
    (hm : env.malloc_ok = true) (hz : env.mz_ok = true) (hlen : fdir_pkt_len be d ≠ 0)
    (hn : fdir_lookup qdev.fdir_info.fdir_list_head (fdir_pkt be d) (fdir_pkt_len be d) = none)
    (hrc : env.hw_rc = ECORE_SUCCESS) :
    qede_config_cmn_fdir_filter MAX be env qdev d true =
      fdir_finish
        (fdir_list_update (fdir_force_enable (fdir_built be qdev d))
          (d.action.rx_queue % 65536) (fdir_pkt be d) (fdir_pkt_len be d) true)
        [hw_call.arfs_mode_configure (fdir_force_enable (fdir_built be qdev d)).fdir_info.arfs,
          hw_call.rfs_ntuple_filter (fdir_pkt be d) (fdir_pkt_len be d)
            (d.action.rx_queue % 65536) true] := by
  rw [cmn_add_unfold]
  simp [hcap, hm, hz, hlen, hn, hrc]

/-- An add request that finds an agreeing node below the limit. -/
theorem cmn_add_dup_eq (MAX : Nat) (be : Bool) (env : fdir_env) (qdev : qede_dev)
    (d : rte_eth_fdir_filter)
    (hcap : (qdev.fdir_info.filter_count : Int) ≠ (MAX : Int) - 1)
    (hm : env.malloc_ok = true) (hz : env.mz_ok = true) (hlen : fdir_pkt_len be d ≠ 0)
    (hs : (fdir_lookup qdev.fdir_info.fdir_list_head (fdir_pkt be d)
      (fdir_pkt_len be d)).isSome = true) :
    qede_config_cmn_fdir_filter MAX be env qdev d true =
      { rc := 0, dev := fdir_built be qdev d, calls := [] } := by
  rw [cmn_add_unfold]
  simp [hcap, hm, hz, hlen, hs]

/-- A delete request that finds an agreeing node and whose submission succeeds. -/
theorem cmn_del_ok_eq (MAX : Nat) (be : Bool) (env : fdir_env) (qdev : qede_dev)
    (d : rte_eth_fdir_filter)
    (hz : env.mz_ok = true) (hlen : fdir_pkt_len be d ≠ 0)
    (hs : (fdir_lookup qdev.fdir_info.fdir_list_head (fdir_pkt be d)
      (fdir_pkt_len be d)).isSome = true)
    (hrc : env.hw_rc = ECORE_SUCCESS) :
    qede_config_cmn_fdir_filter MAX be env qdev d false =
      fdir_finish
        (fdir_list_update (fdir_built be qdev d)
          (d.action.rx_queue % 65536) (fdir_pkt be d) (fdir_pkt_len be d) false)
        [hw_call.rfs_ntuple_filter (fdir_pkt be d) (fdir_pkt_len be d)
          (d.action.rx_queue % 65536) false] := by
  rw [cmn_del_unfold]
  simp [hz, hlen, hs, hrc]

theorem hw_submitted_finish (q : qede_dev) (c : List hw_call) :
    hw_submitted (fdir_finish q c) = hw_submitted { rc := 0, dev := q, calls := c } := by
  unfold fdir_finish hw_submitted
  split_ifs <;> simp

/-- An add request reaches the hardware submission exactly when the count is
off the limit, both allocations succeed, the flow type is supported and no
node of the list agrees with the template. -/
theorem cmn_add_submitted_iff (MAX : Nat) (be : Bool) (env : fdir_env) (qdev : qede_dev)
    (d : rte_eth_fdir_filter) :
    hw_submitted (qede_config_cmn_fdir_filter MAX be env qdev d true) = true ↔
      (qdev.fdir_info.filter_count : Int) ≠ (MAX : Int) - 1 ∧ env.malloc_ok = true ∧
      env.mz_ok = true ∧ fdir_pkt_len be d ≠ 0 ∧
      fdir_lookup qdev.fdir_info.fdir_list_head (fdir_pkt be d) (fdir_pkt_len be d) = none := by
  rw [cmn_add_unfold]
  split_ifs with h1 h2 h3 h4 h5 h6
  · simp [hw_submitted, h1]
  · simp [hw_submitted, h2]
  · simp [hw_submitted, h3]
  · simp [hw_submitted, h4]
  · have : fdir_lookup qdev.fdir_info.fdir_list_head (fdir_pkt be d) (fdir_pkt_len be d) ≠ none := by
      intro hc; rw [hc] at h5; cases h5
    simp [hw_submitted, this]
  · have : fdir_lookup qdev.fdir_info.fdir_list_head (fdir_pkt be d) (fdir_pkt_len be d) = none := by
      cases hl : fdir_lookup qdev.fdir_info.fdir_list_head (fdir_pkt be d) (fdir_pkt_len be d)
      · rfl
      · rw [hl] at h5; exact absurd rfl h5
    rw [hw_submitted_finish]
    simp at h2 h3
    simp [hw_submitted, h1, h2, h3, h4, this]
  · have : fdir_lookup qdev.fdir_info.fdir_list_head (fdir_pkt be d) (fdir_pkt_len be d) = none := by
      cases hl : fdir_lookup qdev.fdir_info.fdir_list_head (fdir_pkt be d) (fdir_pkt_len be d)
      · rfl
      · rw [hl] at h5; exact absurd rfl h5
    rw [hw_submitted_finish]
    simp at h2 h3
    simp [hw_submitted, h1, h2, h3, h4, this]

/-- A delete request reaches the hardware submission exactly when the memzone
is reserved, the flow type is supported and some node agrees with the
template. -/
theorem cmn_del_submitted_iff (MAX : Nat) (be : Bool) (env : fdir_env) (qdev : qede_dev)
    (d : rte_eth_fdir_filter) :
    hw_submitted (qede_config_cmn_fdir_filter MAX be env qdev d false) = true ↔
      env.mz_ok = true ∧ fdir_pkt_len be d ≠ 0 ∧
      (fdir_lookup qdev.fdir_info.fdir_list_head (fdir_pkt be d)
        (fdir_pkt_len be d)).isSome = true := by
  rw [cmn_del_unfold]
  split_ifs with h3 h4 h5 h6
  · simp [hw_submitted, h3]
  · simp [hw_submitted, h4]
  · simp [hw_submitted, h5]
  · rw [hw_submitted_finish]
    simp at h3 h5
    simp [hw_submitted, h3, h4, Option.isSome_iff_ne_none, h5]
  · rw [hw_submitted_finish]
    simp at h3 h5
    simp [hw_submitted, h3, h4, Option.isSome_iff_ne_none, h5]

theorem memcmp_eq_self (a : List Nat) (n : Nat) : memcmp_eq a a n = true := by
  simp [memcmp_eq]

/-- The node an add has just put in front is the one a delete of the same
descriptor stops at. -/
theorem fdir_lookup_new_entry (be : Bool) (d : rte_eth_fdir_filter) (rxq : Nat)
    (l : List qede_fdir_entry) :
    fdir_lookup ({ rx_queue := rxq, pkt_len := fdir_pkt_len be d, mz := fdir_pkt be d } :: l)
      (fdir_pkt be d) (fdir_pkt_len be d) =
      some { rx_queue := rxq, pkt_len := fdir_pkt_len be d, mz := fdir_pkt be d } := by
  simp [fdir_lookup, memcmp_eq_self]

theorem fdir_remove_new_entry (be : Bool) (d : rte_eth_fdir_filter) (rxq : Nat)
    (l : List qede_fdir_entry) :
    fdir_remove ({ rx_queue := rxq, pkt_len := fdir_pkt_len be d, mz := fdir_pkt be d } :: l)
      (fdir_pkt be d) (fdir_pkt_len be d) = l := by
  simp [fdir_remove, memcmp_eq_self]

/-- An add request at the limit: `-EINVAL`, no ecore call, the device as it was. -/
theorem cmn_add_at_limit (MAX : Nat) (be : Bool) (env : fdir_env) (qdev : qede_dev)
    (d : rte_eth_fdir_filter)
    (h : (qdev.fdir_info.filter_count : Int) = (MAX : Int) - 1) :
    (qede_config_cmn_fdir_filter MAX be env qdev d true).rc = -EINVAL ∧
    (qede_config_cmn_fdir_filter MAX be env qdev d true).calls = [] ∧
    (qede_config_cmn_fdir_filter MAX be env qdev d true).dev = qdev := by
  rw [cmn_add_unfold]
  simp [h]

/-! ## Capacity, absent filters and hardware failures -/

/-- C4: an add request on a device whose filter count equals
`QEDE_RFS_MAX_FLTR - 1` returns the error `-EINVAL`, makes no ecore call and
leaves the whole device (list, count, classification parameters) as it was;
on a device with a smaller count the capacity check lets the request through:
for a supported descriptor and successful allocations the request returns 0. -/
theorem C4_capacity_check (MAX : Nat) (be : Bool) (env : fdir_env) (qdev : qede_dev)
    (d : rte_eth_fdir_filter) :
    ((qdev.fdir_info.filter_count : Int) = (MAX : Int) - 1 →
      (qede_config_cmn_fdir_filter MAX be env qdev d true).rc = -EINVAL ∧
      (qede_config_cmn_fdir_filter MAX be env qdev d true).rc ≠ 0 ∧
      (qede_config_cmn_fdir_filter MAX be env qdev d true).calls = [] ∧
      (qede_config_cmn_fdir_filter MAX be env qdev d true).dev = qdev) ∧
    ((qdev.fdir_info.filter_count : Int) < (MAX : Int) - 1 →
      qede_valid_flow d.input.flow_type = true → env.malloc_ok = true → env.mz_ok = true →
      (qede_config_cmn_fdir_filter MAX be env qdev d true).rc = 0) := by
  constructor
  · intro h
    rw [cmn_add_unfold]
    simp [h, EINVAL]
  · intro h hv hm hz
    have hlen : fdir_pkt_len be d ≠ 0 := by
      intro h0
      have := (construct_len_eq_zero_iff be d _ _).1 h0
      rw [hv] at this
      cases this
    rw [cmn_add_unfold]
    have hne : ¬ (qdev.fdir_info.filter_count : Int) = (MAX : Int) - 1 := by omega
    simp only [hne, hm, hz, hlen, if_false, Bool.true_eq_false]
    split_ifs <;> simp

/-- C4, at concrete inputs: the device with 255 filters rejects the add for
`QEDE_RFS_MAX_FLTR = 256`; the device with 3 filters accepts it. -/
theorem C4_capacity_check_witness :
    ((qede_config_cmn_fdir_filter 256 false {} (dev_with 255) d_tcp4 true).rc = -EINVAL ∧
      (qede_config_cmn_fdir_filter 256 false {} (dev_with 255) d_tcp4 true).rc ≠ 0 ∧
      (qede_config_cmn_fdir_filter 256 false {} (dev_with 255) d_tcp4 true).calls = [] ∧
      (qede_config_cmn_fdir_filter 256 false {} (dev_with 255) d_tcp4 true).dev = dev_with 255) ∧
    (qede_config_cmn_fdir_filter 256 false {} (dev_with 3) d_tcp4 true).rc = 0 :=
  ⟨(C4_capacity_check 256 false {} (dev_with 255) d_tcp4).1 (by decide),
   (C4_capacity_check 256 false {} (dev_with 3) d_tcp4).2 (by decide) (by decide) (by decide)
     (by decide)⟩

theorem fdir_lookup_none_of_forall (l : List qede_fdir_entry) (pkt : List Nat) (n : Nat)
    (h : ∀ e ∈ l, memcmp_eq e.mz pkt n = false) : fdir_lookup l pkt n = none := by
  unfold fdir_lookup
  rw [List.find?_eq_none]
  intro e he
  simp [h e he]

theorem fdir_lookup_isSome_iff (l : List qede_fdir_entry) (pkt : List Nat) (n : Nat) :
    (fdir_lookup l pkt n).isSome = true ↔ ∃ e ∈ l, memcmp_eq e.mz pkt n = true := by
  unfold fdir_lookup
  rw [List.find?_isSome]

theorem fdir_pkt_len_ne_zero (be : Bool) (d : rte_eth_fdir_filter)
    (hv : qede_valid_flow d.input.flow_type = true) : fdir_pkt_len be d ≠ 0 := by
  intro h0
  have := (construct_len_eq_zero_iff be d _ _).1 h0
  rw [hv] at this
  cases this

/-- C5: a delete request for a supported descriptor whose template agrees with
no record of the list makes no ecore call and leaves list and count as they
were; once the memzone for the template is reserved it returns the non-zero
error `-EEXIST` ("flowdir filter does not exist"). -/
theorem C5_delete_absent (MAX : Nat) (be : Bool) (env : fdir_env) (qdev : qede_dev)
    (d : rte_eth_fdir_filter)
    (hsup : qede_valid_flow d.input.flow_type = true)
    (habs : ∀ e ∈ qdev.fdir_info.fdir_list_head,
      memcmp_eq e.mz (fdir_pkt be d) (fdir_pkt_len be d) = false) :
    (env.mz_ok = true →
      (qede_config_cmn_fdir_filter MAX be env qdev d false).rc = -EEXIST ∧
      (qede_config_cmn_fdir_filter MAX be env qdev d false).rc ≠ 0) ∧
    (qede_config_cmn_fdir_filter MAX be env qdev d false).calls = [] ∧
    hw_submitted (qede_config_cmn_fdir_filter MAX be env qdev d false) = false ∧
    (qede_config_cmn_fdir_filter MAX be env qdev d false).dev.fdir_info.fdir_list_head =
      qdev.fdir_info.fdir_list_head ∧
    (qede_config_cmn_fdir_filter MAX be env qdev d false).dev.fdir_info.filter_count =
      qdev.fdir_info.filter_count := by
  have hn := fdir_lookup_none_of_forall _ _ _ habs
  have hlen := fdir_pkt_len_ne_zero be d hsup
  rw [cmn_del_unfold]
  by_cases hz : env.mz_ok = false
  · simp [hz, hw_submitted]
  · simp [hz, hlen, hn, hw_submitted, EEXIST]

/-- C5, at a concrete input: deleting the scenario descriptor from the device
that holds three other filters. -/
theorem C5_delete_absent_witness :
    ((qede_config_cmn_fdir_filter 256 false {} (dev_with 3) d_tcp4 false).rc = -EEXIST ∧
      (qede_config_cmn_fdir_filter 256 false {} (dev_with 3) d_tcp4 false).rc ≠ 0) ∧
    (qede_config_cmn_fdir_filter 256 false {} (dev_with 3) d_tcp4 false).calls = [] ∧
    hw_submitted (qede_config_cmn_fdir_filter 256 false {} (dev_with 3) d_tcp4 false) = false ∧
    (qede_config_cmn_fdir_filter 256 false {} (dev_with 3) d_tcp4 false).dev.fdir_info.fdir_list_head
      = (dev_with 3).fdir_info.fdir_list_head ∧
    (qede_config_cmn_fdir_filter 256 false {} (dev_with 3) d_tcp4 false).dev.fdir_info.filter_count
      = (dev_with 3).fdir_info.filter_count :=
  have h := C5_delete_absent 256 false {} (dev_with 3) d_tcp4 (by decide) (by decide)
  ⟨h.1 (by decide), h.2⟩

/-- C6, the code at the failing input: an add of the scenario descriptor on the
empty device reaches the hardware submission, the submission returns the
failure status -1, and the request returns 0 (success) to its caller. -/
theorem C6_hw_failure_returns_success :
    hw_submitted (qede_config_cmn_fdir_filter 256 false env_hw_fail dev_empty d_tcp4 true) = true ∧
    env_hw_fail.hw_rc ≠ ECORE_SUCCESS ∧
    (qede_config_cmn_fdir_filter 256 false env_hw_fail dev_empty d_tcp4 true).rc = 0 := by
  decide

/-- C7: a request, add or delete, for which the hardware submission returns a
failure status leaves the filter list (every record, in order) and the filter
count as they were. -/
theorem C7_hw_failure_keeps_filter_set (MAX : Nat) (be : Bool) (env : fdir_env)
    (qdev : qede_dev) (d : rte_eth_fdir_filter) (add : Bool)
    (hrc : env.hw_rc ≠ ECORE_SUCCESS) :
    (qede_config_cmn_fdir_filter MAX be env qdev d add).dev.fdir_info.fdir_list_head =
        qdev.fdir_info.fdir_list_head ∧
    (qede_config_cmn_fdir_filter MAX be env qdev d add).dev.fdir_info.filter_count =
        qdev.fdir_info.filter_count :=
  cmn_hw_fail_frame MAX be env qdev d add hrc

/-- C7, at concrete inputs: a failing add and a failing delete on the device
with three filters; both reach the hardware submission. -/
theorem C7_hw_failure_keeps_filter_set_witness :
    (hw_submitted (qede_config_cmn_fdir_filter 256 false env_hw_fail (dev_with 3) d_tcp4 true) = true ∧
      hw_submitted (qede_config_cmn_fdir_filter 256 false env_hw_fail (dev_with 3) (d_udp4 2) false) = true) ∧
    ((qede_config_cmn_fdir_filter 256 false env_hw_fail (dev_with 3) d_tcp4 true).dev.fdir_info.fdir_list_head
        = (dev_with 3).fdir_info.fdir_list_head ∧
      (qede_config_cmn_fdir_filter 256 false env_hw_fail (dev_with 3) d_tcp4 true).dev.fdir_info.filter_count
        = (dev_with 3).fdir_info.filter_count) ∧
    ((qede_config_cmn_fdir_filter 256 false env_hw_fail (dev_with 3) (d_udp4 2) false).dev.fdir_info.fdir_list_head
        = (dev_with 3).fdir_info.fdir_list_head ∧
      (qede_config_cmn_fdir_filter 256 false env_hw_fail (dev_with 3) (d_udp4 2) false).dev.fdir_info.filter_count
        = (dev_with 3).fdir_info.filter_count) :=
  ⟨by decide,
   C7_hw_failure_keeps_filter_set 256 false env_hw_fail (dev_with 3) d_tcp4 true (by decide),
   C7_hw_failure_keeps_filter_set 256 false env_hw_fail (dev_with 3) (d_udp4 2) false
      (by decide)⟩

/-! ## Adding twice, adding then deleting -/

/-- C2: on a device whose (16-bit) filter count is below
`QEDE_RFS_MAX_FLTR - 1`, for a supported descriptor whose template agrees with
no record, with both hardware submissions reached (allocations succeed) and
successful: the add and the following delete both return 0, both submit to the
hardware, and the filter count and the list of records are afterwards what they
were before the add. -/
theorem C2_add_delete_round_trip (MAX : Nat) (be : Bool) (env1 env2 : fdir_env)
    (qdev : qede_dev) (d : rte_eth_fdir_filter)
    (hcap : (qdev.fdir_info.filter_count : Int) < (MAX : Int) - 1)
    (hu16 : qdev.fdir_info.filter_count < 65536)
    (hsup : qede_valid_flow d.input.flow_type = true)
    (hnew : ∀ e ∈ qdev.fdir_info.fdir_list_head,
      memcmp_eq e.mz (fdir_pkt be d) (fdir_pkt_len be d) = false)
    (ha1 : env1.malloc_ok = true ∧ env1.mz_ok = true) (hw1 : env1.hw_rc = ECORE_SUCCESS)
    (ha2 : env2.mz_ok = true) (hw2 : env2.hw_rc = ECORE_SUCCESS) :
    (qede_config_cmn_fdir_filter MAX be env1 qdev d true).rc = 0 ∧
    hw_submitted (qede_config_cmn_fdir_filter MAX be env1 qdev d true) = true ∧
    (qede_config_cmn_fdir_filter MAX be env2
      (qede_config_cmn_fdir_filter MAX be env1 qdev d true).dev d false).rc = 0 ∧
    hw_submitted (qede_config_cmn_fdir_filter MAX be env2
      (qede_config_cmn_fdir_filter MAX be env1 qdev d true).dev d false) = true ∧
    (qede_config_cmn_fdir_filter MAX be env2
      (qede_config_cmn_fdir_filter MAX be env1 qdev d true).dev d false).dev.fdir_info.filter_count
      = qdev.fdir_info.filter_count ∧
    (qede_config_cmn_fdir_filter MAX be env2
      (qede_config_cmn_fdir_filter MAX be env1 qdev d true).dev d false).dev.fdir_info.fdir_list_head
      = qdev.fdir_info.fdir_list_head := by
  have hn := fdir_lookup_none_of_forall _ _ _ hnew
  have hlen := fdir_pkt_len_ne_zero be d hsup
  have hc : (qdev.fdir_info.filter_count : Int) ≠ (MAX : Int) - 1 := by omega
  have e1 := cmn_add_ok_eq MAX be env1 qdev d hc ha1.1 ha1.2 hlen hn hw1
  have hs1 := (cmn_add_submitted_iff MAX be env1 qdev d).2 ⟨hc, ha1.1, ha1.2, hlen, hn⟩
  have hl1 : (qede_config_cmn_fdir_filter MAX be env1 qdev d true).dev.fdir_info.fdir_list_head =
      { rx_queue := d.action.rx_queue % 65536, pkt_len := fdir_pkt_len be d,
        mz := fdir_pkt be d } :: qdev.fdir_info.fdir_list_head := by
    rw [e1]; simp
  have hc1 : (qede_config_cmn_fdir_filter MAX be env1 qdev d true).dev.fdir_info.filter_count =
      (qdev.fdir_info.filter_count + 1) % 65536 := by
    rw [e1]; simp
  have hs : (fdir_lookup
      (qede_config_cmn_fdir_filter MAX be env1 qdev d true).dev.fdir_info.fdir_list_head
      (fdir_pkt be d) (fdir_pkt_len be d)).isSome = true := by
    rw [hl1, fdir_lookup_new_entry]; rfl
  have e2 := cmn_del_ok_eq MAX be env2 _ d ha2 hlen hs hw2
  have hs2 := (cmn_del_submitted_iff MAX be env2
    (qede_config_cmn_fdir_filter MAX be env1 qdev d true).dev d).2 ⟨ha2, hlen, hs⟩
  refine ⟨by rw [e1]; simp, hs1, by rw [e2]; simp, hs2, ?_, ?_⟩
  · rw [e2]
    simp only [fdir_finish_count, fdir_list_update_del_count, fdir_built_count, hc1]
    omega
  · rw [e2]
    simp only [fdir_finish_list, fdir_list_update_del_list, fdir_built_list, hl1]
    exact fdir_remove_new_entry be d _ _

/-- C2, at a concrete input: the scenario descriptor added to and deleted from
the device with three filters. -/
theorem C2_add_delete_round_trip_witness :
    (qede_config_cmn_fdir_filter 256 false {} (dev_with 3) d_tcp4 true).rc = 0 ∧
    hw_submitted (qede_config_cmn_fdir_filter 256 false {} (dev_with 3) d_tcp4 true) = true ∧
    (qede_config_cmn_fdir_filter 256 false {}
      (qede_config_cmn_fdir_filter 256 false {} (dev_with 3) d_tcp4 true).dev d_tcp4 false).rc = 0 ∧
    hw_submitted (qede_config_cmn_fdir_filter 256 false {}
      (qede_config_cmn_fdir_filter 256 false {} (dev_with 3) d_tcp4 true).dev d_tcp4 false) = true ∧
    (qede_config_cmn_fdir_filter 256 false {}
      (qede_config_cmn_fdir_filter 256 false {} (dev_with 3) d_tcp4 true).dev d_tcp4
        false).dev.fdir_info.filter_count = (dev_with 3).fdir_info.filter_count ∧
    (qede_config_cmn_fdir_filter 256 false {}
      (qede_config_cmn_fdir_filter 256 false {} (dev_with 3) d_tcp4 true).dev d_tcp4
        false).dev.fdir_info.fdir_list_head = (dev_with 3).fdir_info.fdir_list_head :=
  C2_add_delete_round_trip 256 false {} {} (dev_with 3) d_tcp4 (by decide) (by decide)
    (by decide) (by decide) (by decide) (by decide) (by decide) (by decide)

/-- C1, refuted at two concrete inputs, each time for `QEDE_RFS_MAX_FLTR = 256`,
a supported descriptor and a first add that returns 0.  On the device with 254
filters the first add stores the descriptor, which brings the count to 255, and
the second add of the same descriptor is turned away by the capacity check
(`-EINVAL`) before the list is searched.  On the empty device the first add
returns 0 although its hardware submission failed and nothing was stored; the
second add, with a successful submission, stores the descriptor and the count
goes from 0 to 1. -/
theorem C1_counterexample :
    (qede_valid_flow d_tcp4.input.flow_type = true ∧
      (qede_config_cmn_fdir_filter 256 false {} (dev_with 254) d_tcp4 true).rc = 0 ∧
      (qede_config_cmn_fdir_filter 256 false {} (dev_with 254) d_tcp4
        true).dev.fdir_info.filter_count = 255 ∧
      (qede_config_cmn_fdir_filter 256 false {}
        (qede_config_cmn_fdir_filter 256 false {} (dev_with 254) d_tcp4 true).dev
        d_tcp4 true).rc = -EINVAL) ∧
    ((qede_config_cmn_fdir_filter 256 false env_hw_fail dev_empty d_tcp4 true).rc = 0 ∧
      (qede_config_cmn_fdir_filter 256 false env_hw_fail dev_empty d_tcp4
        true).dev.fdir_info.filter_count = 0 ∧
      (qede_config_cmn_fdir_filter 256 false {}
        (qede_config_cmn_fdir_filter 256 false env_hw_fail dev_empty d_tcp4 true).dev
        d_tcp4 true).rc = 0 ∧
      (qede_config_cmn_fdir_filter 256 false {}
        (qede_config_cmn_fdir_filter 256 false env_hw_fail dev_empty d_tcp4 true).dev
        d_tcp4 true).dev.fdir_info.filter_count = 1) := by
  have hn : fdir_lookup (dev_with 254).fdir_info.fdir_list_head (fdir_pkt false d_tcp4)
      (fdir_pkt_len false d_tcp4) = none := by decide
  have e1 := cmn_add_ok_eq 256 false {} (dev_with 254) d_tcp4 (by decide) rfl rfl
    (by decide) hn rfl
  have hc : (qede_config_cmn_fdir_filter 256 false {} (dev_with 254) d_tcp4
      true).dev.fdir_info.filter_count = 255 := by
    rw [e1]
    simp only [fdir_finish_count, fdir_list_update_add_count, fdir_force_enable_count,
      fdir_built_count]
    rfl
  refine ⟨⟨by decide, by rw [e1]; exact fdir_finish_rc _ _, hc, ?_⟩, by decide⟩
  exact ((cmn_add_at_limit 256 false {} _ d_tcp4) (by rw [hc]; rfl)).1

/-- C1, as amended: for a supported descriptor and successful allocations in
both requests, if a first add returns 0, its hardware submission (when it made
one) succeeded, and the filter count after it is not `QEDE_RFS_MAX_FLTR - 1`,
then an immediately following add of the same descriptor returns 0, makes no
ecore call, and leaves the filter count and the list as the first add left
them, whatever the hardware would return to the second request. -/
theorem C1_add_twice (MAX : Nat) (be : Bool) (env1 env2 : fdir_env)
    (qdev : qede_dev) (d : rte_eth_fdir_filter)
    (hsup : qede_valid_flow d.input.flow_type = true)
    (ha1 : env1.malloc_ok = true ∧ env1.mz_ok = true)
    (ha2 : env2.malloc_ok = true ∧ env2.mz_ok = true)
    (h1 : (qede_config_cmn_fdir_filter MAX be env1 qdev d true).rc = 0)
    (hhw : hw_submitted (qede_config_cmn_fdir_filter MAX be env1 qdev d true) = true →
      env1.hw_rc = ECORE_SUCCESS)
    (hcap : ((qede_config_cmn_fdir_filter MAX be env1 qdev d true).dev.fdir_info.filter_count : Int)
      ≠ (MAX : Int) - 1) :
    (qede_config_cmn_fdir_filter MAX be env2
      (qede_config_cmn_fdir_filter MAX be env1 qdev d true).dev d true).rc = 0 ∧
    (qede_config_cmn_fdir_filter MAX be env2
      (qede_config_cmn_fdir_filter MAX be env1 qdev d true).dev d true).calls = [] ∧
    (qede_config_cmn_fdir_filter MAX be env2
      (qede_config_cmn_fdir_filter MAX be env1 qdev d true).dev d true).dev.fdir_info.filter_count
      = (qede_config_cmn_fdir_filter MAX be env1 qdev d true).dev.fdir_info.filter_count ∧
    (qede_config_cmn_fdir_filter MAX be env2
      (qede_config_cmn_fdir_filter MAX be env1 qdev d true).dev d true).dev.fdir_info.fdir_list_head
      = (qede_config_cmn_fdir_filter MAX be env1 qdev d true).dev.fdir_info.fdir_list_head := by
  have hlen := fdir_pkt_len_ne_zero be d hsup
  have hc0 : (qdev.fdir_info.filter_count : Int) ≠ (MAX : Int) - 1 := by
    intro hc
    rw [cmn_add_unfold] at h1
    simp [hc, EINVAL] at h1
  -- after the first add some node agrees with the template
  have hs : (fdir_lookup
      (qede_config_cmn_fdir_filter MAX be env1 qdev d true).dev.fdir_info.fdir_list_head
      (fdir_pkt be d) (fdir_pkt_len be d)).isSome = true := by
    cases hl : fdir_lookup qdev.fdir_info.fdir_list_head (fdir_pkt be d) (fdir_pkt_len be d) with
    | none =>
      have hsub := (cmn_add_submitted_iff MAX be env1 qdev d).2 ⟨hc0, ha1.1, ha1.2, hlen, hl⟩
      have e1 := cmn_add_ok_eq MAX be env1 qdev d hc0 ha1.1 ha1.2 hlen hl (hhw hsub)
      rw [e1]
      simp only [fdir_finish_list, fdir_list_update_add_list]
      rw [fdir_lookup_new_entry]; rfl
    | some e =>
      have e1 := cmn_add_dup_eq MAX be env1 qdev d hc0 ha1.1 ha1.2 hlen (by rw [hl]; rfl)
      rw [e1]
      simp only [fdir_built_list, hl]; rfl
  have e2 := cmn_add_dup_eq MAX be env2 _ d hcap ha2.1 ha2.2 hlen hs
  rw [e2]
  exact ⟨rfl, rfl, rfl, rfl⟩

/-- C1 as amended, at a concrete input: the scenario descriptor added twice to
the device with three filters, the second time with a failing hardware. -/
theorem C1_add_twice_witness :
    (qede_config_cmn_fdir_filter 256 false env_hw_fail
      (qede_config_cmn_fdir_filter 256 false {} (dev_with 3) d_tcp4 true).dev d_tcp4 true).rc = 0 ∧
    (qede_config_cmn_fdir_filter 256 false env_hw_fail
      (qede_config_cmn_fdir_filter 256 false {} (dev_with 3) d_tcp4 true).dev d_tcp4 true).calls
      = [] ∧
    (qede_config_cmn_fdir_filter 256 false env_hw_fail
      (qede_config_cmn_fdir_filter 256 false {} (dev_with 3) d_tcp4 true).dev d_tcp4
        true).dev.fdir_info.filter_count
      = (qede_config_cmn_fdir_filter 256 false {} (dev_with 3) d_tcp4 true).dev.fdir_info.filter_count ∧
    (qede_config_cmn_fdir_filter 256 false env_hw_fail
      (qede_config_cmn_fdir_filter 256 false {} (dev_with 3) d_tcp4 true).dev d_tcp4
        true).dev.fdir_info.fdir_list_head
      = (qede_config_cmn_fdir_filter 256 false {} (dev_with 3) d_tcp4 true).dev.fdir_info.fdir_list_head :=
  C1_add_twice 256 false {} env_hw_fail (dev_with 3) d_tcp4 (by decide) (by decide) (by decide)
    (by decide) (by decide) (by decide)

/-- C3, refuted at a concrete input: the device configured in perfect mode by
`qede_check_fdir_support` has the searcher on and no filter; after an add and
a delete of the scenario descriptor, both submitted to the hardware with
success, the searcher is off. -/
theorem C3_counterexample :
    qede_valid_flow d_tcp4.input.flow_type = true ∧
    (qede_check_fdir_support
      { fdir_mode := rte_fdir_mode.RTE_FDIR_MODE_PERFECT }).2.fdir_info.arfs.arfs_enable = true ∧
    hw_submitted (qede_config_cmn_fdir_filter 256 false {}
      (qede_check_fdir_support { fdir_mode := rte_fdir_mode.RTE_FDIR_MODE_PERFECT }).2
      d_tcp4 true) = true ∧
    hw_submitted (qede_config_cmn_fdir_filter 256 false {}
      (qede_config_cmn_fdir_filter 256 false {}
        (qede_check_fdir_support { fdir_mode := rte_fdir_mode.RTE_FDIR_MODE_PERFECT }).2
        d_tcp4 true).dev d_tcp4 false) = true ∧
    (qede_config_cmn_fdir_filter 256 false {}
      (qede_config_cmn_fdir_filter 256 false {}
        (qede_check_fdir_support { fdir_mode := rte_fdir_mode.RTE_FDIR_MODE_PERFECT }).2
        d_tcp4 true).dev d_tcp4 false).dev.fdir_info.arfs.arfs_enable = false := by
  decide

/-- C3, as amended: when an add and the following delete of a descriptor both
reach the hardware submission and both submissions succeed (the 16-bit count
not being at its maximum), the searcher flag `arfs_enable` is afterwards set
exactly when the filter count before the add was not 0; so it has its former
value exactly when, before the add, it was set if and only if filters were
present. -/
theorem C3_add_delete_flag (MAX : Nat) (be : Bool) (env1 env2 : fdir_env)
    (qdev : qede_dev) (d : rte_eth_fdir_filter)
    (hu16 : qdev.fdir_info.filter_count + 1 < 65536)
    (hs1 : hw_submitted (qede_config_cmn_fdir_filter MAX be env1 qdev d true) = true)
    (hw1 : env1.hw_rc = ECORE_SUCCESS)
    (hs2 : hw_submitted (qede_config_cmn_fdir_filter MAX be env2
      (qede_config_cmn_fdir_filter MAX be env1 qdev d true).dev d false) = true)
    (hw2 : env2.hw_rc = ECORE_SUCCESS) :
    (qede_config_cmn_fdir_filter MAX be env2
      (qede_config_cmn_fdir_filter MAX be env1 qdev d true).dev d false).dev.fdir_info.arfs.arfs_enable
      = decide (qdev.fdir_info.filter_count ≠ 0) ∧
    ((qede_config_cmn_fdir_filter MAX be env2
      (qede_config_cmn_fdir_filter MAX be env1 qdev d true).dev d false).dev.fdir_info.arfs.arfs_enable
      = qdev.fdir_info.arfs.arfs_enable ↔
      (qdev.fdir_info.arfs.arfs_enable = true ↔ qdev.fdir_info.filter_count ≠ 0)) := by
  obtain ⟨hc, hm, hz, hlen, hn⟩ := (cmn_add_submitted_iff MAX be env1 qdev d).1 hs1
  have e1 := cmn_add_ok_eq MAX be env1 qdev d hc hm hz hlen hn hw1
  obtain ⟨hz2, -, hs⟩ := (cmn_del_submitted_iff MAX be env2 _ d).1 hs2
  have e2 := cmn_del_ok_eq MAX be env2 _ d hz2 hlen hs hw2
  have hc1 : (qede_config_cmn_fdir_filter MAX be env1 qdev d true).dev.fdir_info.filter_count =
      qdev.fdir_info.filter_count + 1 := by
    rw [e1]
    simp only [fdir_finish_count, fdir_list_update_add_count, fdir_force_enable_count,
      fdir_built_count]
    omega
  have hf1 : (qede_config_cmn_fdir_filter MAX be env1 qdev d true).dev.fdir_info.arfs.arfs_enable =
      true := by
    rw [e1, fdir_finish_flag]
    simp only [fdir_list_update_add_count, fdir_force_enable_count, fdir_built_count,
      fdir_list_update_flag, fdir_force_enable_flag]
    rw [if_neg (by omega)]
  have key : (qede_config_cmn_fdir_filter MAX be env2
      (qede_config_cmn_fdir_filter MAX be env1 qdev d true).dev d false).dev.fdir_info.arfs.arfs_enable
      = decide (qdev.fdir_info.filter_count ≠ 0) := by
    rw [e2, fdir_finish_flag]
    simp only [fdir_list_update_del_count, fdir_built_count, fdir_list_update_flag,
      fdir_built_flag, hc1, hf1]
    by_cases h0 : qdev.fdir_info.filter_count = 0
    · simp [h0]
    · have : (qdev.fdir_info.filter_count + 1 + 65535) % 65536 ≠ 0 := by omega
      simp [h0, this]
  refine ⟨key, ?_⟩
  rw [key]
  cases qdev.fdir_info.arfs.arfs_enable <;> by_cases h0 : qdev.fdir_info.filter_count = 0 <;>
    simp [h0]

/-- C3 as amended, at a concrete input: the scenario descriptor added to and
deleted from the device with three filters. -/
theorem C3_add_delete_flag_witness :
    (qede_config_cmn_fdir_filter 256 false {}
      (qede_config_cmn_fdir_filter 256 false {} (dev_with 3) d_tcp4 true).dev d_tcp4
        false).dev.fdir_info.arfs.arfs_enable
      = decide ((dev_with 3).fdir_info.filter_count ≠ 0) ∧
    ((qede_config_cmn_fdir_filter 256 false {}
      (qede_config_cmn_fdir_filter 256 false {} (dev_with 3) d_tcp4 true).dev d_tcp4
        false).dev.fdir_info.arfs.arfs_enable
      = (dev_with 3).fdir_info.arfs.arfs_enable ↔
      ((dev_with 3).fdir_info.arfs.arfs_enable = true ↔ (dev_with 3).fdir_info.filter_count ≠ 0)) :=
  C3_add_delete_flag 256 false {} {} (dev_with 3) d_tcp4 (by decide) (by decide) (by decide)
    (by decide) (by decide)

/-! ## When an add stores a record -/

/-- The list and count after a request entering through `qede_fdir_filter_add`
are those of the device itself or of `qede_config_cmn_fdir_filter`. -/
theorem fdir_step_cases (MAX : Nat) (be : Bool) (qdev : qede_dev) (r : fdir_request) :
    fdir_step MAX be qdev r = qdev ∨
    ∃ env d add, fdir_step MAX be qdev r = (qede_config_cmn_fdir_filter MAX be env qdev d add).dev := by
  cases r with
  | fdir env d add =>
    simp only [fdir_step, qede_fdir_filter_add]
    split_ifs
    · left; rfl
    · left; rfl
    · left; rfl
    · right; exact ⟨env, d, add, rfl⟩
  | cmn env d add => right; exact ⟨env, d, add, rfl⟩

/-- An invariant of the device that every call of `qede_config_cmn_fdir_filter`
preserves holds after every sequence of requests. -/
theorem fdir_run_induction (MAX : Nat) (be : Bool) (P : qede_dev → Prop)
    (hstep : ∀ env q d add, P q → P (qede_config_cmn_fdir_filter MAX be env q d add).dev)
    (reqs : List fdir_request) (q : qede_dev) (h0 : P q) : P (fdir_run MAX be q reqs) := by
  induction reqs generalizing q with
  | nil => exact h0
  | cons r rs ih =>
    simp only [fdir_run, List.foldl_cons]
    apply ih
    rcases fdir_step_cases MAX be q r with h | ⟨env, d, add, h⟩
    · rw [h]; exact h0
    · rw [h]; exact hstep env q d add h0

/-- One request keeps the count equal to the length of the list and at most
`QEDE_RFS_MAX_FLTR - 1`. -/
theorem cmn_count_inv (MAX : Nat) (be : Bool) (hmax : 0 < MAX ∧ MAX ≤ 65536) (env : fdir_env)
    (q : qede_dev) (d : rte_eth_fdir_filter) (add : Bool)
    (h : q.fdir_info.filter_count = q.fdir_info.fdir_list_head.length ∧
      q.fdir_info.filter_count ≤ MAX - 1) :
    (qede_config_cmn_fdir_filter MAX be env q d add).dev.fdir_info.filter_count =
      (qede_config_cmn_fdir_filter MAX be env q d add).dev.fdir_info.fdir_list_head.length ∧
    (qede_config_cmn_fdir_filter MAX be env q d add).dev.fdir_info.filter_count ≤ MAX - 1 := by
  obtain ⟨hlen, hle⟩ := h
  rcases cmn_step_cases MAX be env q d add with ⟨hl, hc⟩ | ⟨-, hcap, -, hl, hc⟩ | ⟨-, hs, hl, hc⟩
  · rw [hl, hc]; exact ⟨hlen, hle⟩
  · rw [hl, hc, List.length_cons]
    have : q.fdir_info.filter_count + 1 ≤ MAX - 1 := by omega
    constructor <;> omega
  · obtain ⟨e, he, hp⟩ := (fdir_lookup_isSome_iff _ _ _).1 hs
    have hpos : 0 < q.fdir_info.fdir_list_head.length := List.length_pos_of_mem he
    rw [hl, hc]
    unfold fdir_remove
    rw [List.length_eraseP_of_mem he hp]
    constructor <;> omega

/-- One request keeps the records pairwise different filters. -/
theorem cmn_distinct_inv (MAX : Nat) (be : Bool) (env : fdir_env)
    (q : qede_dev) (d : rte_eth_fdir_filter) (add : Bool)
    (h : fdir_distinct q.fdir_info.fdir_list_head) :
    fdir_distinct (qede_config_cmn_fdir_filter MAX be env q d add).dev.fdir_info.fdir_list_head := by
  rcases cmn_step_cases MAX be env q d add with ⟨hl, -⟩ | ⟨-, -, hn, hl, -⟩ | ⟨-, -, hl, -⟩
  · rw [hl]; exact h
  · rw [hl]
    unfold fdir_distinct
    rw [List.pairwise_cons]
    refine ⟨?_, h⟩
    intro e he hst
    obtain ⟨h1, h2⟩ := hst
    simp only [fdir_new_entry] at h1 h2
    have hfalse : memcmp_eq e.mz (fdir_pkt be d) (fdir_pkt_len be d) = false := by
      unfold fdir_lookup at hn
      rw [List.find?_eq_none] at hn
      simpa using hn e he
    have htrue : memcmp_eq e.mz (fdir_pkt be d) (fdir_pkt_len be d) = true := by
      unfold memcmp_eq
      simp only [decide_eq_true_eq]
      rw [h2, ← h1]
    rw [hfalse] at htrue
    cases htrue
  · rw [hl]
    exact List.Pairwise.sublist (List.eraseP_sublist _) h

/-- C9: in every state reached from a device with no records and count 0 by a
sequence of flow-director add and delete requests, whatever the allocations
and the hardware return, the filter count equals the number of records in the
list (`QEDE_RFS_MAX_FLTR` being a positive constant that fits the 16-bit
count). -/
theorem C9_count_is_length (MAX : Nat) (be : Bool) (hmax : 0 < MAX ∧ MAX ≤ 65536)
    (q0 : qede_dev)
    (h0 : q0.fdir_info.fdir_list_head = [] ∧ q0.fdir_info.filter_count = 0)
    (reqs : List fdir_request) :
    (fdir_run MAX be q0 reqs).fdir_info.filter_count =
      (fdir_run MAX be q0 reqs).fdir_info.fdir_list_head.length := by
  have h := fdir_run_induction MAX be
    (fun q => q.fdir_info.filter_count = q.fdir_info.fdir_list_head.length ∧
      q.fdir_info.filter_count ≤ MAX - 1)
    (fun env q d add hq => cmn_count_inv MAX be hmax env q d add hq) reqs q0
    (by show q0.fdir_info.filter_count = q0.fdir_info.fdir_list_head.length ∧
          q0.fdir_info.filter_count ≤ MAX - 1
        rw [h0.1, h0.2]; exact ⟨rfl, Nat.zero_le _⟩)
  exact h.1

/-- C9, at a concrete input: the example sequence run on the empty device with
four queues ends with two records and count 2. -/
theorem C9_count_is_length_witness :
    (fdir_run 256 false dev_four_queues reqs_example).fdir_info.filter_count = 2 ∧
    (fdir_run 256 false dev_four_queues reqs_example).fdir_info.filter_count =
      (fdir_run 256 false dev_four_queues reqs_example).fdir_info.fdir_list_head.length :=
  ⟨by decide, C9_count_is_length 256 false (by decide) dev_four_queues (by decide) reqs_example⟩

/-- C10: in every state reached from a device with no records and count 0 by a
sequence of flow-director add and delete requests, whatever the allocations
and the hardware return, no two records at different places of the list have
byte-identical templates (the same length and the same bytes over it). -/
theorem C10_no_duplicate_templates (MAX : Nat) (be : Bool) (q0 : qede_dev)
    (h0 : q0.fdir_info.fdir_list_head = [] ∧ q0.fdir_info.filter_count = 0)
    (reqs : List fdir_request) :
    fdir_distinct (fdir_run MAX be q0 reqs).fdir_info.fdir_list_head ∧
    ∀ (i j : Nat) (hij : i < j)
      (hj : j < (fdir_run MAX be q0 reqs).fdir_info.fdir_list_head.length),
      ¬ same_template
        ((fdir_run MAX be q0 reqs).fdir_info.fdir_list_head.get ⟨i, Nat.lt_trans hij hj⟩)
        ((fdir_run MAX be q0 reqs).fdir_info.fdir_list_head.get ⟨j, hj⟩) := by
  have h := fdir_run_induction MAX be
    (fun q => fdir_distinct q.fdir_info.fdir_list_head)
    (fun env q d add hq => cmn_distinct_inv MAX be env q d add hq) reqs q0
    (by show fdir_distinct q0.fdir_info.fdir_list_head
        rw [h0.1]; exact List.Pairwise.nil)
  refine ⟨h, ?_⟩
  intro i j hij hj
  exact List.pairwise_iff_get.1 h ⟨i, Nat.lt_trans hij hj⟩ ⟨j, hj⟩ hij

/-- C10, at a concrete input: the example sequence run on the empty device
with four queues. -/
theorem C10_no_duplicate_templates_witness :
    (fdir_run 256 false dev_four_queues reqs_example).fdir_info.fdir_list_head.length = 2 ∧
    fdir_distinct (fdir_run 256 false dev_four_queues reqs_example).fdir_info.fdir_list_head :=
  ⟨by decide,
   (C10_no_duplicate_templates 256 false dev_four_queues (by decide) reqs_example).1⟩

theorem buf_write_length (src : List Nat) (buf : List Nat) (off : Nat) :
    (buf_write buf off src).length = buf.length := by
  induction src generalizing buf off with
  | nil => rfl
  | cons b bs ih => simp [buf_write, ih]

theorem buf_write_getD (src : List Nat) (buf : List Nat) (off i : Nat) :
    (buf_write buf off src).getD i 0 =
      if off ≤ i ∧ i < off + src.length ∧ i < buf.length then src.getD (i - off) 0
      else buf.getD i 0 := by
  induction src generalizing buf off with
  | nil =>
    have : ¬ (off ≤ i ∧ i < off + ([] : List Nat).length ∧ i < buf.length) := by
      simp only [List.length_nil]; omega
    rw [if_neg this]; rfl
  | cons b bs ih =>
    simp only [buf_write, ih, List.length_set, List.length_cons]
    by_cases h1 : off + 1 ≤ i
    · have e : i - off = (i - (off + 1)) + 1 := by omega
      have hne : off ≠ i := by omega
      by_cases h2 : i < off + 1 + bs.length ∧ i < buf.length
      · rw [if_pos ⟨h1, h2⟩, if_pos ⟨by omega, by omega, h2.2⟩, e]
        simp
      · rw [if_neg (fun h => h2 h.2), if_neg (fun h => h2 ⟨by omega, h.2.2⟩)]
        simp [List.getD_eq_getElem?_getD, List.getElem?_set, hne]
    · rw [if_neg (fun h => h1 h.1)]
      by_cases h3 : off = i
      · subst h3
        by_cases h4 : off < buf.length
        · rw [if_pos ⟨le_refl _, by omega, h4⟩]
          simp [List.getD_eq_getElem?_getD, List.getElem?_set, h4]
        · rw [if_neg (fun h => h4 h.2.2)]
          have : buf[off]? = none := List.getElem?_eq_none (by omega)
          simp [List.getD_eq_getElem?_getD, List.getElem?_set, h4, this]
      · rw [if_neg (fun h => by omega)]
        simp [List.getD_eq_getElem?_getD, List.getElem?_set, h3]

@[simp] theorem store16_length (be : Bool) (v : Nat) : (store16 be v).length = 2 := by
  cases be <;> rfl

@[simp] theorem store32_length (be : Bool) (v : Nat) : (store32 be v).length = 4 := by
  cases be <;> rfl

@[simp] theorem bytes_of_length (n : Nat) (l : List Nat) : (bytes_of n l).length = n := by
  simp [bytes_of]

/-- Reading back the region that was written last. -/
theorem buf_read_write_same (src buf : List Nat) (off : Nat)
    (h : off + src.length ≤ buf.length) :
    buf_read (buf_write buf off src) off src.length = src := by
  apply List.ext_getElem
  · simp [buf_read]
  · intro i h1 h2
    simp only [buf_read, List.getElem_map, List.getElem_range, buf_write_getD]
    rw [if_pos ⟨by omega, by omega, by omega⟩]
    simp [List.getD_eq_getElem?_getD, h2]

/-- A write does not change what is read from a region it does not touch. -/
theorem buf_read_write_other (src buf : List Nat) (off o n : Nat)
    (h : o + n ≤ off ∨ off + src.length ≤ o) :
    buf_read (buf_write buf off src) o n = buf_read buf o n := by
  apply List.ext_getElem
  · simp [buf_read]
  · intro i h1 h2
    simp only [buf_read, List.length_map, List.length_range] at h1
    simp only [buf_read, List.getElem_map, List.getElem_range, buf_write_getD]
    rw [if_neg (fun hc => by omega)]

/-- Reading a region through a later write: the write itself when it put
exactly that region. -/
theorem buf_read_write_eq (src buf : List Nat) (off o n : Nat)
    (ho : o = off) (hn : src.length = n) (hb : off + n ≤ buf.length) :
    buf_read (buf_write buf off src) o n = src := by
  subst ho; subst hn
  exact buf_read_write_same src buf o hb

theorem buf_read_zero (m o n : Nat) :
    buf_read (List.replicate m 0) o n = List.replicate n 0 := by
  apply List.ext_getElem
  · simp [buf_read]
  · intro i h1 h2
    simp only [buf_read, List.getElem_map, List.getElem_range, List.getElem_replicate,
      List.getD_eq_getElem?_getD]
    by_cases h : o + i < m
    · simp [List.getElem?_replicate, h]
    · simp [List.getElem?_replicate, h]

theorem store16_be16_ipv4 (be : Bool) :
    store16 be (rte_cpu_to_be_16 be ETHER_TYPE_IPv4) = [0x08, 0x00] := by
  cases be <;> rfl

theorem store16_be16_ipv6 (be : Bool) :
    store16 be (rte_cpu_to_be_16 be ETHER_TYPE_IPv6) = [0x86, 0xDD] := by
  cases be <;> rfl

theorem store32_be32_vtc (be : Bool) :
    store32 be (rte_cpu_to_be_32 be QEDE_FDIR_IPV6_DEFAULT_VTC_FLOW) = [0x60, 0, 0, 0] := by
  cases be <;> rfl

theorem bytes_of_self (n : Nat) (l : List Nat) (hl : l.length = n) (hb : ∀ x ∈ l, x < 256) :
    bytes_of n l = l := by
  apply List.ext_getElem
  · simp [bytes_of, hl]
  · intro i h1 h2
    simp only [bytes_of, List.getElem_map, List.getElem_range, List.getD_eq_getElem?_getD]
    rw [List.getElem?_eq_getElem h2]
    exact Nat.mod_eq_of_lt (hb _ (List.getElem_mem h2))

/-! ## The length of the template -/

theorem construct_ipv4_len (be : Bool) (i : rte_eth_fdir_input) (b : List Nat)
    (et : Nat) (p : ecore_arfs_config_params) :
    (construct_ipv4 be i b et p).len =
      et + 2 + 20 + (if i.flow_type = RTE_ETH_FLOW_NONFRAG_IPV4_UDP then 8 else 20) := by
  unfold construct_ipv4
  split_ifs <;> rfl

theorem construct_ipv6_len (be : Bool) (i : rte_eth_fdir_input) (b : List Nat)
    (et : Nat) (p : ecore_arfs_config_params) :
    (construct_ipv6 be i b et p).len =
      et + 2 + 40 + (if i.flow_type = RTE_ETH_FLOW_NONFRAG_IPV6_UDP then 8 else 20) := by
  unfold construct_ipv6
  split_ifs <;> rfl

theorem construct_l2_snd (be : Bool) (d : rte_eth_fdir_filter) (b : List Nat) :
    (construct_l2 be d.input b).2 = 12 + fdir_vlan_len d := by
  unfold construct_l2 fdir_vlan_len
  split_ifs <;> rfl

theorem construct_l2_length (be : Bool) (i : rte_eth_fdir_input) (b : List Nat) :
    (construct_l2 be i b).1.length = b.length := by
  unfold construct_l2
  split_ifs
  · simp only [buf_write_length]
  · rfl

/-- C11: for every IPv4/TCP or IPv4/UDP descriptor the length returned by
`qede_fdir_construct_pkt` is 12 + (4 if the VLAN value is non-zero) + 2 + 20 +
(20 for TCP, 8 for UDP), whatever the buffer and the host byte order. -/
theorem C11_ipv4_length (be : Bool) (d : rte_eth_fdir_filter) (buff : List Nat)
    (params : ecore_arfs_config_params)
    (h4 : d.input.flow_type = RTE_ETH_FLOW_NONFRAG_IPV4_TCP ∨
      d.input.flow_type = RTE_ETH_FLOW_NONFRAG_IPV4_UDP) :
    (qede_fdir_construct_pkt be d buff params).len =
      12 + (if d.input.flow_ext.vlan_tci % 65536 ≠ 0 then 4 else 0) + 2 + 20 +
        (if d.input.flow_type = RTE_ETH_FLOW_NONFRAG_IPV4_TCP then 20 else 8) := by
  unfold qede_fdir_construct_pkt
  rw [if_pos h4, construct_ipv4_len, construct_l2_snd]
  unfold fdir_vlan_len
  rcases h4 with h | h <;> rw [h] <;>
    simp [RTE_ETH_FLOW_NONFRAG_IPV4_TCP, RTE_ETH_FLOW_NONFRAG_IPV4_UDP]

/-- C11, at concrete inputs: 54 bytes for the untagged IPv4/TCP descriptor of
the scenario, 46 bytes for a VLAN-tagged IPv4/UDP descriptor. -/
theorem C11_ipv4_length_witness :
    (qede_fdir_construct_pkt false d_tcp4 (List.replicate QEDE_MAX_FDIR_PKT_LEN 0) {}).len = 54 ∧
    (qede_fdir_construct_pkt false d_udp4_vlan (List.replicate QEDE_MAX_FDIR_PKT_LEN 0) {}).len
      = 46 :=
  ⟨C11_ipv4_length false d_tcp4 _ {} (by decide),
   C11_ipv4_length false d_udp4_vlan _ {} (by decide)⟩

/-! ## The bytes of the template -/

/-- The IPv4 and transport headers written by `construct_ipv4`, field by
field; `et` is the offset of the EtherType. -/
theorem construct_ipv4_bytes (be : Bool) (i : rte_eth_fdir_input) (b : List Nat) (et : Nat)
    (p : ecore_arfs_config_params) (hb : et + 42 ≤ b.length) :
    buf_read (construct_ipv4 be i b et p).buff et 2 = [0x08, 0x00] ∧
    buf_read (construct_ipv4 be i b et p).buff (et + 2) 1 = [0x45] ∧
    buf_read (construct_ipv4 be i b et p).buff (et + 2 + 1) 1 =
      [i.flow.udp4_flow.ip.tos % 256] ∧
    buf_read (construct_ipv4 be i b et p).buff (et + 2 + 2) 2 =
      store16 be (20 + (if i.flow_type = RTE_ETH_FLOW_NONFRAG_IPV4_UDP then 8 else 20)) ∧
    buf_read (construct_ipv4 be i b et p).buff (et + 2 + 8) 1 =
      [if i.flow.udp4_flow.ip.ttl % 256 ≠ 0 then i.flow.udp4_flow.ip.ttl % 256 else 64] ∧
    buf_read (construct_ipv4 be i b et p).buff (et + 2 + 9) 1 =
      [if i.flow.udp4_flow.ip.proto % 256 ≠ 0 then i.flow.udp4_flow.ip.proto % 256
        else next_proto i.flow_type] ∧
    buf_read (construct_ipv4 be i b et p).buff (et + 2 + 12) 4 =
      store32 be i.flow.udp4_flow.ip.src_ip ∧
    buf_read (construct_ipv4 be i b et p).buff (et + 2 + 16) 4 =
      store32 be i.flow.udp4_flow.ip.dst_ip ∧
    buf_read (construct_ipv4 be i b et p).buff (et + 2 + 20) 2 =
      store16 be i.flow.udp4_flow.src_port ∧
    buf_read (construct_ipv4 be i b et p).buff (et + 2 + 20 + 2) 2 =
      store16 be i.flow.udp4_flow.dst_port ∧
    (i.flow_type = RTE_ETH_FLOW_NONFRAG_IPV4_UDP →
      buf_read (construct_ipv4 be i b et p).buff (et + 2 + 20 + 4) 2 = store16 be 8) ∧
    (i.flow_type ≠ RTE_ETH_FLOW_NONFRAG_IPV4_UDP →
      buf_read (construct_ipv4 be i b et p).buff (et + 2 + 20 + 12) 1 = [0x50]) := by
  by_cases hu : i.flow_type = RTE_ETH_FLOW_NONFRAG_IPV4_UDP
  · simp only [construct_ipv4, hu, if_true, store16_be16_ipv4, sizeof_ipv4_hdr, sizeof_udp_hdr,
      QEDE_FDIR_IPV4_DEF_TTL, ne_eq, not_true_eq_false, false_implies, true_implies, and_true]
    refine ⟨?_, ?_, ?_, ?_, ?_, ?_, ?_, ?_, ?_, ?_, ?_⟩ <;>
      simp (disch := first | omega | (simp only [buf_write_length, store16_length,
        store32_length, List.length_cons, List.length_nil] ; omega) | simp) only
        [buf_read_write_eq, buf_read_write_other]
    rfl
  · simp only [construct_ipv4, hu, if_false, store16_be16_ipv4, sizeof_ipv4_hdr, sizeof_tcp_hdr,
      QEDE_FDIR_IPV4_DEF_TTL, QEDE_FDIR_TCP_DEFAULT_DATAOFF, ne_eq, not_false_eq_true,
      false_implies, true_implies, and_true, true_and]
    refine ⟨?_, ?_, ?_, ?_, ?_, ?_, ?_, ?_, ?_, ?_, ?_⟩ <;>
      simp (disch := first | omega | (simp only [buf_write_length, store16_length,
        store32_length, List.length_cons, List.length_nil] ; omega) | simp) only
        [buf_read_write_eq, buf_read_write_other]
    rfl

/-- Reading a region that lies inside the region written last. -/
theorem buf_read_write_in (src buf : List Nat) (off o n : Nat)
    (h1 : off ≤ o) (h2 : o + n ≤ off + src.length) (hb : off + src.length ≤ buf.length) :
    buf_read (buf_write buf off src) o n = (src.drop (o - off)).take n := by
  apply List.ext_getElem
  · simp only [buf_read, List.length_map, List.length_range, List.length_take,
      List.length_drop]
    omega
  · intro i hi1 hi2
    simp only [buf_read, List.length_map, List.length_range] at hi1
    simp only [buf_read, List.getElem_map, List.getElem_range, buf_write_getD,
      List.getElem_take, List.getElem_drop]
    rw [if_pos ⟨by omega, by omega, by omega⟩]
    have e : o + i - off = o - off + i := by omega
    have hlt : o - off + i < src.length := by omega
    rw [e, List.getD_eq_getElem?_getD, List.getElem?_eq_getElem hlt]
    rfl

/-- The headers written by `construct_ipv6`, field by field; `et` is the offset
of the EtherType.  The payload length, the hop limit and, for UDP, the datagram
length and checksum are not written. -/
theorem construct_ipv6_bytes (be : Bool) (i : rte_eth_fdir_input) (b : List Nat) (et : Nat)
    (p : ecore_arfs_config_params) (hb : et + 62 ≤ b.length) :
    buf_read (construct_ipv6 be i b et p).buff et 2 = [0x86, 0xDD] ∧
    buf_read (construct_ipv6 be i b et p).buff (et + 2) 4 = [0x60, 0, 0, 0] ∧
    buf_read (construct_ipv6 be i b et p).buff (et + 2 + 4) 2 = buf_read b (et + 2 + 4) 2 ∧
    buf_read (construct_ipv6 be i b et p).buff (et + 2 + 6) 1 =
      [if i.flow.udp6_flow.ip.proto % 256 ≠ 0 then i.flow.udp6_flow.ip.proto % 256
        else next_proto i.flow_type] ∧
    buf_read (construct_ipv6 be i b et p).buff (et + 2 + 8) 16 =
      bytes_of 16 i.flow.udp6_flow.ip.src_ip ∧
    buf_read (construct_ipv6 be i b et p).buff (et + 2 + 24) 16 =
      bytes_of 16 i.flow.udp6_flow.ip.dst_ip ∧
    buf_read (construct_ipv6 be i b et p).buff (et + 2 + 40) 2 =
      store16 be i.flow.udp6_flow.src_port ∧
    buf_read (construct_ipv6 be i b et p).buff (et + 2 + 40 + 2) 2 =
      store16 be i.flow.udp6_flow.dst_port ∧
    (i.flow_type = RTE_ETH_FLOW_NONFRAG_IPV6_UDP →
      buf_read (construct_ipv6 be i b et p).buff (et + 2 + 40 + 4) 2 =
        buf_read b (et + 2 + 40 + 4) 2) ∧
    (i.flow_type ≠ RTE_ETH_FLOW_NONFRAG_IPV6_UDP →
      buf_read (construct_ipv6 be i b et p).buff (et + 2 + 40 + 12) 1 = [0x50]) := by
  by_cases hu : i.flow_type = RTE_ETH_FLOW_NONFRAG_IPV6_UDP
  · simp only [construct_ipv6, hu, if_true, store16_be16_ipv6, store32_be32_vtc,
      sizeof_ipv6_hdr, sizeof_udp_hdr, IPV6_ADDR_LEN, ne_eq, not_true_eq_false, false_implies,
      true_implies, and_true]
    refine ⟨?_, ?_, ?_, ?_, ?_, ?_, ?_, ?_, ?_⟩ <;>
      simp (disch := first | omega | (simp only [buf_write_length, store16_length,
        store32_length, bytes_of_length, List.length_cons, List.length_nil] ; omega) | simp) only
        [buf_read_write_eq, buf_read_write_other]
  · simp only [construct_ipv6, hu, if_false, store16_be16_ipv6, store32_be32_vtc,
      sizeof_ipv6_hdr, sizeof_tcp_hdr, IPV6_ADDR_LEN, QEDE_FDIR_TCP_DEFAULT_DATAOFF, ne_eq,
      not_false_eq_true, false_implies, true_implies, and_true, true_and]
    refine ⟨?_, ?_, ?_, ?_, ?_, ?_, ?_, ?_, ?_⟩ <;>
      simp (disch := first | omega | (simp only [buf_write_length, store16_length,
        store32_length, bytes_of_length, List.length_cons, List.length_nil] ; omega) | simp) only
        [buf_read_write_eq, buf_read_write_other]

/-- The branch `construct_ipv4` writes nothing below the EtherType. -/
theorem construct_ipv4_below (be : Bool) (i : rte_eth_fdir_input) (b : List Nat) (et : Nat)
    (p : ecore_arfs_config_params) (o n : Nat) (h : o + n ≤ et) :
    buf_read (construct_ipv4 be i b et p).buff o n = buf_read b o n := by
  by_cases hu : i.flow_type = RTE_ETH_FLOW_NONFRAG_IPV4_UDP
  · simp only [construct_ipv4, hu, if_true, sizeof_ipv4_hdr, sizeof_udp_hdr]
    simp (disch := omega) only [buf_read_write_other]
  · simp only [construct_ipv4, hu, if_false, sizeof_ipv4_hdr, sizeof_tcp_hdr]
    simp (disch := omega) only [buf_read_write_other]

/-- The branch `construct_ipv6` writes nothing below the EtherType. -/
theorem construct_ipv6_below (be : Bool) (i : rte_eth_fdir_input) (b : List Nat) (et : Nat)
    (p : ecore_arfs_config_params) (o n : Nat) (h : o + n ≤ et) :
    buf_read (construct_ipv6 be i b et p).buff o n = buf_read b o n := by
  by_cases hu : i.flow_type = RTE_ETH_FLOW_NONFRAG_IPV6_UDP
  · simp only [construct_ipv6, hu, if_true, sizeof_ipv6_hdr, sizeof_udp_hdr]
    simp (disch := omega) only [buf_read_write_other]
  · simp only [construct_ipv6, hu, if_false, sizeof_ipv6_hdr, sizeof_tcp_hdr]
    simp (disch := omega) only [buf_read_write_other]

/-- The link-layer step: with a VLAN value the bytes 12 to 15 are 0x81, 0x00
and the two bytes of the value; every other region is left as it was. -/
theorem construct_l2_bytes (be : Bool) (d : rte_eth_fdir_filter) (b : List Nat)
    (hb : 16 ≤ b.length) :
    (d.input.flow_ext.vlan_tci % 65536 ≠ 0 →
      buf_read (construct_l2 be d.input b).1 12 2 = [0x81, 0x00] ∧
      buf_read (construct_l2 be d.input b).1 14 2 = store16 be d.input.flow_ext.vlan_tci) ∧
    (∀ o n, o + n ≤ 12 ∨ 12 + fdir_vlan_len d ≤ o →
      buf_read (construct_l2 be d.input b).1 o n = buf_read b o n) := by
  unfold construct_l2 fdir_vlan_len
  by_cases hv : d.input.flow_ext.vlan_tci % 65536 ≠ 0
  · simp only [hv, if_true, sizeof_ether_addr, vlan_frame, not_false_eq_true, true_implies,
      ne_eq]
    refine ⟨⟨?_, ?_⟩, ?_⟩
    · rw [buf_read_write_other _ _ _ _ _ (by simp),
        buf_read_write_in _ _ _ _ _ (by omega) (by simp) (by simp; omega)]
      rfl
    · rw [buf_read_write_eq _ _ _ _ _ (by omega) (by simp) (by simp [buf_write_length]; omega)]
    · intro o n h
      rw [buf_read_write_other _ _ _ _ _ (by simp; omega),
        buf_read_write_other _ _ _ _ _ (by simp; omega)]
  · simp only [hv, if_false, false_implies, true_and]
    intro o n _
    trivial

theorem fdir_vlan_len_le (d : rte_eth_fdir_filter) : fdir_vlan_len d ≤ 4 := by
  unfold fdir_vlan_len
  split_ifs <;> omega

theorem construct_pkt_ipv4_eq (be : Bool) (d : rte_eth_fdir_filter) (buff : List Nat)
    (params : ecore_arfs_config_params)
    (h4 : d.input.flow_type = RTE_ETH_FLOW_NONFRAG_IPV4_TCP ∨
      d.input.flow_type = RTE_ETH_FLOW_NONFRAG_IPV4_UDP) :
    qede_fdir_construct_pkt be d buff params =
      construct_ipv4 be d.input (construct_l2 be d.input buff).1 (12 + fdir_vlan_len d)
        params := by
  unfold qede_fdir_construct_pkt
  rw [if_pos h4, construct_l2_snd]

theorem construct_pkt_ipv6_eq (be : Bool) (d : rte_eth_fdir_filter) (buff : List Nat)
    (params : ecore_arfs_config_params)
    (h6 : d.input.flow_type = RTE_ETH_FLOW_NONFRAG_IPV6_TCP ∨
      d.input.flow_type = RTE_ETH_FLOW_NONFRAG_IPV6_UDP) :
    qede_fdir_construct_pkt be d buff params =
      construct_ipv6 be d.input (construct_l2 be d.input buff).1 (12 + fdir_vlan_len d)
        params := by
  have h4 : ¬ (d.input.flow_type = RTE_ETH_FLOW_NONFRAG_IPV4_TCP ∨
      d.input.flow_type = RTE_ETH_FLOW_NONFRAG_IPV4_UDP) := by
    rcases h6 with h | h <;> rw [h] <;> decide
  unfold qede_fdir_construct_pkt
  rw [if_neg h4, if_pos h6, construct_l2_snd]

/-- C12: for every IPv4/TCP or IPv4/UDP descriptor built into an 86-byte buffer,
the IPv4 header that starts right after the EtherType (offset 12 + VLAN bytes +
2) has version/header-length byte 0x45, the descriptor's type of service, a
total-length field holding 20 plus the transport header size (40 for TCP, 28
for UDP, stored in host order), the descriptor's ttl when non-zero and 64
otherwise, the descriptor's proto when non-zero and otherwise 6 for TCP and 17
for UDP, and the four bytes of the descriptor's source and destination
addresses as they are. -/
theorem C12_ipv4_header (be : Bool) (d : rte_eth_fdir_filter) (buff : List Nat)
    (params : ecore_arfs_config_params)
    (hbuf : buff.length = QEDE_MAX_FDIR_PKT_LEN)
    (h4 : d.input.flow_type = RTE_ETH_FLOW_NONFRAG_IPV4_TCP ∨
      d.input.flow_type = RTE_ETH_FLOW_NONFRAG_IPV4_UDP) :
    buf_read (qede_fdir_construct_pkt be d buff params).buff (12 + fdir_vlan_len d + 2) 1 =
      [0x45] ∧
    buf_read (qede_fdir_construct_pkt be d buff params).buff (12 + fdir_vlan_len d + 2 + 1) 1 =
      [d.input.flow.udp4_flow.ip.tos % 256] ∧
    buf_read (qede_fdir_construct_pkt be d buff params).buff (12 + fdir_vlan_len d + 2 + 2) 2 =
      store16 be (20 + (if d.input.flow_type = RTE_ETH_FLOW_NONFRAG_IPV4_TCP then 20 else 8)) ∧
    buf_read (qede_fdir_construct_pkt be d buff params).buff (12 + fdir_vlan_len d + 2 + 8) 1 =
      [if d.input.flow.udp4_flow.ip.ttl % 256 ≠ 0 then d.input.flow.udp4_flow.ip.ttl % 256
        else 64] ∧
    buf_read (qede_fdir_construct_pkt be d buff params).buff (12 + fdir_vlan_len d + 2 + 9) 1 =
      [if d.input.flow.udp4_flow.ip.proto % 256 ≠ 0 then d.input.flow.udp4_flow.ip.proto % 256
        else (if d.input.flow_type = RTE_ETH_FLOW_NONFRAG_IPV4_TCP then 6 else 17)] ∧
    buf_read (qede_fdir_construct_pkt be d buff params).buff (12 + fdir_vlan_len d + 2 + 12) 4 =
      store32 be d.input.flow.udp4_flow.ip.src_ip ∧
    buf_read (qede_fdir_construct_pkt be d buff params).buff (12 + fdir_vlan_len d + 2 + 16) 4 =
      store32 be d.input.flow.udp4_flow.ip.dst_ip := by
  have hle := fdir_vlan_len_le d
  have hb : 12 + fdir_vlan_len d + 42 ≤ (construct_l2 be d.input buff).1.length := by
    rw [construct_l2_length, hbuf]
    simp only [QEDE_MAX_FDIR_PKT_LEN]
    omega
  have key := construct_ipv4_bytes be d.input (construct_l2 be d.input buff).1
    (12 + fdir_vlan_len d) params hb
  obtain ⟨-, k1, k2, k3, k4, k5, k6, k7, -⟩ := key
  rw [construct_pkt_ipv4_eq be d buff params h4]
  refine ⟨k1, k2, ?_, k4, ?_, k6, k7⟩
  · rw [k3]
    rcases h4 with h | h <;> rw [h] <;>
      simp [RTE_ETH_FLOW_NONFRAG_IPV4_TCP, RTE_ETH_FLOW_NONFRAG_IPV4_UDP]
  · rw [k5]
    rcases h4 with h | h <;> rw [h] <;>
      simp [RTE_ETH_FLOW_NONFRAG_IPV4_TCP, RTE_ETH_FLOW_NONFRAG_IPV4_UDP, next_proto,
        IPPROTO_TCP, IPPROTO_UDP]

/-- C12, at concrete inputs on a little-endian host: the scenario descriptor
(no VLAN, no overrides: header at offset 14, total length 40, ttl 64, protocol
6) and a VLAN-tagged IPv4/UDP descriptor with overrides (header at offset 18,
total length 28, ttl 9, protocol 200). -/
theorem C12_ipv4_header_witness :
    (buf_read (fdir_pkt false d_tcp4) 14 1 = [0x45] ∧
      buf_read (fdir_pkt false d_tcp4) 15 1 = [0] ∧
      buf_read (fdir_pkt false d_tcp4) 16 2 = [40, 0] ∧
      buf_read (fdir_pkt false d_tcp4) 22 1 = [64] ∧
      buf_read (fdir_pkt false d_tcp4) 23 1 = [6] ∧
      buf_read (fdir_pkt false d_tcp4) 26 4 = [10, 0, 0, 1] ∧
      buf_read (fdir_pkt false d_tcp4) 30 4 = [10, 0, 0, 2]) ∧
    (buf_read (fdir_pkt false d_udp4_vlan) 18 1 = [0x45] ∧
      buf_read (fdir_pkt false d_udp4_vlan) 19 1 = [3] ∧
      buf_read (fdir_pkt false d_udp4_vlan) 20 2 = [28, 0] ∧
      buf_read (fdir_pkt false d_udp4_vlan) 26 1 = [9] ∧
      buf_read (fdir_pkt false d_udp4_vlan) 27 1 = [200] ∧
      buf_read (fdir_pkt false d_udp4_vlan) 30 4 = [10, 0, 0, 1] ∧
      buf_read (fdir_pkt false d_udp4_vlan) 34 4 = [10, 0, 0, 2]) :=
  ⟨C12_ipv4_header false d_tcp4 (List.replicate QEDE_MAX_FDIR_PKT_LEN 0) {} (by decide)
      (by decide),
   C12_ipv4_header false d_udp4_vlan (List.replicate QEDE_MAX_FDIR_PKT_LEN 0) {} (by decide)
      (by decide)⟩

/-- C13: for every supported descriptor built into the zeroed buffer, bytes 0 to
11 are zero; when the VLAN value is non-zero, bytes 12 to 15 are 0x81, 0x00 and
the two bytes of the VLAN value, and the EtherType is at offset 16; when it is
zero there is no VLAN header and the EtherType is at offset 12 (so bytes 12, 13
are 0x81, 0x00 exactly when the VLAN value is non-zero); the EtherType is 0x08
0x00 for the IPv4 flow types and 0x86 0xDD for the IPv6 flow types. -/
theorem C13_link_layer (be : Bool) (d : rte_eth_fdir_filter)
    (hsup : qede_valid_flow d.input.flow_type = true) :
    buf_read (fdir_pkt be d) 0 12 = List.replicate 12 0 ∧
    (d.input.flow_ext.vlan_tci % 65536 ≠ 0 →
      buf_read (fdir_pkt be d) 12 2 = [0x81, 0x00] ∧
      buf_read (fdir_pkt be d) 14 2 = store16 be d.input.flow_ext.vlan_tci ∧
      buf_read (fdir_pkt be d) 16 2 =
        (if d.input.flow_type = RTE_ETH_FLOW_NONFRAG_IPV4_TCP ∨
            d.input.flow_type = RTE_ETH_FLOW_NONFRAG_IPV4_UDP then [0x08, 0x00]
          else [0x86, 0xDD])) ∧
    (d.input.flow_ext.vlan_tci % 65536 = 0 →
      buf_read (fdir_pkt be d) 12 2 =
        (if d.input.flow_type = RTE_ETH_FLOW_NONFRAG_IPV4_TCP ∨
            d.input.flow_type = RTE_ETH_FLOW_NONFRAG_IPV4_UDP then [0x08, 0x00]
          else [0x86, 0xDD])) ∧
    (buf_read (fdir_pkt be d) 12 2 = [0x81, 0x00] ↔ d.input.flow_ext.vlan_tci % 65536 ≠ 0) := by
  have hl2 := construct_l2_bytes be d (List.replicate QEDE_MAX_FDIR_PKT_LEN 0)
    (by simp [QEDE_MAX_FDIR_PKT_LEN])
  have hle := fdir_vlan_len_le d
  have hlen : (construct_l2 be d.input (List.replicate QEDE_MAX_FDIR_PKT_LEN 0)).1.length = 86 := by
    rw [construct_l2_length]; simp [QEDE_MAX_FDIR_PKT_LEN]
  -- what lies below the EtherType, and the EtherType itself
  have hbelow : ∀ o n, o + n ≤ 12 + fdir_vlan_len d →
      buf_read (fdir_pkt be d) o n =
        buf_read (construct_l2 be d.input (List.replicate QEDE_MAX_FDIR_PKT_LEN 0)).1 o n := by
    intro o n h
    unfold fdir_pkt
    rcases (valid_flow_iff _).1 hsup with h4 | h6
    · rw [construct_pkt_ipv4_eq be d _ _ h4]
      exact construct_ipv4_below _ _ _ _ _ _ _ h
    · rw [construct_pkt_ipv6_eq be d _ _ h6]
      exact construct_ipv6_below _ _ _ _ _ _ _ h
  have het : buf_read (fdir_pkt be d) (12 + fdir_vlan_len d) 2 =
      (if d.input.flow_type = RTE_ETH_FLOW_NONFRAG_IPV4_TCP ∨
          d.input.flow_type = RTE_ETH_FLOW_NONFRAG_IPV4_UDP then [0x08, 0x00]
        else [0x86, 0xDD]) := by
    unfold fdir_pkt
    rcases (valid_flow_iff _).1 hsup with h4 | h6
    · rw [construct_pkt_ipv4_eq be d _ _ h4, if_pos h4]
      exact (construct_ipv4_bytes be d.input _ _ _ (by rw [hlen]; omega)).1
    · have h4 : ¬ (d.input.flow_type = RTE_ETH_FLOW_NONFRAG_IPV4_TCP ∨
          d.input.flow_type = RTE_ETH_FLOW_NONFRAG_IPV4_UDP) := by
        rcases h6 with h | h <;> rw [h] <;> decide
      rw [construct_pkt_ipv6_eq be d _ _ h6, if_neg h4]
      exact (construct_ipv6_bytes be d.input _ _ _ (by rw [hlen]; omega)).1
  have hv1 : d.input.flow_ext.vlan_tci % 65536 ≠ 0 → fdir_vlan_len d = 4 := by
    intro hv; unfold fdir_vlan_len; rw [if_pos hv]
  have hv0 : d.input.flow_ext.vlan_tci % 65536 = 0 → fdir_vlan_len d = 0 := by
    intro hv; unfold fdir_vlan_len; rw [if_neg (by simpa using hv)]
  have hvlan : d.input.flow_ext.vlan_tci % 65536 ≠ 0 →
      buf_read (fdir_pkt be d) 12 2 = [0x81, 0x00] := by
    intro hv
    rw [hbelow 12 2 (by have := hv1 hv; omega), (hl2.1 hv).1]
  have hnov : d.input.flow_ext.vlan_tci % 65536 = 0 →
      buf_read (fdir_pkt be d) 12 2 =
        (if d.input.flow_type = RTE_ETH_FLOW_NONFRAG_IPV4_TCP ∨
            d.input.flow_type = RTE_ETH_FLOW_NONFRAG_IPV4_UDP then [0x08, 0x00]
          else [0x86, 0xDD]) := by
    intro hv
    have := het
    rw [hv0 hv] at this
    exact this
  refine ⟨?_, ?_, hnov, ?_⟩
  · rw [hbelow 0 12 (by omega), hl2.2 0 12 (Or.inl (by omega)), buf_read_zero]
  · intro hv
    refine ⟨hvlan hv, ?_, ?_⟩
    · rw [hbelow 14 2 (by have := hv1 hv; omega), (hl2.1 hv).2]
    · have := het
      rw [hv1 hv] at this
      exact this
  · constructor
    · intro h hv0'
      rw [hnov hv0'] at h
      split_ifs at h <;> simp at h
    · exact hvlan

/-- C13, at concrete inputs on a little-endian host: a VLAN-tagged IPv4/UDP
descriptor (VLAN 5) and the untagged IPv6/UDP descriptor. -/
theorem C13_link_layer_witness :
    (buf_read (fdir_pkt false d_udp4_vlan) 0 12 = List.replicate 12 0 ∧
      buf_read (fdir_pkt false d_udp4_vlan) 12 2 = [0x81, 0x00] ∧
      buf_read (fdir_pkt false d_udp4_vlan) 14 2 = [5, 0] ∧
      buf_read (fdir_pkt false d_udp4_vlan) 16 2 = [0x08, 0x00]) ∧
    (buf_read (fdir_pkt false d_udp6_plain) 0 12 = List.replicate 12 0 ∧
      buf_read (fdir_pkt false d_udp6_plain) 12 2 = [0x86, 0xDD]) :=
  ⟨⟨(C13_link_layer false d_udp4_vlan (by decide)).1,
    ((C13_link_layer false d_udp4_vlan (by decide)).2.1 (by decide)).1,
    ((C13_link_layer false d_udp4_vlan (by decide)).2.1 (by decide)).2.1,
    ((C13_link_layer false d_udp4_vlan (by decide)).2.1 (by decide)).2.2⟩,
   ⟨(C13_link_layer false d_udp6_plain (by decide)).1,
    (C13_link_layer false d_udp6_plain (by decide)).2.2.1 (by decide)⟩⟩

/-- C14, the code at the failing input: the IPv6/UDP descriptor from port 1234
to port 80, built into the zeroed buffer on a little-endian host, has template
length 62 and its UDP header at offset 54 carries the two ports, but the length
field (bytes 58 and 59) is 0, not 8; in the IPv4/UDP template of the same ports
the length field (bytes 38 and 39) is 8. -/
theorem C14_udp6_length_field_unset :
    d_udp6_plain.input.flow_type = RTE_ETH_FLOW_NONFRAG_IPV6_UDP ∧
    fdir_pkt_len false d_udp6_plain = 62 ∧
    buf_read (fdir_pkt false d_udp6_plain) 54 2 = store16 false 0xd204 ∧
    buf_read (fdir_pkt false d_udp6_plain) 56 2 = store16 false 0x5000 ∧
    buf_read (fdir_pkt false d_udp6_plain) 58 2 = [0, 0] ∧
    buf_read (fdir_pkt false d_udp6_plain) 58 2 ≠ store16 false 8 ∧
    buf_read (fdir_pkt false (d_udp4 0xd204)) 34 2 = store16 false 0xd204 ∧
    buf_read (fdir_pkt false (d_udp4 0xd204)) 36 2 = store16 false 0x5000 ∧
    buf_read (fdir_pkt false (d_udp4 0xd204)) 38 2 = store16 false 8 := by
  decide

/-- C15: for every IPv6/TCP or IPv6/UDP descriptor built into the zeroed buffer,
the 40-byte IPv6 header that starts right after the EtherType (offset 12 + VLAN
bytes + 2) begins with the bytes 0x60 0x00 0x00 0x00, has payload length 0
(the field is never written), a next-header byte equal to the descriptor's
proto when non-zero and otherwise 6 for TCP and 17 for UDP, and the 16 bytes of
the descriptor's source and destination addresses as they are; the returned
length is 12 + (4 if VLAN) + 2 + 40 + (20 for TCP, 8 for UDP). -/
theorem C15_ipv6_header (be : Bool) (d : rte_eth_fdir_filter)
    (h6 : d.input.flow_type = RTE_ETH_FLOW_NONFRAG_IPV6_TCP ∨
      d.input.flow_type = RTE_ETH_FLOW_NONFRAG_IPV6_UDP) :
    buf_read (fdir_pkt be d) (12 + fdir_vlan_len d + 2) 4 = [0x60, 0x00, 0x00, 0x00] ∧
    buf_read (fdir_pkt be d) (12 + fdir_vlan_len d + 2 + 4) 2 = [0, 0] ∧
    buf_read (fdir_pkt be d) (12 + fdir_vlan_len d + 2 + 6) 1 =
      [if d.input.flow.udp6_flow.ip.proto % 256 ≠ 0 then d.input.flow.udp6_flow.ip.proto % 256
        else (if d.input.flow_type = RTE_ETH_FLOW_NONFRAG_IPV6_TCP then 6 else 17)] ∧
    buf_read (fdir_pkt be d) (12 + fdir_vlan_len d + 2 + 8) 16 =
      bytes_of 16 d.input.flow.udp6_flow.ip.src_ip ∧
    buf_read (fdir_pkt be d) (12 + fdir_vlan_len d + 2 + 24) 16 =
      bytes_of 16 d.input.flow.udp6_flow.ip.dst_ip ∧
    (d.input.flow.udp6_flow.ip.src_ip.length = 16 →
      (∀ x ∈ d.input.flow.udp6_flow.ip.src_ip, x < 256) →
      buf_read (fdir_pkt be d) (12 + fdir_vlan_len d + 2 + 8) 16 =
        d.input.flow.udp6_flow.ip.src_ip) ∧
    (d.input.flow.udp6_flow.ip.dst_ip.length = 16 →
      (∀ x ∈ d.input.flow.udp6_flow.ip.dst_ip, x < 256) →
      buf_read (fdir_pkt be d) (12 + fdir_vlan_len d + 2 + 24) 16 =
        d.input.flow.udp6_flow.ip.dst_ip) ∧
    fdir_pkt_len be d =
      12 + (if d.input.flow_ext.vlan_tci % 65536 ≠ 0 then 4 else 0) + 2 + 40 +
        (if d.input.flow_type = RTE_ETH_FLOW_NONFRAG_IPV6_TCP then 20 else 8) := by
  have hle := fdir_vlan_len_le d
  have hlen : (construct_l2 be d.input (List.replicate QEDE_MAX_FDIR_PKT_LEN 0)).1.length = 86 := by
    rw [construct_l2_length]; simp [QEDE_MAX_FDIR_PKT_LEN]
  have hl2 := construct_l2_bytes be d (List.replicate QEDE_MAX_FDIR_PKT_LEN 0)
    (by simp [QEDE_MAX_FDIR_PKT_LEN])
  have key := construct_ipv6_bytes be d.input
    (construct_l2 be d.input (List.replicate QEDE_MAX_FDIR_PKT_LEN 0)).1
    (12 + fdir_vlan_len d) {} (by rw [hlen]; omega)
  obtain ⟨-, k1, k2, k3, k4, k5, -⟩ := key
  have e := construct_pkt_ipv6_eq be d (List.replicate QEDE_MAX_FDIR_PKT_LEN 0) {} h6
  unfold fdir_pkt fdir_pkt_len
  rw [e]
  refine ⟨k1, ?_, ?_, k4, k5, ?_, ?_, ?_⟩
  · rw [k2, hl2.2 _ _ (Or.inr (by omega)), buf_read_zero]
    rfl
  · rw [k3]
    rcases h6 with h | h <;> rw [h] <;>
      simp [RTE_ETH_FLOW_NONFRAG_IPV6_TCP, RTE_ETH_FLOW_NONFRAG_IPV6_UDP, next_proto,
        RTE_ETH_FLOW_NONFRAG_IPV4_TCP, RTE_ETH_FLOW_NONFRAG_IPV4_UDP, IPPROTO_TCP, IPPROTO_UDP]
  · intro hl hb
    rw [k4, bytes_of_self 16 _ hl hb]
  · intro hl hb
    rw [k5, bytes_of_self 16 _ hl hb]
  · rw [construct_ipv6_len]
    unfold fdir_vlan_len
    rcases h6 with h | h <;> rw [h] <;>
      simp [RTE_ETH_FLOW_NONFRAG_IPV6_TCP, RTE_ETH_FLOW_NONFRAG_IPV6_UDP]

/-- C15, at a concrete input on a little-endian host: the untagged IPv6/UDP
descriptor between the addresses 1..16 and 16..1 (header at offset 14, next
header 17, length 62). -/
theorem C15_ipv6_header_witness :
    buf_read (fdir_pkt false d_udp6_plain) 14 4 = [0x60, 0x00, 0x00, 0x00] ∧
    buf_read (fdir_pkt false d_udp6_plain) 18 2 = [0, 0] ∧
    buf_read (fdir_pkt false d_udp6_plain) 20 1 = [17] ∧
    buf_read (fdir_pkt false d_udp6_plain) 22 16 =
      [1, 2, 3, 4, 5, 6, 7, 8, 9, 10, 11, 12, 13, 14, 15, 16] ∧
    buf_read (fdir_pkt false d_udp6_plain) 38 16 =
      [16, 15, 14, 13, 12, 11, 10, 9, 8, 7, 6, 5, 4, 3, 2, 1] ∧
    fdir_pkt_len false d_udp6_plain = 62 :=
  have h := C15_ipv6_header false d_udp6_plain (by decide)
  ⟨h.1, h.2.1, h.2.2.1, h.2.2.2.2.2.1 (by decide) (by decide),
    h.2.2.2.2.2.2.1 (by decide) (by decide), h.2.2.2.2.2.2.2⟩

/-! ## Validation -/

theorem fdir_built_unsupported (be : Bool) (q : qede_dev) (d : rte_eth_fdir_filter)
    (h : qede_valid_flow d.input.flow_type = false) : fdir_built be q d = q := by
  have h4 : ¬ (d.input.flow_type = RTE_ETH_FLOW_NONFRAG_IPV4_TCP ∨
      d.input.flow_type = RTE_ETH_FLOW_NONFRAG_IPV4_UDP) := by
    intro hc
    rw [(valid_flow_iff _).2 (Or.inl hc)] at h
    cases h
  have h6 : ¬ (d.input.flow_type = RTE_ETH_FLOW_NONFRAG_IPV6_TCP ∨
      d.input.flow_type = RTE_ETH_FLOW_NONFRAG_IPV6_UDP) := by
    intro hc
    rw [(valid_flow_iff _).2 (Or.inr hc)] at h
    cases h
  unfold fdir_built qede_fdir_construct_pkt
  rw [if_neg h4, if_neg h6]

/-- C16: the builder returns length 0 exactly for the flow types other than
IPv4/TCP, IPv4/UDP, IPv6/TCP and IPv6/UDP; and a request, add or delete, for a
descriptor on which the builder returns 0 makes no ecore call and leaves the
device (list, count and the rest) as it was; it returns a non-zero error once
the memzone is reserved, and `-EINVAL` whenever it got as far as the builder. -/
theorem C16_zero_length (MAX : Nat) (be : Bool) (env : fdir_env) (qdev : qede_dev)
    (d : rte_eth_fdir_filter) (add : Bool) :
    (∀ (buff : List Nat) (params : ecore_arfs_config_params),
      (qede_fdir_construct_pkt be d buff params).len = 0 ↔
        ¬ ((d.input.flow_type = RTE_ETH_FLOW_NONFRAG_IPV4_TCP ∨
            d.input.flow_type = RTE_ETH_FLOW_NONFRAG_IPV4_UDP) ∨
          (d.input.flow_type = RTE_ETH_FLOW_NONFRAG_IPV6_TCP ∨
            d.input.flow_type = RTE_ETH_FLOW_NONFRAG_IPV6_UDP))) ∧
    (fdir_pkt_len be d = 0 →
      (qede_config_cmn_fdir_filter MAX be env qdev d add).calls = [] ∧
      hw_submitted (qede_config_cmn_fdir_filter MAX be env qdev d add) = false ∧
      (qede_config_cmn_fdir_filter MAX be env qdev d add).dev = qdev ∧
      (env.mz_ok = true → (qede_config_cmn_fdir_filter MAX be env qdev d add).rc ≠ 0) ∧
      (¬ (add = true ∧ (qdev.fdir_info.filter_count : Int) = (MAX : Int) - 1) →
        ¬ (add = true ∧ env.malloc_ok = false) → env.mz_ok = true →
        (qede_config_cmn_fdir_filter MAX be env qdev d add).rc = -EINVAL)) := by
  constructor
  · intro buff params
    rw [construct_len_eq_zero_iff, ← valid_flow_iff]
    cases qede_valid_flow d.input.flow_type <;> simp
  · intro h0
    have hv : qede_valid_flow d.input.flow_type = false :=
      (construct_len_eq_zero_iff be d _ _).1 h0
    have hb := fdir_built_unsupported be qdev d hv
    rw [cmn_unfold]
    by_cases h1 : add = true ∧ (qdev.fdir_info.filter_count : Int) = (MAX : Int) - 1
    · simp [h1, hw_submitted, EINVAL]
    · rw [if_neg h1]
      by_cases h2 : add = true ∧ env.malloc_ok = false
      · simp [h2, hw_submitted, ENOMEM, h1]
      · rw [if_neg h2]
        by_cases h3 : env.mz_ok = false
        · simp [h3, hw_submitted, h1, h2]
        · simp [h3, h0, hb, hw_submitted, EINVAL, h1, h2]

/-- C16, at a concrete input: an add and a delete of the SCTP descriptor on the
device with three filters. -/
theorem C16_zero_length_witness :
    fdir_pkt_len false d_sctp4 = 0 ∧
    ((qede_config_cmn_fdir_filter 256 false {} (dev_with 3) d_sctp4 true).calls = [] ∧
      hw_submitted (qede_config_cmn_fdir_filter 256 false {} (dev_with 3) d_sctp4 true) = false ∧
      (qede_config_cmn_fdir_filter 256 false {} (dev_with 3) d_sctp4 true).dev = dev_with 3 ∧
      (qede_config_cmn_fdir_filter 256 false {} (dev_with 3) d_sctp4 true).rc = -EINVAL) ∧
    ((qede_config_cmn_fdir_filter 256 false {} (dev_with 3) d_sctp4 false).calls = [] ∧
      hw_submitted (qede_config_cmn_fdir_filter 256 false {} (dev_with 3) d_sctp4 false) = false ∧
      (qede_config_cmn_fdir_filter 256 false {} (dev_with 3) d_sctp4 false).dev = dev_with 3 ∧
      (qede_config_cmn_fdir_filter 256 false {} (dev_with 3) d_sctp4 false).rc = -EINVAL) :=
  have ha := (C16_zero_length 256 false {} (dev_with 3) d_sctp4 true).2 (by decide)
  have hd := (C16_zero_length 256 false {} (dev_with 3) d_sctp4 false).2 (by decide)
  ⟨by decide,
   ⟨ha.1, ha.2.1, ha.2.2.1, ha.2.2.2.2 (by decide) (by decide) (by decide)⟩,
   ⟨hd.1, hd.2.1, hd.2.2.1, hd.2.2.2.2 (by decide) (by decide) (by decide)⟩⟩

/-- C17: a request through `qede_fdir_filter_add` whose flow type is not
supported, or whose queue index is at least the number of receive queues, or
whose descriptor is marked as coming from a VF returns the error `-EINVAL`,
makes no ecore call and leaves the whole device as it was; every other request
is exactly the call of `qede_config_cmn_fdir_filter`. -/
theorem C17_filter_add_validation (MAX : Nat) (be : Bool) (env : fdir_env) (qdev : qede_dev)
    (fdir : rte_eth_fdir_filter) (add : Bool) :
    ((qede_valid_flow fdir.input.flow_type = false ∨
        fdir.action.rx_queue % 65536 ≥ qdev.rss_count ∨
        fdir.input.flow_ext.is_vf % 256 ≠ 0) →
      (qede_fdir_filter_add MAX be env qdev fdir add).rc = -EINVAL ∧
      (qede_fdir_filter_add MAX be env qdev fdir add).rc ≠ 0 ∧
      (qede_fdir_filter_add MAX be env qdev fdir add).calls = [] ∧
      (qede_fdir_filter_add MAX be env qdev fdir add).dev = qdev) ∧
    (¬ (qede_valid_flow fdir.input.flow_type = false ∨
        fdir.action.rx_queue % 65536 ≥ qdev.rss_count ∨
        fdir.input.flow_ext.is_vf % 256 ≠ 0) →
      qede_fdir_filter_add MAX be env qdev fdir add =
        qede_config_cmn_fdir_filter MAX be env qdev fdir add) := by
  unfold qede_fdir_filter_add
  constructor
  · intro h
    split_ifs with h1 h2 h3
    · simp [EINVAL]
    · simp [EINVAL]
    · simp [EINVAL]
    · rcases h with h | h | h
      · exact absurd h h1
      · exact absurd h h2
      · exact absurd h h3
  · intro h
    rw [if_neg (fun hc => h (Or.inl hc)), if_neg (fun hc => h (Or.inr (Or.inl hc))),
      if_neg (fun hc => h (Or.inr (Or.inr hc)))]

/-- C17, at concrete inputs on the device with four queues: the SCTP
descriptor, the descriptor for queue 9 and the VF descriptor are rejected, the
scenario descriptor is passed on. -/
theorem C17_filter_add_validation_witness :
    ((qede_fdir_filter_add 256 false {} dev_four_queues d_sctp4 true).rc = -EINVAL ∧
      (qede_fdir_filter_add 256 false {} dev_four_queues d_sctp4 true).rc ≠ 0 ∧
      (qede_fdir_filter_add 256 false {} dev_four_queues d_sctp4 true).calls = [] ∧
      (qede_fdir_filter_add 256 false {} dev_four_queues d_sctp4 true).dev = dev_four_queues) ∧
    ((qede_fdir_filter_add 256 false {} dev_four_queues d_tcp4_q9 true).rc = -EINVAL ∧
      (qede_fdir_filter_add 256 false {} dev_four_queues d_tcp4_q9 true).rc ≠ 0 ∧
      (qede_fdir_filter_add 256 false {} dev_four_queues d_tcp4_q9 true).calls = [] ∧
      (qede_fdir_filter_add 256 false {} dev_four_queues d_tcp4_q9 true).dev = dev_four_queues) ∧
    ((qede_fdir_filter_add 256 false {} dev_four_queues d_tcp4_vf false).rc = -EINVAL ∧
      (qede_fdir_filter_add 256 false {} dev_four_queues d_tcp4_vf false).rc ≠ 0 ∧
      (qede_fdir_filter_add 256 false {} dev_four_queues d_tcp4_vf false).calls = [] ∧
      (qede_fdir_filter_add 256 false {} dev_four_queues d_tcp4_vf false).dev = dev_four_queues) ∧
    qede_fdir_filter_add 256 false {} dev_four_queues d_tcp4 true =
      qede_config_cmn_fdir_filter 256 false {} dev_four_queues d_tcp4 true :=
  ⟨(C17_filter_add_validation 256 false {} dev_four_queues d_sctp4 true).1 (by decide),
   (C17_filter_add_validation 256 false {} dev_four_queues d_tcp4_q9 true).1 (by decide),
   (C17_filter_add_validation 256 false {} dev_four_queues d_tcp4_vf false).1 (by decide),
   (C17_filter_add_validation 256 false {} dev_four_queues d_tcp4 true).2 (by decide)⟩

/-- A request that passes the three checks of `qede_fdir_filter_add` is the
call of `qede_config_cmn_fdir_filter`. -/
theorem fdir_filter_add_pass (MAX : Nat) (be : Bool) (env : fdir_env) (qdev : qede_dev)
    (fdir : rte_eth_fdir_filter) (add : Bool)
    (h : qede_valid_flow fdir.input.flow_type = true ∧
      fdir.action.rx_queue % 65536 < qdev.rss_count ∧ fdir.input.flow_ext.is_vf % 256 = 0) :
    qede_fdir_filter_add MAX be env qdev fdir add =
      qede_config_cmn_fdir_filter MAX be env qdev fdir add := by
  unfold qede_fdir_filter_add
  rw [if_neg (by rw [h.1]; decide), if_neg (by omega), if_neg (by rw [h.2.2]; decide)]

/-- C18, refuted at concrete inputs on devices with four receive queues and
`QEDE_RFS_MAX_FLTR = 256`: the add of a descriptor with an unsupported flow
type, the add of a supported descriptor for queue 9, the add of a supported
descriptor marked as coming from a VF and the add of a supported descriptor on
a device holding 255 filters all return the same value, `-EINVAL`. -/
theorem C18_counterexample :
    (qede_fdir_filter_add 256 false {} dev_four_queues d_sctp4 true).rc = -EINVAL ∧
    (qede_valid_flow d_tcp4_q9.input.flow_type = true ∧
      (qede_fdir_filter_add 256 false {} dev_four_queues d_tcp4_q9 true).rc = -EINVAL) ∧
    (qede_valid_flow d_tcp4_vf.input.flow_type = true ∧
      d_tcp4_vf.action.rx_queue < dev_four_queues.rss_count ∧
      (qede_fdir_filter_add 256 false {} dev_four_queues d_tcp4_vf true).rc = -EINVAL) ∧
    (qede_valid_flow d_tcp4.input.flow_type = true ∧
      d_tcp4.action.rx_queue < dev_full_four_queues.rss_count ∧
      d_tcp4.input.flow_ext.is_vf = 0 ∧
      (qede_fdir_filter_add 256 false {} dev_full_four_queues d_tcp4 true).rc = -EINVAL) := by
  refine ⟨by decide, by decide, by decide, by decide, by decide, by decide, ?_⟩
  have h := fdir_filter_add_pass 256 false {} dev_full_four_queues d_tcp4 true (by decide)
  rw [h]
  exact (cmn_add_at_limit 256 false {} dev_full_four_queues d_tcp4 (by decide)).1

/-- C18, as amended: the four validation failures of an add request are not
told apart by the returned value: an unsupported flow type, a queue index at or
above the number of receive queues, a descriptor marked as coming from a VF
and a filter count at `QEDE_RFS_MAX_FLTR - 1` each make the request return
`-EINVAL`. -/
theorem C18_validation_errors_equal (MAX : Nat) (be : Bool) (env : fdir_env)
    (qdev : qede_dev) (d : rte_eth_fdir_filter) :
    (qede_valid_flow d.input.flow_type = false →
      (qede_fdir_filter_add MAX be env qdev d true).rc = -EINVAL) ∧
    (d.action.rx_queue % 65536 ≥ qdev.rss_count →
      (qede_fdir_filter_add MAX be env qdev d true).rc = -EINVAL) ∧
    (d.input.flow_ext.is_vf % 256 ≠ 0 →
      (qede_fdir_filter_add MAX be env qdev d true).rc = -EINVAL) ∧
    ((qdev.fdir_info.filter_count : Int) = (MAX : Int) - 1 →
      (qede_fdir_filter_add MAX be env qdev d true).rc = -EINVAL) := by
  unfold qede_fdir_filter_add
  refine ⟨?_, ?_, ?_, ?_⟩
  · intro h
    rw [if_pos h]
  · intro h
    split_ifs <;> rfl
  · intro h
    split_ifs <;> rfl
  · intro h
    split_ifs
    · rfl
    · rfl
    · rfl
    · exact (cmn_add_at_limit MAX be env qdev d h).1

/-- C18 as amended, at the concrete inputs of the counterexample. -/
theorem C18_validation_errors_equal_witness :
    (qede_fdir_filter_add 256 false {} dev_four_queues d_sctp4 true).rc = -EINVAL ∧
    (qede_fdir_filter_add 256 false {} dev_four_queues d_tcp4_q9 true).rc = -EINVAL ∧
    (qede_fdir_filter_add 256 false {} dev_four_queues d_tcp4_vf true).rc = -EINVAL ∧
    (qede_fdir_filter_add 256 false {} dev_full_four_queues d_tcp4 true).rc = -EINVAL :=
  ⟨(C18_validation_errors_equal 256 false {} dev_four_queues d_sctp4).1 (by decide),
   (C18_validation_errors_equal 256 false {} dev_four_queues d_tcp4_q9).2.1 (by decide),
   (C18_validation_errors_equal 256 false {} dev_four_queues d_tcp4_vf).2.2.1 (by decide),
   (C18_validation_errors_equal 256 false {} dev_full_four_queues d_tcp4).2.2.2 (by decide)⟩

/-! ## Deleting the last filter -/

/-- C19: on a device holding exactly one record (count 1), a delete request for
a supported descriptor whose template agrees with that record, with the memzone
reserved and the hardware removal succeeding, returns 0 and leaves count 0, an
empty list and all classification parameters cleared (`arfs_enable` false);
the ecore calls it makes are the removal of the filter followed by
`ecore_arfs_mode_configure` with the cleared parameters. -/
theorem C19_delete_last (MAX : Nat) (be : Bool) (env : fdir_env) (qdev : qede_dev)
    (d : rte_eth_fdir_filter) (e : qede_fdir_entry)
    (hl : qdev.fdir_info.fdir_list_head = [e]) (hc : qdev.fdir_info.filter_count = 1)
    (hsup : qede_valid_flow d.input.flow_type = true)
    (hm : memcmp_eq e.mz (fdir_pkt be d) (fdir_pkt_len be d) = true)
    (hz : env.mz_ok = true) (hrc : env.hw_rc = ECORE_SUCCESS) :
    (qede_config_cmn_fdir_filter MAX be env qdev d false).rc = 0 ∧
    (qede_config_cmn_fdir_filter MAX be env qdev d false).dev.fdir_info.filter_count = 0 ∧
    (qede_config_cmn_fdir_filter MAX be env qdev d false).dev.fdir_info.fdir_list_head = [] ∧
    (qede_config_cmn_fdir_filter MAX be env qdev d false).dev.fdir_info.arfs = {} ∧
    (qede_config_cmn_fdir_filter MAX be env qdev d false).dev.fdir_info.arfs.arfs_enable
      = false ∧
    (qede_config_cmn_fdir_filter MAX be env qdev d false).calls =
      [hw_call.rfs_ntuple_filter (fdir_pkt be d) (fdir_pkt_len be d)
          (d.action.rx_queue % 65536) false,
        hw_call.arfs_mode_configure {}] := by
  have hlen := fdir_pkt_len_ne_zero be d hsup
  have hs : (fdir_lookup qdev.fdir_info.fdir_list_head (fdir_pkt be d)
      (fdir_pkt_len be d)).isSome = true := by
    rw [fdir_lookup_isSome_iff, hl]
    exact ⟨e, List.mem_singleton.2 rfl, hm⟩
  rw [cmn_del_ok_eq MAX be env qdev d hz hlen hs hrc]
  have h0 : (fdir_list_update (fdir_built be qdev d) (d.action.rx_queue % 65536) (fdir_pkt be d)
      (fdir_pkt_len be d) false).fdir_info.filter_count = 0 := by
    simp [hc]
  have hnil : (fdir_list_update (fdir_built be qdev d) (d.action.rx_queue % 65536)
      (fdir_pkt be d) (fdir_pkt_len be d) false).fdir_info.fdir_list_head = [] := by
    simp [hl, fdir_remove, hm]
  unfold fdir_finish
  rw [if_pos h0]
  exact ⟨rfl, h0, hnil, rfl, rfl, rfl⟩

/-- C19, at a concrete input: the scenario descriptor deleted from the device
that holds only its record. -/
theorem C19_delete_last_witness :
    (qede_config_cmn_fdir_filter 256 false {} dev_one d_tcp4 false).rc = 0 ∧
    (qede_config_cmn_fdir_filter 256 false {} dev_one d_tcp4 false).dev.fdir_info.filter_count
      = 0 ∧
    (qede_config_cmn_fdir_filter 256 false {} dev_one d_tcp4 false).dev.fdir_info.fdir_list_head
      = [] ∧
    (qede_config_cmn_fdir_filter 256 false {} dev_one d_tcp4 false).dev.fdir_info.arfs = {} ∧
    (qede_config_cmn_fdir_filter 256 false {} dev_one d_tcp4 false).dev.fdir_info.arfs.arfs_enable
      = false ∧
    (qede_config_cmn_fdir_filter 256 false {} dev_one d_tcp4 false).calls =
      [hw_call.rfs_ntuple_filter (fdir_pkt false d_tcp4) (fdir_pkt_len false d_tcp4)
          (d_tcp4.action.rx_queue % 65536) false,
        hw_call.arfs_mode_configure {}] :=
  C19_delete_last 256 false {} dev_one d_tcp4 (fdir_new_entry false d_tcp4) (by decide)
    (by decide) (by decide) (by decide) (by decide) (by decide)

/-! ## Tunnel filters -/

/-- C20, the code at the failing input: on a PF in the initial tunnel state (no
filters, every kind disabled), with every outside call succeeding, two VXLAN
filters are added and the first is deleted again.  All three requests return
0; after the two adds VXLAN is enabled with count 2; after the delete the VXLAN
count is 1 and VXLAN is disabled, because the GENEVE count is 0.  A single add
of an IP-in-GRE filter leaves the GENEVE count at 1 with GENEVE disabled. -/
theorem C20_vxlan_disabled_with_filters :
    ({} : qede_dev).is_vf = false ∧
    (tunn_run def_ports {} (reqs_vxlan_add_add_del.take 2)).2 = [0, 0] ∧
    (tunn_run def_ports {} (reqs_vxlan_add_add_del.take 2)).1.vxlan.num_filters = 2 ∧
    (tunn_run def_ports {} (reqs_vxlan_add_add_del.take 2)).1.vxlan.enable = true ∧
    (tunn_run def_ports {} reqs_vxlan_add_add_del).2 = [0, 0, 0] ∧
    (tunn_run def_ports {} reqs_vxlan_add_add_del).1.vxlan.num_filters = 1 ∧
    (tunn_run def_ports {} reqs_vxlan_add_add_del).1.vxlan.enable = false ∧
    (tunn_run def_ports {}
      [{ filter_op := rte_filter_op.RTE_ETH_FILTER_ADD, conf := conf_ipgre }]).2 = [0] ∧
    (tunn_run def_ports {}
      [{ filter_op := rte_filter_op.RTE_ETH_FILTER_ADD,
         conf := conf_ipgre }]).1.geneve.num_filters = 1 ∧
    (tunn_run def_ports {}
      [{ filter_op := rte_filter_op.RTE_ETH_FILTER_ADD,
         conf := conf_ipgre }]).1.geneve.enable = false := by
  decide

/-! ## Where the builder writes -/

/-- The link-layer step leaves every region outside the VLAN header as it
was, whatever the length of the buffer. -/
theorem construct_l2_other (be : Bool) (d : rte_eth_fdir_filter) (b : List Nat) (o n : Nat)
    (h : o + n ≤ 12 ∨ 12 + fdir_vlan_len d ≤ o) :
    buf_read (construct_l2 be d.input b).1 o n = buf_read b o n := by
  unfold construct_l2
  unfold fdir_vlan_len at h
  by_cases hv : d.input.flow_ext.vlan_tci % 65536 ≠ 0
  · rw [if_pos hv] at h
    simp only [hv, if_true, sizeof_ether_addr, vlan_frame, not_false_eq_true, ne_eq]
    rw [buf_read_write_other _ _ _ _ _ (by simp; omega),
      buf_read_write_other _ _ _ _ _ (by simp; omega)]
  · simp only [hv, if_false]

/-- The branch `construct_ipv4` writes nothing from the returned length on. -/
theorem construct_ipv4_above (be : Bool) (i : rte_eth_fdir_input) (b : List Nat) (et : Nat)
    (p : ecore_arfs_config_params) (o n : Nat) (h : (construct_ipv4 be i b et p).len ≤ o) :
    buf_read (construct_ipv4 be i b et p).buff o n = buf_read b o n := by
  rw [construct_ipv4_len] at h
  by_cases hu : i.flow_type = RTE_ETH_FLOW_NONFRAG_IPV4_UDP
  · rw [if_pos hu] at h
    simp only [construct_ipv4, hu, if_true, sizeof_ipv4_hdr, sizeof_udp_hdr]
    simp (disch := first | omega | (simp only [store16_length, store32_length,
      List.length_cons, List.length_nil] ; omega) | simp) only [buf_read_write_other]
  · rw [if_neg hu] at h
    simp only [construct_ipv4, hu, if_false, sizeof_ipv4_hdr, sizeof_tcp_hdr]
    simp (disch := first | omega | (simp only [store16_length, store32_length,
      List.length_cons, List.length_nil] ; omega) | simp) only [buf_read_write_other]

/-- The branch `construct_ipv6` writes nothing from the returned length on. -/
theorem construct_ipv6_above (be : Bool) (i : rte_eth_fdir_input) (b : List Nat) (et : Nat)
    (p : ecore_arfs_config_params) (o n : Nat) (h : (construct_ipv6 be i b et p).len ≤ o) :
    buf_read (construct_ipv6 be i b et p).buff o n = buf_read b o n := by
  rw [construct_ipv6_len] at h
  by_cases hu : i.flow_type = RTE_ETH_FLOW_NONFRAG_IPV6_UDP
  · rw [if_pos hu] at h
    simp only [construct_ipv6, hu, if_true, sizeof_ipv6_hdr, sizeof_udp_hdr, IPV6_ADDR_LEN]
    simp (disch := first | omega | (simp only [store16_length, store32_length,
      bytes_of_length, List.length_cons, List.length_nil] ; omega) | simp) only
      [buf_read_write_other]
  · rw [if_neg hu] at h
    simp only [construct_ipv6, hu, if_false, sizeof_ipv6_hdr, sizeof_tcp_hdr, IPV6_ADDR_LEN]
    simp (disch := first | omega | (simp only [store16_length, store32_length,
      bytes_of_length, List.length_cons, List.length_nil] ; omega) | simp) only
      [buf_read_write_other]

/-- C25, refuted at a concrete input: for the descriptor of the unsupported flow
type 6 with VLAN value 5, built into the zeroed 86-byte buffer, the builder
returns length 0 yet bytes 12 to 15 of the buffer are 0x81, 0x00, 0x05, 0x00:
four bytes were written at offsets that are not below the returned length. -/
theorem C25_counterexample :
    (qede_fdir_construct_pkt false d_sctp4 (List.replicate QEDE_MAX_FDIR_PKT_LEN 0) {}).len = 0 ∧
    buf_read (qede_fdir_construct_pkt false d_sctp4
      (List.replicate QEDE_MAX_FDIR_PKT_LEN 0) {}).buff 12 4 = [0x81, 0x00, 0x05, 0x00] ∧
    buf_read (List.replicate QEDE_MAX_FDIR_PKT_LEN 0) 12 4 = [0, 0, 0, 0] := by
  decide

/-- C25, as amended: for every descriptor the returned length is at most 78,
hence below the 86 bytes of the template buffer.  For a supported flow type
every byte the builder writes lies below the returned length: whatever the size
and content of the buffer, every region from the returned length on is after
the call what it was before, so nothing is written outside the 86 bytes and a
zeroed buffer stays zero from the returned length on.  For an unsupported flow
type the length is 0 and the only bytes written are those of the VLAN header
at offsets 12 to 15, when the VLAN value is non-zero. -/
theorem C25_writes_below_length (be : Bool) (d : rte_eth_fdir_filter) (buff : List Nat)
    (params : ecore_arfs_config_params) :
    (qede_fdir_construct_pkt be d buff params).len ≤ 78 ∧
    (qede_fdir_construct_pkt be d buff params).len ≤ QEDE_MAX_FDIR_PKT_LEN ∧
    (qede_fdir_construct_pkt be d buff params).buff.length = buff.length ∧
    (qede_valid_flow d.input.flow_type = true →
      ∀ o n, (qede_fdir_construct_pkt be d buff params).len ≤ o →
        buf_read (qede_fdir_construct_pkt be d buff params).buff o n = buf_read buff o n) ∧
    (qede_valid_flow d.input.flow_type = true →
      ∀ o n, (qede_fdir_construct_pkt be d (List.replicate QEDE_MAX_FDIR_PKT_LEN 0) params).len ≤ o →
        buf_read (qede_fdir_construct_pkt be d (List.replicate QEDE_MAX_FDIR_PKT_LEN 0)
          params).buff o n = List.replicate n 0) ∧
    (qede_valid_flow d.input.flow_type = false →
      (qede_fdir_construct_pkt be d buff params).len = 0 ∧
      ∀ o n, o + n ≤ 12 ∨ 12 + fdir_vlan_len d ≤ o →
        buf_read (qede_fdir_construct_pkt be d buff params).buff o n = buf_read buff o n) := by
  have hle := fdir_vlan_len_le d
  have habove : qede_valid_flow d.input.flow_type = true →
      ∀ (b : List Nat) (o n : Nat), (qede_fdir_construct_pkt be d b params).len ≤ o →
        buf_read (qede_fdir_construct_pkt be d b params).buff o n = buf_read b o n := by
    intro hv b o n h
    rcases (valid_flow_iff _).1 hv with h4 | h6
    · rw [construct_pkt_ipv4_eq be d b params h4] at h ⊢
      have h' := h
      rw [construct_ipv4_len] at h'
      rw [construct_ipv4_above _ _ _ _ _ _ _ h]
      exact construct_l2_other be d b o n (Or.inr (by omega))
    · rw [construct_pkt_ipv6_eq be d b params h6] at h ⊢
      have h' := h
      rw [construct_ipv6_len] at h'
      rw [construct_ipv6_above _ _ _ _ _ _ _ h]
      exact construct_l2_other be d b o n (Or.inr (by omega))
  have hlen : (qede_fdir_construct_pkt be d buff params).len ≤ 78 := by
    cases hv : qede_valid_flow d.input.flow_type
    · rw [(construct_len_eq_zero_iff be d buff params).2 hv]; omega
    · rcases (valid_flow_iff _).1 hv with h4 | h6
      · rw [construct_pkt_ipv4_eq be d buff params h4, construct_ipv4_len]
        split_ifs <;> omega
      · rw [construct_pkt_ipv6_eq be d buff params h6, construct_ipv6_len]
        split_ifs <;> omega
  refine ⟨hlen, ?_, ?_, ?_, ?_, ?_⟩
  · simp only [QEDE_MAX_FDIR_PKT_LEN]; omega
  · unfold qede_fdir_construct_pkt construct_ipv4 construct_ipv6
    split_ifs <;> simp only [buf_write_length, construct_l2_length]
  · intro hv o n h
    exact habove hv buff o n h
  · intro hv o n h
    rw [habove hv _ o n h, buf_read_zero]
  · intro hv
    refine ⟨(construct_len_eq_zero_iff be d buff params).2 hv, ?_⟩
    intro o n h
    have h4 : ¬ (d.input.flow_type = RTE_ETH_FLOW_NONFRAG_IPV4_TCP ∨
        d.input.flow_type = RTE_ETH_FLOW_NONFRAG_IPV4_UDP) := by
      intro hc
      rw [(valid_flow_iff _).2 (Or.inl hc)] at hv
      cases hv
    have h6 : ¬ (d.input.flow_type = RTE_ETH_FLOW_NONFRAG_IPV6_TCP ∨
        d.input.flow_type = RTE_ETH_FLOW_NONFRAG_IPV6_UDP) := by
      intro hc
      rw [(valid_flow_iff _).2 (Or.inr hc)] at hv
      cases hv
    unfold qede_fdir_construct_pkt
    rw [if_neg h4, if_neg h6]
    exact construct_l2_other be d buff o n h

/-- C25 as amended, at concrete inputs: the VLAN-tagged IPv4/UDP descriptor
(length 46, the 40 bytes from offset 46 on stay zero) and the unsupported
descriptor (length 0, bytes 16 to 85 stay zero). -/
theorem C25_writes_below_length_witness :
    (qede_fdir_construct_pkt false d_udp4_vlan (List.replicate QEDE_MAX_FDIR_PKT_LEN 0) {}).len
      = 46 ∧
    buf_read (qede_fdir_construct_pkt false d_udp4_vlan
      (List.replicate QEDE_MAX_FDIR_PKT_LEN 0) {}).buff 46 40 = List.replicate 40 0 ∧
    ((qede_fdir_construct_pkt false d_sctp4 (List.replicate QEDE_MAX_FDIR_PKT_LEN 0) {}).len = 0 ∧
      buf_read (qede_fdir_construct_pkt false d_sctp4
        (List.replicate QEDE_MAX_FDIR_PKT_LEN 0) {}).buff 16 70 =
        buf_read (List.replicate QEDE_MAX_FDIR_PKT_LEN 0) 16 70) :=
  ⟨by decide,
   (C25_writes_below_length false d_udp4_vlan (List.replicate QEDE_MAX_FDIR_PKT_LEN 0)
      {}).2.2.2.2.1 (by decide) 46 40 (by decide),
   ⟨((C25_writes_below_length false d_sctp4 (List.replicate QEDE_MAX_FDIR_PKT_LEN 0)
      {}).2.2.2.2.2 (by decide)).1,
    ((C25_writes_below_length false d_sctp4 (List.replicate QEDE_MAX_FDIR_PKT_LEN 0)
      {}).2.2.2.2.2 (by decide)).2 16 70 (by decide)⟩⟩

/-! ## The ntuple entry and the receive queue -/

/-- C26, the code at the failing input: the ntuple add request for UDP (protocol
17) from 10.0.0.1 port 1234 to 10.0.0.2 port 80 is converted to a descriptor of
flow type IPv4/UDP whose `proto` member is 6, so the protocol byte of its
template (offset 23) is 6, not 17; the request for TCP gets flow type IPv4/TCP
and protocol byte 6. -/
theorem C26_ntuple_udp_protocol_byte :
    qede_ntuple_filter_conf 256 false {} dev_empty rte_filter_op.RTE_ETH_FILTER_ADD ntuple_udp =
      qede_config_cmn_fdir_filter 256 false {} dev_empty (ntuple_to_fdir ntuple_udp) true ∧
    (ntuple_to_fdir ntuple_udp).input.flow_type = RTE_ETH_FLOW_NONFRAG_IPV4_UDP ∧
    (ntuple_to_fdir ntuple_udp).input.flow.udp4_flow.ip.proto = 6 ∧
    buf_read (fdir_pkt false (ntuple_to_fdir ntuple_udp)) 23 1 = [6] ∧
    (qede_ntuple_filter_conf 256 false {} dev_empty rte_filter_op.RTE_ETH_FILTER_ADD
      ntuple_udp).calls.getD 1 (hw_call.arfs_mode_configure {}) =
      hw_call.rfs_ntuple_filter (fdir_pkt false (ntuple_to_fdir ntuple_udp)) 42 1 true ∧
    (ntuple_to_fdir ntuple_tcp).input.flow_type = RTE_ETH_FLOW_NONFRAG_IPV4_TCP ∧
    buf_read (fdir_pkt false (ntuple_to_fdir ntuple_tcp)) 23 1 = [6] := by
  decide

/-- The builder reads only the `input` member of the descriptor. -/
theorem construct_input_only (be : Bool) (d d2 : rte_eth_fdir_filter) (buff : List Nat)
    (params : ecore_arfs_config_params) (h : d2.input = d.input) :
    qede_fdir_construct_pkt be d2 buff params = qede_fdir_construct_pkt be d buff params := by
  unfold qede_fdir_construct_pkt
  rw [h]

/-- C29, refuted at a concrete input: the device holds 255 filters, among them
the record of the IPv4/UDP descriptor with source port 7 (queue 0); the add of
the same descriptor aimed at queue 3 returns `-EINVAL`, not success, because
the count is at `QEDE_RFS_MAX_FLTR - 1 = 255`. -/
theorem C29_counterexample :
    d_udp4_q3.input = (d_udp4 7).input ∧
    fdir_new_entry false (d_udp4 7) ∈ (dev_with 255).fdir_info.fdir_list_head ∧
    (qede_config_cmn_fdir_filter 256 false {} (dev_with 255) d_udp4_q3 true).rc = -EINVAL := by
  refine ⟨by decide, ?_, (cmn_add_at_limit 256 false {} (dev_with 255) d_udp4_q3 (by decide)).1⟩
  simp only [dev_with, List.mem_map, List.mem_reverse, List.mem_range]
  exact ⟨6, by omega, rfl⟩

/-- C29, as amended: the template does not depend on the receive queue: two
descriptors with the same `input` member yield the same bytes and the same
length, for every buffer.  Hence, on a device whose count is not
`QEDE_RFS_MAX_FLTR - 1`, with both allocations succeeding, the add of a
supported descriptor `d2` that differs from `d` only in its queue, when some
record agrees with the template of `d`, returns 0, makes no ecore call and
leaves the list (so every record's stored queue) and the count as they were. -/
theorem C29_queue_independent (MAX : Nat) (be : Bool) (env : fdir_env) (qdev : qede_dev)
    (d d2 : rte_eth_fdir_filter) (h : d2.input = d.input) :
    (∀ (buff : List Nat) (params : ecore_arfs_config_params),
      (qede_fdir_construct_pkt be d2 buff params).buff =
        (qede_fdir_construct_pkt be d buff params).buff ∧
      (qede_fdir_construct_pkt be d2 buff params).len =
        (qede_fdir_construct_pkt be d buff params).len) ∧
    (qede_valid_flow d.input.flow_type = true →
      (qdev.fdir_info.filter_count : Int) ≠ (MAX : Int) - 1 →
      env.malloc_ok = true → env.mz_ok = true →
      (∃ e ∈ qdev.fdir_info.fdir_list_head,
        memcmp_eq e.mz (fdir_pkt be d) (fdir_pkt_len be d) = true) →
      (qede_config_cmn_fdir_filter MAX be env qdev d2 true).rc = 0 ∧
      (qede_config_cmn_fdir_filter MAX be env qdev d2 true).calls = [] ∧
      hw_submitted (qede_config_cmn_fdir_filter MAX be env qdev d2 true) = false ∧
      (qede_config_cmn_fdir_filter MAX be env qdev d2 true).dev.fdir_info.fdir_list_head =
        qdev.fdir_info.fdir_list_head ∧
      (qede_config_cmn_fdir_filter MAX be env qdev d2 true).dev.fdir_info.filter_count =
        qdev.fdir_info.filter_count) := by
  constructor
  · intro buff params
    rw [construct_input_only be d d2 buff params h]
    exact ⟨rfl, rfl⟩
  · intro hv hcap hm hz hex
    have hp : fdir_pkt be d2 = fdir_pkt be d := by
      unfold fdir_pkt
      rw [construct_input_only be d d2 _ _ h]
    have hl : fdir_pkt_len be d2 = fdir_pkt_len be d := by
      unfold fdir_pkt_len
      rw [construct_input_only be d d2 _ _ h]
    have hlen : fdir_pkt_len be d2 ≠ 0 := by
      rw [hl]; exact fdir_pkt_len_ne_zero be d hv
    have hs : (fdir_lookup qdev.fdir_info.fdir_list_head (fdir_pkt be d2)
        (fdir_pkt_len be d2)).isSome = true := by
      rw [hp, hl]
      exact (fdir_lookup_isSome_iff _ _ _).2 hex
    rw [cmn_add_dup_eq MAX be env qdev d2 hcap hm hz hlen hs]
    exact ⟨rfl, rfl, rfl, rfl, rfl⟩

/-- C29 as amended, at a concrete input: the IPv4/UDP descriptor with source
port 7 aimed at queue 3, added to the device that holds eight filters, among
them that descriptor for queue 0. -/
theorem C29_queue_independent_witness :
    (qede_config_cmn_fdir_filter 256 false {} (dev_with 8) d_udp4_q3 true).rc = 0 ∧
    (qede_config_cmn_fdir_filter 256 false {} (dev_with 8) d_udp4_q3 true).calls = [] ∧
    hw_submitted (qede_config_cmn_fdir_filter 256 false {} (dev_with 8) d_udp4_q3 true) = false ∧
    (qede_config_cmn_fdir_filter 256 false {} (dev_with 8) d_udp4_q3 true).dev.fdir_info.fdir_list_head
      = (dev_with 8).fdir_info.fdir_list_head ∧
    (qede_config_cmn_fdir_filter 256 false {} (dev_with 8) d_udp4_q3 true).dev.fdir_info.filter_count
      = (dev_with 8).fdir_info.filter_count :=
  (C29_queue_independent 256 false {} (dev_with 8) (d_udp4 7) d_udp4_q3 (by decide)).2
    (by decide) (by decide) (by decide) (by decide) (by decide)

/-! ## The searcher flag and the capacity along a run -/

/-- A flow-director or ntuple request leaves the device as it is or is a call
of `qede_config_cmn_fdir_filter`. -/
theorem filter_step_cases (MAX : Nat) (be : Bool) (qdev : qede_dev) (r : filter_request) :
    filter_step MAX be qdev r = qdev ∨
    ∃ env d add, filter_step MAX be qdev r =
      (qede_config_cmn_fdir_filter MAX be env qdev d add).dev := by
  cases r with
  | fdir env d add =>
    simp only [filter_step, qede_fdir_filter_add]
    split_ifs
    · left; rfl
    · left; rfl
    · left; rfl
    · right; exact ⟨env, d, add, rfl⟩
  | ntuple env op n =>
    cases op
    case RTE_ETH_FILTER_NOP =>
      left
      simp only [filter_step, qede_ntuple_filter_conf]
      split_ifs <;> rfl
    case RTE_ETH_FILTER_ADD => right; exact ⟨env, ntuple_to_fdir n, true, rfl⟩
    case RTE_ETH_FILTER_DELETE => right; exact ⟨env, ntuple_to_fdir n, false, rfl⟩
    all_goals (left; rfl)

/-- An invariant of the device that every call of `qede_config_cmn_fdir_filter`
preserves holds after every sequence of flow-director and ntuple requests. -/
theorem filter_run_induction (MAX : Nat) (be : Bool) (P : qede_dev → Prop)
    (hstep : ∀ env q d add, P q → P (qede_config_cmn_fdir_filter MAX be env q d add).dev)
    (reqs : List filter_request) (q : qede_dev) (h0 : P q) : P (filter_run MAX be q reqs) := by
  induction reqs generalizing q with
  | nil => exact h0
  | cons r rs ih =>
    simp only [filter_run, List.foldl_cons]
    apply ih
    rcases filter_step_cases MAX be q r with h | ⟨env, d, add, h⟩
    · rw [h]; exact h0
    · rw [h]; exact hstep env q d add h0

/-- One request keeps the searcher on while filters are stored, given that the
count is the length of the list. -/
theorem cmn_flag_inv (MAX : Nat) (be : Bool) (env : fdir_env) (q : qede_dev)
    (d : rte_eth_fdir_filter) (add : Bool)
    (hlen : q.fdir_info.filter_count = q.fdir_info.fdir_list_head.length)
    (hflag : q.fdir_info.filter_count ≠ 0 → q.fdir_info.arfs.arfs_enable = true) :
    (qede_config_cmn_fdir_filter MAX be env q d add).dev.fdir_info.filter_count ≠ 0 →
      (qede_config_cmn_fdir_filter MAX be env q d add).dev.fdir_info.arfs.arfs_enable = true := by
  cases add
  · rw [cmn_del_unfold]
    split_ifs with h3 h4 h5 h6
    · exact hflag
    · simpa using hflag
    · simpa using hflag
    · have hs : (fdir_lookup q.fdir_info.fdir_list_head (fdir_pkt be d)
          (fdir_pkt_len be d)).isSome = true := by
        cases hl : fdir_lookup q.fdir_info.fdir_list_head (fdir_pkt be d) (fdir_pkt_len be d)
        · simp [hl] at h5
        · rfl
      obtain ⟨e, he, -⟩ := (fdir_lookup_isSome_iff _ _ _).1 hs
      have hpos : 0 < q.fdir_info.fdir_list_head.length := List.length_pos_of_mem he
      intro hne
      rw [fdir_finish_flag]
      rw [fdir_finish_count] at hne
      rw [if_neg hne]
      simp only [fdir_list_update_flag, fdir_built_flag]
      exact hflag (by omega)
    · intro hne
      rw [fdir_finish_flag]
      rw [fdir_finish_count] at hne
      rw [if_neg hne]
      simp only [fdir_built_flag]
      exact hflag (by simpa using hne)
  · rw [cmn_add_unfold]
    split_ifs with h1 h2 h3 h4 h5 h6
    · exact hflag
    · exact hflag
    · exact hflag
    · simpa using hflag
    · simpa using hflag
    · intro hne
      rw [fdir_finish_flag]
      rw [fdir_finish_count] at hne
      rw [if_neg hne]
      simp only [fdir_list_update_flag, fdir_force_enable_flag]
    · intro hne
      rw [fdir_finish_flag]
      rw [fdir_finish_count] at hne
      rw [if_neg hne]
      exact fdir_force_enable_flag _

/-- C30: in every state reached from a device with no records and count 0 by a
sequence of flow-director and ntuple requests, whatever the allocations and
the hardware return, the searcher is enabled (`arfs_enable` true) whenever the
filter count is above 0, and the filter count is at most
`QEDE_RFS_MAX_FLTR - 1` (`QEDE_RFS_MAX_FLTR` being a positive constant that
fits the 16-bit count). -/
theorem C30_flag_and_capacity (MAX : Nat) (be : Bool) (hmax : 0 < MAX ∧ MAX ≤ 65536)
    (q0 : qede_dev)
    (h0 : q0.fdir_info.fdir_list_head = [] ∧ q0.fdir_info.filter_count = 0)
    (reqs : List filter_request) :
    (0 < (filter_run MAX be q0 reqs).fdir_info.filter_count →
      (filter_run MAX be q0 reqs).fdir_info.arfs.arfs_enable = true) ∧
    (filter_run MAX be q0 reqs).fdir_info.filter_count ≤ MAX - 1 := by
  have h := filter_run_induction MAX be
    (fun q => (q.fdir_info.filter_count = q.fdir_info.fdir_list_head.length ∧
        q.fdir_info.filter_count ≤ MAX - 1) ∧
      (q.fdir_info.filter_count ≠ 0 → q.fdir_info.arfs.arfs_enable = true))
    (fun env q d add hq =>
      ⟨cmn_count_inv MAX be hmax env q d add hq.1,
       cmn_flag_inv MAX be env q d add hq.1.1 hq.2⟩) reqs q0
    (by
      show (q0.fdir_info.filter_count = q0.fdir_info.fdir_list_head.length ∧
          q0.fdir_info.filter_count ≤ MAX - 1) ∧
        (q0.fdir_info.filter_count ≠ 0 → q0.fdir_info.arfs.arfs_enable = true)
      rw [h0.1, h0.2]
      exact ⟨⟨rfl, Nat.zero_le _⟩, fun hc => absurd rfl hc⟩)
  exact ⟨fun hpos => h.2 (by omega), h.1.2⟩

/-- C30, at a concrete input: the example sequence of flow-director and ntuple
requests on the empty device with four queues ends with one filter and the
searcher on. -/
theorem C30_flag_and_capacity_witness :
    (filter_run 256 false dev_four_queues filter_reqs_example).fdir_info.filter_count = 1 ∧
    ((0 < (filter_run 256 false dev_four_queues filter_reqs_example).fdir_info.filter_count →
      (filter_run 256 false dev_four_queues filter_reqs_example).fdir_info.arfs.arfs_enable
        = true) ∧
    (filter_run 256 false dev_four_queues filter_reqs_example).fdir_info.filter_count
      ≤ 256 - 1) :=
  ⟨by decide,
   C30_flag_and_capacity 256 false (by decide) dev_four_queues (by decide) filter_reqs_example⟩

/-! ## Tunnel kinds: enable, ports and counts -/

/-- C21, the code at the failing input: GENEVE is enabled with UDP port 1234
bound (the state after `qede_udp_dst_port_add` for GENEVE port 1234 on the
initial device).  `qede_geneve_enable` with enable = true then returns success
but issues one hardware update and rebinds the port to the default 6081; the
same happens through the filter entry point when a GENEVE filter is added.
`qede_ipgre_enable` with enable = true on a device where IP-in-GRE is enabled
issues one hardware update too.  `qede_vxlan_enable` on a device where VXLAN is
enabled issues none and changes nothing. -/
theorem C21_geneve_ipgre_enable_repeat_update :
    dev_geneve_1234.geneve.enable = true ∧ dev_geneve_1234.geneve.udp_port = 1234 ∧
    (qede_geneve_enable def_ports [{}] dev_geneve_1234
      ecore_tunn_clss.ECORE_TUNN_CLSS_MAC_VLAN true).rc = ECORE_SUCCESS ∧
    tunn_updated (qede_geneve_enable def_ports [{}] dev_geneve_1234
      ecore_tunn_clss.ECORE_TUNN_CLSS_MAC_VLAN true) = true ∧
    (qede_geneve_enable def_ports [{}] dev_geneve_1234
      ecore_tunn_clss.ECORE_TUNN_CLSS_MAC_VLAN true).calls.length = 1 ∧
    (qede_geneve_enable def_ports [{}] dev_geneve_1234
      ecore_tunn_clss.ECORE_TUNN_CLSS_MAC_VLAN true).dev.geneve.udp_port = 6081 ∧
    (qede_tunn_filter_config def_ports {} dev_geneve_1234 rte_filter_op.RTE_ETH_FILTER_ADD
      (conf_geneve 1)).rc = 0 ∧
    (qede_tunn_filter_config def_ports {} dev_geneve_1234 rte_filter_op.RTE_ETH_FILTER_ADD
      (conf_geneve 1)).dev.geneve.udp_port = 6081 ∧
    dev_ipgre.ipgre.enable = true ∧
    (qede_ipgre_enable [{}] dev_ipgre ecore_tunn_clss.ECORE_TUNN_CLSS_MAC_VLAN true).rc
      = ECORE_SUCCESS ∧
    tunn_updated (qede_ipgre_enable [{}] dev_ipgre
      ecore_tunn_clss.ECORE_TUNN_CLSS_MAC_VLAN true) = true ∧
    dev_vxlan_one.vxlan.enable = true ∧
    qede_vxlan_enable def_ports [{}] dev_vxlan_one ecore_tunn_clss.ECORE_TUNN_CLSS_MAC_VLAN true
      = { rc := ECORE_SUCCESS, dev := dev_vxlan_one, calls := [] } := by
  decide

/-- Every call of the loop of `qede_tunnel_update` is the hardware update with
the given parameters. -/
theorem tunnel_update_loop_calls (is_pf : Bool) (tunn : ecore_tunnel_info) :
    ∀ (hwfns : List hwfn_outcome) (rc : Int),
      ∀ x ∈ (qede_tunnel_update_loop is_pf tunn rc hwfns).2,
        x = tunn_call.sp_pf_update_tunn_cfg tunn := by
  intro hwfns
  induction hwfns with
  | nil => intro rc x hx; simp [qede_tunnel_update_loop] at hx
  | cons h hs ih =>
    intro rc x hx
    unfold qede_tunnel_update_loop at hx
    split_ifs at hx with h1 h2
    · simp at hx
    · simpa using hx
    · rcases List.mem_cons.1 hx with hx | hx
      · exact hx
      · exact ih h.rc x hx

/-- When every hardware function accepts the update, the loop of
`qede_tunnel_update` ends with the status of the last one, or with the initial
status when there is no hardware function. -/
theorem tunnel_update_loop_ok (is_pf : Bool) (tunn : ecore_tunnel_info) :
    ∀ (hwfns : List hwfn_outcome) (rc : Int),
      (∀ h ∈ hwfns, h.ptt_ok = true ∧ h.rc = ECORE_SUCCESS) →
      (qede_tunnel_update_loop is_pf tunn rc hwfns).1
        = if hwfns = [] then rc else ECORE_SUCCESS := by
  intro hwfns
  induction hwfns with
  | nil => intro rc _; simp [qede_tunnel_update_loop]
  | cons h hs ih =>
    intro rc hall
    have hh := hall h (List.mem_cons_self _ _)
    have hrest : ∀ x ∈ hs, x.ptt_ok = true ∧ x.rc = ECORE_SUCCESS :=
      fun x hx => hall x (List.mem_cons_of_mem _ hx)
    unfold qede_tunnel_update_loop
    rw [if_neg (by simp [hh.1]), if_neg (by simp [hh.2])]
    show (qede_tunnel_update_loop is_pf tunn h.rc hs).1 = _
    rw [ih h.rc hrest, hh.2]
    simp

/-- When every hardware function accepts the update, `qede_tunnel_update`
returns success. -/
theorem tunnel_update_ok (qdev : qede_dev) (tunn : ecore_tunnel_info)
    (hwfns : List hwfn_outcome) (h : hwfns_ok hwfns = true) :
    (qede_tunnel_update qdev tunn hwfns).1 = ECORE_SUCCESS := by
  unfold hwfns_ok at h
  simp only [Bool.and_eq_true, Bool.not_eq_true', List.isEmpty_eq_false, List.all_eq_true,
    decide_eq_true_eq, ne_eq] at h
  unfold qede_tunnel_update
  rw [tunnel_update_loop_ok _ _ _ _ h.2, if_neg h.1]

/-- A `qede_tunnel_update` that returns success has issued a hardware
update. -/
theorem tunnel_update_calls_ne_nil (qdev : qede_dev) (tunn : ecore_tunnel_info)
    (hwfns : List hwfn_outcome)
    (h : (qede_tunnel_update qdev tunn hwfns).1 = ECORE_SUCCESS) :
    (qede_tunnel_update qdev tunn hwfns).2 ≠ [] := by
  unfold qede_tunnel_update at h ⊢
  cases hwfns with
  | nil => simp [qede_tunnel_update_loop, ECORE_INVAL, ECORE_SUCCESS] at h
  | cons x xs =>
    unfold qede_tunnel_update_loop at h ⊢
    split_ifs at h ⊢ with h1 h2
    · simp [EAGAIN, ECORE_SUCCESS] at h
    · simp
    · simp

/-- The calls of `qede_tunnel_update` are hardware updates. -/
theorem tunnel_update_calls_update (qdev : qede_dev) (tunn : ecore_tunnel_info)
    (hwfns : List hwfn_outcome) :
    ∀ x ∈ (qede_tunnel_update qdev tunn hwfns).2, tunn_is_update x = true := by
  intro x hx
  rw [tunnel_update_loop_calls _ _ _ _ x hx]
  rfl

/-- The calls of `_qede_tunn_filter_config` are no hardware tunnel
updates. -/
theorem filter_config_calls_not_update (env : tunn_env) (conf : rte_eth_tunnel_filter_conf)
    (add : Bool) :
    ∀ x ∈ (_qede_tunn_filter_config env conf add).calls, tunn_is_update x = false := by
  intro x hx
  simp only [_qede_tunn_filter_config] at hx
  by_cases h1 : (qede_get_ecore_tunn_params (conf.filter_type % 65536)).2
      = ecore_tunn_clss.MAX_ECORE_TUNN_CLSS
  · rw [if_pos h1] at hx
    simp at hx
  · rw [if_neg h1] at hx
    cases hp : (qede_get_ecore_tunn_params (conf.filter_type % 65536)).1 with
    | none =>
      rw [hp] at hx
      simp at hx
    | some type =>
      rw [hp] at hx
      simp only at hx
      split_ifs at hx
      all_goals simp only [List.mem_cons, List.mem_singleton, List.not_mem_nil, or_false] at hx
      all_goals first
        | exact absurd hx id
        | (rcases hx with hx | hx <;> (subst hx ; rfl))
        | (subst hx ; rfl)

/-- The function `qede_tunn_filter_config` on a PF, for a delete request. -/
theorem tunn_filter_config_del (c : qede_def_ports) (env : tunn_env) (qdev : qede_dev)
    (conf : rte_eth_tunnel_filter_conf) (hpf : qdev.is_vf = false) :
    qede_tunn_filter_config c env qdev rte_filter_op.RTE_ETH_FILTER_DELETE conf =
      if (_qede_tunn_filter_config env conf false).rc ≠ ECORE_SUCCESS then
        { rc := (_qede_tunn_filter_config env conf false).rc, dev := qdev,
          calls := (_qede_tunn_filter_config env conf false).calls }
      else
        { rc := (qede_tunn_filter_count c env.hwfns qdev conf
                  (_qede_tunn_filter_config env conf false).clss false).rc,
          dev := (qede_tunn_filter_count c env.hwfns qdev conf
                  (_qede_tunn_filter_config env conf false).clss false).dev,
          calls := (_qede_tunn_filter_config env conf false).calls ++
            (qede_tunn_filter_count c env.hwfns qdev conf
              (_qede_tunn_filter_config env conf false).clss false).calls } := by
  simp [qede_tunn_filter_config, hpf]

/-- The function `qede_tunn_filter_config` on a PF, for an add request. -/
theorem tunn_filter_config_add (c : qede_def_ports) (env : tunn_env) (qdev : qede_dev)
    (conf : rte_eth_tunnel_filter_conf) (hpf : qdev.is_vf = false) :
    qede_tunn_filter_config c env qdev rte_filter_op.RTE_ETH_FILTER_ADD conf =
      if (_qede_tunn_filter_config env conf true).rc ≠ ECORE_SUCCESS then
        { rc := (_qede_tunn_filter_config env conf true).rc, dev := qdev,
          calls := (_qede_tunn_filter_config env conf true).calls }
      else
        { rc := (qede_tunn_filter_count c env.hwfns qdev conf
                  (_qede_tunn_filter_config env conf true).clss true).rc,
          dev := (qede_tunn_filter_count c env.hwfns qdev conf
                  (_qede_tunn_filter_config env conf true).clss true).dev,
          calls := (_qede_tunn_filter_config env conf true).calls ++
            (qede_tunn_filter_count c env.hwfns qdev conf
              (_qede_tunn_filter_config env conf true).clss true).calls } := by
  simp [qede_tunn_filter_config, hpf]

/-- The calls of the counter step of an add for a kind that is disabled are
the calls of `qede_tunn_enable` for that kind. -/
theorem tunn_filter_count_add_calls (c : qede_def_ports) (hwfns : List hwfn_outcome)
    (qdev : qede_dev) (conf : rte_eth_tunnel_filter_conf) (clss : ecore_tunn_clss)
    (hdis : tunn_kind_enabled qdev conf.tunnel_type = false) :
    (qede_tunn_filter_count c hwfns qdev conf clss true).calls
      = (qede_tunn_enable c hwfns qdev clss conf.tunnel_type true).calls := by
  rcases conf with ⟨om, im, iv, ft, tt, tid⟩
  cases tt <;>
    simp [qede_tunn_filter_count, tunn_kind_enabled, qede_tunn_enable] at hdis ⊢
  all_goals first
    | (split_ifs <;> rfl)
    | (simp only [hdis, true_or, or_true, if_true, qede_vxlan_enable, qede_geneve_enable,
        qede_ipgre_enable, qede_tunnel_update, Bool.false_eq_true, if_false]
       split_ifs <;> rfl)

/-- The calls of `qede_tunn_enable` are hardware tunnel updates. -/
theorem tunn_enable_calls_update (c : qede_def_ports) (hwfns : List hwfn_outcome)
    (q : qede_dev) (clss : ecore_tunn_clss) (t : rte_eth_tunnel_type) (en : Bool) :
    ∀ x ∈ (qede_tunn_enable c hwfns q clss t en).calls, tunn_is_update x = true := by
  intro x hx
  cases t <;>
    simp only [qede_tunn_enable, qede_vxlan_enable, qede_geneve_enable, qede_ipgre_enable] at hx
  all_goals first
    | exact absurd hx (List.not_mem_nil x)
    | (split_ifs at hx
       all_goals first
         | exact absurd hx (List.not_mem_nil x)
         | exact tunnel_update_calls_update _ _ _ x hx)

/-- With every hardware function accepting the update, `qede_tunn_enable` with
enable = true for a disabled kind issues a hardware tunnel update. -/
theorem tunn_enable_calls_ne_nil (c : qede_def_ports) (hwfns : List hwfn_outcome)
    (q : qede_dev) (clss : ecore_tunn_clss) (t : rte_eth_tunnel_type)
    (hok : hwfns_ok hwfns = true)
    (hk : t = rte_eth_tunnel_type.RTE_TUNNEL_TYPE_VXLAN ∨
      t = rte_eth_tunnel_type.RTE_TUNNEL_TYPE_GENEVE ∨
      t = rte_eth_tunnel_type.RTE_TUNNEL_TYPE_IP_IN_GRE)
    (hdis : tunn_kind_enabled q t = false) :
    (qede_tunn_enable c hwfns q clss t true).calls ≠ [] := by
  rcases hk with hk | hk | hk <;> subst hk <;>
    simp only [tunn_kind_enabled] at hdis <;>
    simp only [qede_tunn_enable, qede_vxlan_enable, qede_geneve_enable, qede_ipgre_enable, hdis,
      Bool.false_eq_true, if_false, tunnel_update_ok _ _ _ hok, if_true] <;>
    exact tunnel_update_calls_ne_nil _ _ _ (tunnel_update_ok _ _ _ hok)

/-- A `_qede_tunn_filter_config` that returns success has made an outside
call. -/
theorem filter_config_ok_calls_ne_nil (env : tunn_env) (conf : rte_eth_tunnel_filter_conf)
    (add : Bool) (h : (_qede_tunn_filter_config env conf add).rc = ECORE_SUCCESS) :
    (_qede_tunn_filter_config env conf add).calls ≠ [] := by
  simp only [_qede_tunn_filter_config] at h ⊢
  by_cases h1 : (qede_get_ecore_tunn_params (conf.filter_type % 65536)).2
      = ecore_tunn_clss.MAX_ECORE_TUNN_CLSS
  · rw [if_pos h1] at h
    simp [EINVAL, ECORE_SUCCESS] at h
  · rw [if_neg h1] at h ⊢
    cases hp : (qede_get_ecore_tunn_params (conf.filter_type % 65536)).1 with
    | none =>
      rw [hp] at h
      simp [EINVAL, ECORE_SUCCESS] at h
    | some type =>
      rw [hp] at h
      simp only at h ⊢
      split_ifs at h ⊢ with h2
      all_goals first
        | exact absurd h h2
        | simp

/-- C23, the claim fails: on the initial PF device (VXLAN disabled, no
filters), with every outside call succeeding, an add of a VXLAN filter on the
outer MAC address makes three outside calls: `qede_mac_int_ops`,
`qede_config_accept_any_vlan`, and only then the hardware tunnel update that
enables VXLAN; the first two are the calls of `_qede_tunn_filter_config`. -/
theorem C23_counterexample :
    ({} : qede_dev).is_vf = false ∧ ({} : qede_dev).vxlan.enable = false ∧
    ({} : qede_dev).vxlan.num_filters = 0 ∧
    (qede_tunn_filter_config def_ports {} {} rte_filter_op.RTE_ETH_FILTER_ADD
      (conf_vxlan 1)).rc = 0 ∧
    (qede_tunn_filter_config def_ports {} {} rte_filter_op.RTE_ETH_FILTER_ADD
      (conf_vxlan 1)).calls.map tunn_is_update = [false, false, true] ∧
    (qede_tunn_filter_config def_ports {} {} rte_filter_op.RTE_ETH_FILTER_ADD
      (conf_vxlan 1)).calls.take 2 = (_qede_tunn_filter_config {} (conf_vxlan 1) true).calls ∧
    (qede_tunn_filter_config def_ports {} {} rte_filter_op.RTE_ETH_FILTER_ADD
      (conf_vxlan 1)).dev.vxlan.enable = true := by
  decide

/-- C23, amended: on a PF, for an add request for a tunnel kind that is
disabled, the filter is submitted first and the kind is enabled after it.  The
calls of `_qede_tunn_filter_config` contain no hardware tunnel update and the
calls of `qede_tunn_enable` are hardware tunnel updates; when the submission
fails the request makes the submission's calls only; when it succeeds it has
made at least one call and the request's calls are the submission's calls
followed by those of `qede_tunn_enable`, of which there is at least one when
the kind is VXLAN, GENEVE or IP-in-GRE and every hardware function accepts the
update. -/
theorem C23_filter_then_enable (c : qede_def_ports) (env : tunn_env) (qdev : qede_dev)
    (conf : rte_eth_tunnel_filter_conf) (hpf : qdev.is_vf = false)
    (hdis : tunn_kind_enabled qdev conf.tunnel_type = false) :
    (∀ x ∈ (_qede_tunn_filter_config env conf true).calls, tunn_is_update x = false) ∧
    (∀ x ∈ (qede_tunn_enable c env.hwfns qdev (_qede_tunn_filter_config env conf true).clss
        conf.tunnel_type true).calls, tunn_is_update x = true) ∧
    ((_qede_tunn_filter_config env conf true).rc ≠ ECORE_SUCCESS →
      (qede_tunn_filter_config c env qdev rte_filter_op.RTE_ETH_FILTER_ADD conf).calls
        = (_qede_tunn_filter_config env conf true).calls) ∧
    ((_qede_tunn_filter_config env conf true).rc = ECORE_SUCCESS →
      (_qede_tunn_filter_config env conf true).calls ≠ [] ∧
      (qede_tunn_filter_config c env qdev rte_filter_op.RTE_ETH_FILTER_ADD conf).calls
        = (_qede_tunn_filter_config env conf true).calls ++
          (qede_tunn_enable c env.hwfns qdev (_qede_tunn_filter_config env conf true).clss
            conf.tunnel_type true).calls) ∧
    (hwfns_ok env.hwfns = true →
      conf.tunnel_type = rte_eth_tunnel_type.RTE_TUNNEL_TYPE_VXLAN ∨
        conf.tunnel_type = rte_eth_tunnel_type.RTE_TUNNEL_TYPE_GENEVE ∨
        conf.tunnel_type = rte_eth_tunnel_type.RTE_TUNNEL_TYPE_IP_IN_GRE →
      (qede_tunn_enable c env.hwfns qdev (_qede_tunn_filter_config env conf true).clss
        conf.tunnel_type true).calls ≠ []) := by
  refine ⟨filter_config_calls_not_update env conf true,
    tunn_enable_calls_update _ _ _ _ _ _, ?_, ?_, ?_⟩
  · intro hf
    rw [tunn_filter_config_add c env qdev conf hpf, if_pos hf]
  · intro hf
    refine ⟨filter_config_ok_calls_ne_nil env conf true hf, ?_⟩
    rw [tunn_filter_config_add c env qdev conf hpf, if_neg (not_not.2 hf)]
    show _ ++ _ = _
    rw [tunn_filter_count_add_calls c env.hwfns qdev conf _ hdis]
  · intro hok hk
    exact tunn_enable_calls_ne_nil c env.hwfns qdev _ conf.tunnel_type hok hk hdis

/-- C23 amended, at a concrete input: the add of a GENEVE filter on the
initial device, where the calls are those of the submission followed by one
hardware tunnel update. -/
theorem C23_filter_then_enable_witness :
    (_qede_tunn_filter_config {} (conf_geneve 1) true).rc = ECORE_SUCCESS ∧
    (qede_tunn_filter_config def_ports {} {} rte_filter_op.RTE_ETH_FILTER_ADD
      (conf_geneve 1)).calls
      = (_qede_tunn_filter_config {} (conf_geneve 1) true).calls ++
        (qede_tunn_enable def_ports ({} : tunn_env).hwfns {}
          (_qede_tunn_filter_config {} (conf_geneve 1) true).clss
          (conf_geneve 1).tunnel_type true).calls ∧
    (qede_tunn_enable def_ports ({} : tunn_env).hwfns {}
      (_qede_tunn_filter_config {} (conf_geneve 1) true).clss
      (conf_geneve 1).tunnel_type true).calls.length = 1 :=
  ⟨by decide,
   ((C23_filter_then_enable def_ports {} {} (conf_geneve 1) (by decide)
      (by decide)).2.2.2.1 (by decide)).2,
   by decide⟩

/-- When every hardware function accepts the update, the loop of
`qede_tunnel_update` issues it once per hardware function. -/
theorem tunnel_update_loop_ok_calls (is_pf : Bool) (tunn : ecore_tunnel_info) :
    ∀ (hwfns : List hwfn_outcome) (rc : Int),
      (∀ h ∈ hwfns, h.ptt_ok = true ∧ h.rc = ECORE_SUCCESS) →
      (qede_tunnel_update_loop is_pf tunn rc hwfns).2
        = List.replicate hwfns.length (tunn_call.sp_pf_update_tunn_cfg tunn) := by
  intro hwfns
  induction hwfns with
  | nil => intro rc _; simp [qede_tunnel_update_loop]
  | cons h hs ih =>
    intro rc hall
    have hh := hall h (List.mem_cons_self _ _)
    have hrest : ∀ x ∈ hs, x.ptt_ok = true ∧ x.rc = ECORE_SUCCESS :=
      fun x hx => hall x (List.mem_cons_of_mem _ hx)
    unfold qede_tunnel_update_loop
    rw [if_neg (by simp [hh.1]), if_neg (by simp [hh.2])]
    show _ :: (qede_tunnel_update_loop is_pf tunn h.rc hs).2 = _
    rw [ih h.rc hrest, List.length_cons, List.replicate_succ]

/-- When every hardware function accepts the update, `qede_tunnel_update`
issues it once per hardware function, so at least once. -/
theorem tunnel_update_ok_calls (qdev : qede_dev) (tunn : ecore_tunnel_info)
    (hwfns : List hwfn_outcome) (h : hwfns_ok hwfns = true) :
    (qede_tunnel_update qdev tunn hwfns).2
        = List.replicate hwfns.length (tunn_call.sp_pf_update_tunn_cfg tunn) ∧
    0 < hwfns.length := by
  unfold hwfns_ok at h
  simp only [Bool.and_eq_true, Bool.not_eq_true', List.isEmpty_eq_false, List.all_eq_true,
    decide_eq_true_eq, ne_eq] at h
  unfold qede_tunnel_update
  exact ⟨tunnel_update_loop_ok_calls _ _ _ _ h.2, List.length_pos.2 h.1⟩

/-- C24: `qede_udp_dst_port_add` for VXLAN or GENEVE with the port that is
bound for that kind returns success, makes no outside call and leaves the
device as it is.  With another port, when every hardware function accepts each
hardware update, it returns 0, the kind is enabled with that port (as the
16-bit value it is) as its bound port, and the port was handed to the
hardware: the outside calls are, when the kind was disabled, the hardware
tunnel update that enables the kind with its default port, once per hardware
function, followed by the hardware tunnel update whose only content is the
new port of the kind, once per hardware function and at least once. -/
theorem C24_port_add (c : qede_def_ports) (env : udp_port_env) (qdev : qede_dev)
    (tunnel_udp : rte_eth_udp_tunnel) :
    (tunnel_udp.prot_type = rte_eth_tunnel_type.RTE_TUNNEL_TYPE_VXLAN →
      (qdev.vxlan.udp_port = tunnel_udp.udp_port % 65536 →
        qede_udp_dst_port_add c env qdev tunnel_udp
          = { rc := ECORE_SUCCESS, dev := qdev, calls := [] }) ∧
      (qdev.vxlan.udp_port ≠ tunnel_udp.udp_port % 65536 →
        hwfns_ok env.port_hwfns = true → hwfns_ok env.enable_hwfns = true →
        (qede_udp_dst_port_add c env qdev tunnel_udp).rc = 0 ∧
        (qede_udp_dst_port_add c env qdev tunnel_udp).dev.vxlan.enable = true ∧
        (qede_udp_dst_port_add c env qdev tunnel_udp).dev.vxlan.udp_port
          = tunnel_udp.udp_port % 65536 ∧
        (qede_udp_dst_port_add c env qdev tunnel_udp).calls
          = (if qdev.vxlan.enable = false then
              List.replicate env.enable_hwfns.length
                (tunn_call.sp_pf_update_tunn_cfg
                  { vxlan := { b_update_mode := true, b_mode_enabled := true,
                               tun_cls := ecore_tunn_clss.ECORE_TUNN_CLSS_MAC_VLAN },
                    b_update_rx_cls := true, b_update_tx_cls := true,
                    vxlan_port := { b_update_port := true, port := c.QEDE_VXLAN_DEF_PORT } })
             else []) ++
            List.replicate env.port_hwfns.length
              (tunn_call.sp_pf_update_tunn_cfg
                { vxlan_port := { b_update_port := true,
                                  port := tunnel_udp.udp_port % 65536 } }) ∧
        0 < env.port_hwfns.length)) ∧
    (tunnel_udp.prot_type = rte_eth_tunnel_type.RTE_TUNNEL_TYPE_GENEVE →
      (qdev.geneve.udp_port = tunnel_udp.udp_port % 65536 →
        qede_udp_dst_port_add c env qdev tunnel_udp
          = { rc := ECORE_SUCCESS, dev := qdev, calls := [] }) ∧
      (qdev.geneve.udp_port ≠ tunnel_udp.udp_port % 65536 →
        hwfns_ok env.port_hwfns = true → hwfns_ok env.enable_hwfns = true →
        (qede_udp_dst_port_add c env qdev tunnel_udp).rc = 0 ∧
        (qede_udp_dst_port_add c env qdev tunnel_udp).dev.geneve.enable = true ∧
        (qede_udp_dst_port_add c env qdev tunnel_udp).dev.geneve.udp_port
          = tunnel_udp.udp_port % 65536 ∧
        (qede_udp_dst_port_add c env qdev tunnel_udp).calls
          = (if qdev.geneve.enable = false then
              List.replicate env.enable_hwfns.length
                (tunn_call.sp_pf_update_tunn_cfg
                  { l2_geneve := { b_update_mode := true, b_mode_enabled := true,
                                   tun_cls := ecore_tunn_clss.ECORE_TUNN_CLSS_MAC_VLAN },
                    ip_geneve := { b_update_mode := true, b_mode_enabled := true,
                                   tun_cls := ecore_tunn_clss.ECORE_TUNN_CLSS_MAC_VLAN },
                    b_update_rx_cls := true, b_update_tx_cls := true,
                    geneve_port := { b_update_port := true,
                                     port := c.QEDE_GENEVE_DEF_PORT } })
             else []) ++
            List.replicate env.port_hwfns.length
              (tunn_call.sp_pf_update_tunn_cfg
                { geneve_port := { b_update_port := true,
                                   port := tunnel_udp.udp_port % 65536 } }) ∧
        0 < env.port_hwfns.length)) := by
  rcases tunnel_udp with ⟨p, t⟩
  constructor
  · intro hk
    simp only at hk
    subst hk
    constructor
    · intro h
      simp only [qede_udp_dst_port_add]
      rw [if_pos h]
    · intro hne hp he
      simp only [qede_udp_dst_port_add]
      rw [if_neg hne]
      by_cases hen : qdev.vxlan.enable = false
      · simp [hen, qede_vxlan_enable, tunnel_update_ok _ _ _ hp, tunnel_update_ok _ _ _ he,
          (tunnel_update_ok_calls _ _ _ hp).1, (tunnel_update_ok_calls _ _ _ he).1,
          (tunnel_update_ok_calls qdev {} _ hp).2]
      · have hen1 : qdev.vxlan.enable = true := by simpa using hen
        simp [hen1, tunnel_update_ok _ _ _ hp, (tunnel_update_ok_calls _ _ _ hp).1,
          (tunnel_update_ok_calls qdev {} _ hp).2]
  · intro hk
    simp only at hk
    subst hk
    constructor
    · intro h
      simp only [qede_udp_dst_port_add]
      rw [if_pos h]
    · intro hne hp he
      simp only [qede_udp_dst_port_add]
      rw [if_neg hne]
      by_cases hen : qdev.geneve.enable = false
      · simp [hen, qede_geneve_enable, tunnel_update_ok _ _ _ hp, tunnel_update_ok _ _ _ he,
          (tunnel_update_ok_calls _ _ _ hp).1, (tunnel_update_ok_calls _ _ _ he).1,
          (tunnel_update_ok_calls qdev {} _ hp).2]
      · have hen1 : qdev.geneve.enable = true := by simpa using hen
        simp [hen1, tunnel_update_ok _ _ _ hp, (tunnel_update_ok_calls _ _ _ hp).1,
          (tunnel_update_ok_calls qdev {} _ hp).2]

/-- C24, at a concrete input: on the initial device the request for VXLAN port
4790 ends with VXLAN enabled on port 4790 after two hardware tunnel updates,
the second of which carries port 4790; on the device where GENEVE port 1234
is bound the request for GENEVE port 1234 changes nothing. -/
theorem C24_port_add_witness :
    ((qede_udp_dst_port_add def_ports {} {} vxlan_port_4790).rc = 0 ∧
      (qede_udp_dst_port_add def_ports {} {} vxlan_port_4790).dev.vxlan.enable = true ∧
      (qede_udp_dst_port_add def_ports {} {} vxlan_port_4790).dev.vxlan.udp_port = 4790 ∧
      (qede_udp_dst_port_add def_ports {} {} vxlan_port_4790).calls
        = [tunn_call.sp_pf_update_tunn_cfg
            { vxlan := { b_update_mode := true, b_mode_enabled := true,
                         tun_cls := ecore_tunn_clss.ECORE_TUNN_CLSS_MAC_VLAN },
              b_update_rx_cls := true, b_update_tx_cls := true,
              vxlan_port := { b_update_port := true, port := 4789 } },
           tunn_call.sp_pf_update_tunn_cfg
            { vxlan_port := { b_update_port := true, port := 4790 } }] ∧
      0 < ({} : udp_port_env).port_hwfns.length) ∧
    qede_udp_dst_port_add def_ports {} dev_geneve_1234 geneve_port_1234
      = { rc := ECORE_SUCCESS, dev := dev_geneve_1234, calls := [] } :=
  ⟨((C24_port_add def_ports {} {} vxlan_port_4790).1 rfl).2 (by decide) (by decide) (by decide),
   ((C24_port_add def_ports {} dev_geneve_1234 geneve_port_1234).2 rfl).1 (by decide)⟩

/-- C27, the code at the failing input: on the device that holds one VXLAN
filter and one GENEVE filter (VXLAN enabled on port 4789, GENEVE enabled on
port 6081), with every hardware update succeeding, `qede_udp_dst_port_del` for
GENEVE port 6081 returns 0 and makes one hardware update, but the GENEVE port
of the device is still 6081 and the VXLAN port is 0.  The same request for
VXLAN port 4789 sets the VXLAN port to 0 and leaves GENEVE as it was; a request
for GENEVE port 1234, which is not bound, returns `ECORE_INVAL` and changes
nothing. -/
theorem C27_geneve_del_clears_vxlan_port :
    dev_vxlan_geneve.is_vf = false ∧
    dev_vxlan_geneve.vxlan =
      { enable := true, num_filters := 1, filter_type := ETH_TUNNEL_FILTER_OMAC,
        udp_port := 4789 } ∧
    dev_vxlan_geneve.geneve =
      { enable := true, num_filters := 1, filter_type := ETH_TUNNEL_FILTER_OMAC,
        udp_port := 6081 } ∧
    (qede_udp_dst_port_del def_ports {} dev_vxlan_geneve
      { udp_port := 6081, prot_type := rte_eth_tunnel_type.RTE_TUNNEL_TYPE_GENEVE }).rc = 0 ∧
    (qede_udp_dst_port_del def_ports {} dev_vxlan_geneve
      { udp_port := 6081,
        prot_type := rte_eth_tunnel_type.RTE_TUNNEL_TYPE_GENEVE }).calls.length = 1 ∧
    (qede_udp_dst_port_del def_ports {} dev_vxlan_geneve
      { udp_port := 6081,
        prot_type := rte_eth_tunnel_type.RTE_TUNNEL_TYPE_GENEVE }).dev.geneve.udp_port = 6081 ∧
    (qede_udp_dst_port_del def_ports {} dev_vxlan_geneve
      { udp_port := 6081,
        prot_type := rte_eth_tunnel_type.RTE_TUNNEL_TYPE_GENEVE }).dev.vxlan.udp_port = 0 ∧
    (qede_udp_dst_port_del def_ports {} dev_vxlan_geneve
      { udp_port := 4789,
        prot_type := rte_eth_tunnel_type.RTE_TUNNEL_TYPE_VXLAN }).rc = 0 ∧
    (qede_udp_dst_port_del def_ports {} dev_vxlan_geneve
      { udp_port := 4789,
        prot_type := rte_eth_tunnel_type.RTE_TUNNEL_TYPE_VXLAN }).dev.vxlan.udp_port = 0 ∧
    (qede_udp_dst_port_del def_ports {} dev_vxlan_geneve
      { udp_port := 4789,
        prot_type := rte_eth_tunnel_type.RTE_TUNNEL_TYPE_VXLAN }).dev.geneve
      = dev_vxlan_geneve.geneve ∧
    qede_udp_dst_port_del def_ports {} dev_vxlan_geneve geneve_port_1234
      = { rc := ECORE_INVAL, dev := dev_vxlan_geneve, calls := [] } := by
  decide

/-- The function `qede_tunn_enable` leaves the VXLAN filter count as it is. -/
theorem tunn_enable_vxlan_num (c : qede_def_ports) (hwfns : List hwfn_outcome)
    (q : qede_dev) (clss : ecore_tunn_clss) (t : rte_eth_tunnel_type) (en : Bool) :
    (qede_tunn_enable c hwfns q clss t en).dev.vxlan.num_filters = q.vxlan.num_filters := by
  cases t <;>
    simp only [qede_tunn_enable, qede_vxlan_enable, qede_geneve_enable, qede_ipgre_enable] <;>
    split_ifs <;> simp only

/-- The function `qede_tunn_enable` leaves the GENEVE filter count as it is. -/
theorem tunn_enable_geneve_num (c : qede_def_ports) (hwfns : List hwfn_outcome)
    (q : qede_dev) (clss : ecore_tunn_clss) (t : rte_eth_tunnel_type) (en : Bool) :
    (qede_tunn_enable c hwfns q clss t en).dev.geneve.num_filters = q.geneve.num_filters := by
  cases t <;>
    simp only [qede_tunn_enable, qede_vxlan_enable, qede_geneve_enable, qede_ipgre_enable] <;>
    split_ifs <;> simp only

/-- The function `qede_tunn_enable` leaves the IP-in-GRE filter count as it
is. -/
theorem tunn_enable_ipgre_num (c : qede_def_ports) (hwfns : List hwfn_outcome)
    (q : qede_dev) (clss : ecore_tunn_clss) (t : rte_eth_tunnel_type) (en : Bool) :
    (qede_tunn_enable c hwfns q clss t en).dev.ipgre.num_filters = q.ipgre.num_filters := by
  cases t <;>
    simp only [qede_tunn_enable, qede_vxlan_enable, qede_geneve_enable, qede_ipgre_enable] <;>
    split_ifs <;> simp only

/-- The filter counts after the counter step of `qede_tunn_filter_config`: the
VXLAN count moves for a VXLAN request, the GENEVE count for every other
request, the IP-in-GRE count never. -/
theorem tunn_filter_count_num_filters (c : qede_def_ports) (hwfns : List hwfn_outcome)
    (qdev : qede_dev) (conf : rte_eth_tunnel_filter_conf) (clss : ecore_tunn_clss)
    (add : Bool) :
    (qede_tunn_filter_count c hwfns qdev conf clss add).dev.vxlan.num_filters
      = (if conf.tunnel_type = rte_eth_tunnel_type.RTE_TUNNEL_TYPE_VXLAN then
          (qdev.vxlan.num_filters + (if add = true then 1 else 65535)) % 65536
         else qdev.vxlan.num_filters) ∧
    (qede_tunn_filter_count c hwfns qdev conf clss add).dev.geneve.num_filters
      = (if conf.tunnel_type = rte_eth_tunnel_type.RTE_TUNNEL_TYPE_VXLAN then
          qdev.geneve.num_filters
         else (qdev.geneve.num_filters + (if add = true then 1 else 65535)) % 65536) ∧
    (qede_tunn_filter_count c hwfns qdev conf clss add).dev.ipgre.num_filters
      = qdev.ipgre.num_filters := by
  cases add <;> by_cases hk : conf.tunnel_type = rte_eth_tunnel_type.RTE_TUNNEL_TYPE_VXLAN <;>
    simp only [qede_tunn_filter_count, hk, if_true, if_false, Bool.false_eq_true] <;>
    split_ifs <;>
    simp only [tunn_enable_vxlan_num, tunn_enable_geneve_num, tunn_enable_ipgre_num,
      and_self]

/-- C28, the claim fails: on the initial PF device, where the VXLAN count is
0, a delete of a VXLAN filter with every outside call succeeding returns 0 and
leaves the VXLAN count at 65535; on the device that holds one VXLAN filter, the
delete of that filter's MAC address as a GENEVE filter returns 0 and leaves
the GENEVE count, which was 0, at 65535. -/
theorem C28_counterexample :
    ({} : qede_dev).is_vf = false ∧ ({} : qede_dev).vxlan.num_filters = 0 ∧
    (qede_tunn_filter_config def_ports {} {} rte_filter_op.RTE_ETH_FILTER_DELETE
      (conf_vxlan 1)).rc = 0 ∧
    (qede_tunn_filter_config def_ports {} {} rte_filter_op.RTE_ETH_FILTER_DELETE
      (conf_vxlan 1)).dev.vxlan.num_filters = 65535 ∧
    dev_vxlan_one.geneve.num_filters = 0 ∧
    (qede_tunn_filter_config def_ports {} dev_vxlan_one rte_filter_op.RTE_ETH_FILTER_DELETE
      (conf_geneve 1)).rc = 0 ∧
    (qede_tunn_filter_config def_ports {} dev_vxlan_one rte_filter_op.RTE_ETH_FILTER_DELETE
      (conf_geneve 1)).dev.geneve.num_filters = 65535 := by
  decide

/-- C28, amended: a tunnel filter request on a PF that returns 0 is an add or
a delete; when its kind is VXLAN the VXLAN count becomes the old count plus 1
on add and minus 1 on delete, as a 16-bit value (a delete at count 0 leaves
65535), and the GENEVE and IP-in-GRE counts are unchanged; when its kind is
GENEVE the same holds with VXLAN and GENEVE exchanged. -/
theorem C28_own_count_moves (c : qede_def_ports) (env : tunn_env) (qdev : qede_dev)
    (filter_op : rte_filter_op) (conf : rte_eth_tunnel_filter_conf)
    (hpf : qdev.is_vf = false)
    (hrc : (qede_tunn_filter_config c env qdev filter_op conf).rc = 0) :
    (filter_op = rte_filter_op.RTE_ETH_FILTER_ADD ∨
      filter_op = rte_filter_op.RTE_ETH_FILTER_DELETE) ∧
    (conf.tunnel_type = rte_eth_tunnel_type.RTE_TUNNEL_TYPE_VXLAN →
      (qede_tunn_filter_config c env qdev filter_op conf).dev.vxlan.num_filters
        = (qdev.vxlan.num_filters +
            (if filter_op = rte_filter_op.RTE_ETH_FILTER_ADD then 1 else 65535)) % 65536 ∧
      (qede_tunn_filter_config c env qdev filter_op conf).dev.geneve.num_filters
        = qdev.geneve.num_filters ∧
      (qede_tunn_filter_config c env qdev filter_op conf).dev.ipgre.num_filters
        = qdev.ipgre.num_filters) ∧
    (conf.tunnel_type = rte_eth_tunnel_type.RTE_TUNNEL_TYPE_GENEVE →
      (qede_tunn_filter_config c env qdev filter_op conf).dev.geneve.num_filters
        = (qdev.geneve.num_filters +
            (if filter_op = rte_filter_op.RTE_ETH_FILTER_ADD then 1 else 65535)) % 65536 ∧
      (qede_tunn_filter_config c env qdev filter_op conf).dev.vxlan.num_filters
        = qdev.vxlan.num_filters ∧
      (qede_tunn_filter_config c env qdev filter_op conf).dev.ipgre.num_filters
        = qdev.ipgre.num_filters) := by
  cases filter_op
  case RTE_ETH_FILTER_ADD =>
    rw [tunn_filter_config_add c env qdev conf hpf] at hrc ⊢
    by_cases hf : (_qede_tunn_filter_config env conf true).rc ≠ ECORE_SUCCESS
    · rw [if_pos hf] at hrc
      exact absurd hrc hf
    · rw [if_neg hf]
      obtain ⟨h1, h2, h3⟩ := tunn_filter_count_num_filters c env.hwfns qdev conf
        (_qede_tunn_filter_config env conf true).clss true
      refine ⟨Or.inl rfl, fun hk => ?_, fun hk => ?_⟩
      · rw [hk] at h1 h2
        simpa using ⟨h1, h2, h3⟩
      · rw [hk] at h1 h2
        simpa using ⟨h2, h1, h3⟩
  case RTE_ETH_FILTER_DELETE =>
    rw [tunn_filter_config_del c env qdev conf hpf] at hrc ⊢
    by_cases hf : (_qede_tunn_filter_config env conf false).rc ≠ ECORE_SUCCESS
    · rw [if_pos hf] at hrc
      exact absurd hrc hf
    · rw [if_neg hf]
      obtain ⟨h1, h2, h3⟩ := tunn_filter_count_num_filters c env.hwfns qdev conf
        (_qede_tunn_filter_config env conf false).clss false
      refine ⟨Or.inr rfl, fun hk => ?_, fun hk => ?_⟩
      · rw [hk] at h1 h2
        simpa using ⟨h1, h2, h3⟩
      · rw [hk] at h1 h2
        simpa using ⟨h2, h1, h3⟩
  all_goals (simp [qede_tunn_filter_config, EINVAL] at hrc)

/-- C28 amended, at a concrete input: on the device that holds one VXLAN and
one GENEVE filter the delete of the GENEVE filter returns 0, brings the GENEVE
count from 1 to 0 and leaves the VXLAN count at 1. -/
theorem C28_own_count_moves_witness :
    dev_vxlan_geneve.geneve.num_filters = 1 ∧ dev_vxlan_geneve.vxlan.num_filters = 1 ∧
    (qede_tunn_filter_config def_ports {} dev_vxlan_geneve rte_filter_op.RTE_ETH_FILTER_DELETE
      (conf_geneve 2)).dev.geneve.num_filters = 0 ∧
    (qede_tunn_filter_config def_ports {} dev_vxlan_geneve rte_filter_op.RTE_ETH_FILTER_DELETE
      (conf_geneve 2)).dev.vxlan.num_filters = 1 :=
  ⟨by decide, by decide,
   ((C28_own_count_moves def_ports {} dev_vxlan_geneve rte_filter_op.RTE_ETH_FILTER_DELETE
      (conf_geneve 2) (by decide) (by decide)).2.2 rfl).1,
   ((C28_own_count_moves def_ports {} dev_vxlan_geneve rte_filter_op.RTE_ETH_FILTER_DELETE
      (conf_geneve 2) (by decide) (by decide)).2.2 rfl).2.1⟩

end Qede

namespace Bnxt

/-! ## The SPIF fields of the default-rule handler -/

/-- The function `ulp_set_svif_in_comp_fld` does not write the VF-function
SPIF field. -/
theorem svif_keeps_vf_spif (ulp_ctx : bnxt_ulp_context) (ifindex : Nat)
    (t : bnxt_ulp_svif_type) (mp : bnxt_ulp_mapper_create_parms) :
    (ulp_set_svif_in_comp_fld ulp_ctx ifindex t mp).2.comp_fld
        bnxt_ulp_cf_idx.BNXT_ULP_CF_IDX_VF_FUNC_SPIF
      = mp.comp_fld bnxt_ulp_cf_idx.BNXT_ULP_CF_IDX_VF_FUNC_SPIF := by
  unfold ulp_set_svif_in_comp_fld
  split_ifs <;> rfl

/-- The function `ulp_set_spif_in_comp_fld` does not write the VF-function
SPIF field unless it is called with `BNXT_ULP_VF_FUNC_SPIF`. -/
theorem spif_keeps_vf_spif (ulp_ctx : bnxt_ulp_context) (ifindex : Nat)
    (t : bnxt_ulp_spif_type) (mp : bnxt_ulp_mapper_create_parms)
    (ht : t ≠ bnxt_ulp_spif_type.BNXT_ULP_VF_FUNC_SPIF) :
    (ulp_set_spif_in_comp_fld ulp_ctx ifindex t mp).2.comp_fld
        bnxt_ulp_cf_idx.BNXT_ULP_CF_IDX_VF_FUNC_SPIF
      = mp.comp_fld bnxt_ulp_cf_idx.BNXT_ULP_CF_IDX_VF_FUNC_SPIF := by
  unfold ulp_set_spif_in_comp_fld
  split_ifs with h1 h2 h3
  · rfl
  · rfl
  · rfl
  · cases t
    · exact absurd rfl h3
    · exact absurd rfl ht
    · exact absurd rfl h2

/-- The function `ulp_set_parif_in_comp_fld` does not write the VF-function
SPIF field. -/
theorem parif_keeps_vf_spif (ulp_ctx : bnxt_ulp_context) (ifindex : Nat)
    (t : bnxt_ulp_parif_type) (mp : bnxt_ulp_mapper_create_parms) :
    (ulp_set_parif_in_comp_fld ulp_ctx ifindex t mp).2.comp_fld
        bnxt_ulp_cf_idx.BNXT_ULP_CF_IDX_VF_FUNC_SPIF
      = mp.comp_fld bnxt_ulp_cf_idx.BNXT_ULP_CF_IDX_VF_FUNC_SPIF := by
  unfold ulp_set_parif_in_comp_fld
  split_ifs <;> rfl

/-- The function `ulp_set_vnic_in_comp_fld` does not write the VF-function
SPIF field. -/
theorem vnic_keeps_vf_spif (c : bnxt_ulp_consts) (ulp_ctx : bnxt_ulp_context)
    (ifindex t : Nat) (mp : bnxt_ulp_mapper_create_parms) :
    (ulp_set_vnic_in_comp_fld c ulp_ctx ifindex t mp).2.comp_fld
        bnxt_ulp_cf_idx.BNXT_ULP_CF_IDX_VF_FUNC_SPIF
      = mp.comp_fld bnxt_ulp_cf_idx.BNXT_ULP_CF_IDX_VF_FUNC_SPIF := by
  unfold ulp_set_vnic_in_comp_fld
  split_ifs <;> rfl

/-- The function `ulp_set_vport_in_comp_fld` does not write the VF-function
SPIF field. -/
theorem vport_keeps_vf_spif (ulp_ctx : bnxt_ulp_context) (ifindex : Nat)
    (mp : bnxt_ulp_mapper_create_parms) :
    (ulp_set_vport_in_comp_fld ulp_ctx ifindex mp).2.comp_fld
        bnxt_ulp_cf_idx.BNXT_ULP_CF_IDX_VF_FUNC_SPIF
      = mp.comp_fld bnxt_ulp_cf_idx.BNXT_ULP_CF_IDX_VF_FUNC_SPIF := by
  unfold ulp_set_vport_in_comp_fld
  split_ifs <;> rfl

/-- The function `ulp_set_vlan_in_act_prop` writes no computed field. -/
theorem vlan_keeps_vf_spif (c : bnxt_ulp_consts) (be : Bool) (port_id : Nat)
    (mp : bnxt_ulp_mapper_create_parms) :
    (ulp_set_vlan_in_act_prop c be port_id mp).2.comp_fld
        bnxt_ulp_cf_idx.BNXT_ULP_CF_IDX_VF_FUNC_SPIF
      = mp.comp_fld bnxt_ulp_cf_idx.BNXT_ULP_CF_IDX_VF_FUNC_SPIF := by
  unfold ulp_set_vlan_in_act_prop
  split_ifs <;> rfl

/-- The function `ulp_set_mark_in_act_prop` does not write the VF-function
SPIF field. -/
theorem mark_keeps_vf_spif (c : bnxt_ulp_consts) (port_id : Nat)
    (mp : bnxt_ulp_mapper_create_parms) :
    (ulp_set_mark_in_act_prop c port_id mp).2.comp_fld
        bnxt_ulp_cf_idx.BNXT_ULP_CF_IDX_VF_FUNC_SPIF
      = mp.comp_fld bnxt_ulp_cf_idx.BNXT_ULP_CF_IDX_VF_FUNC_SPIF := by
  unfold ulp_set_mark_in_act_prop
  split_ifs <;> rfl

/-- A chain of steps none of which writes a computed field does not write
it. -/
theorem ulp_then_foldl_keeps (i : bnxt_ulp_cf_idx)
    (steps : List (bnxt_ulp_mapper_create_parms → Int × bnxt_ulp_mapper_create_parms))
    (hk : ∀ f ∈ steps, ∀ mp, (f mp).2.comp_fld i = mp.comp_fld i)
    (r : Int × bnxt_ulp_mapper_create_parms) :
    (steps.foldl ulp_then r).2.comp_fld i = r.2.comp_fld i := by
  induction steps generalizing r with
  | nil => rfl
  | cons f fs ih =>
    rw [List.foldl_cons, ih (fun g hg => hk g (List.mem_cons_of_mem _ hg))]
    unfold ulp_then
    split_ifs
    · rfl
    · exact hk f (List.mem_cons_self _ _) r.2

/-- C31, the code: `ulp_df_dev_port_handler` never writes the VF-function SPIF
field, whatever the port database holds and whatever it returns.  At the
failing input (device port 2 with interface index 3, every lookup of the port
database succeeding, zeroed `mapper_params`) the handler returns 0; the port
database's VF-function SPIF of the interface is 21, yet the VF-function SPIF
field is not written, while the physical-port and driver-function SPIF fields
hold 22 and 20 and the three SVIF and three PARIF fields hold the values of
their own types (the driver-function PARIF 30 raised by
`BNXT_ULP_FREE_PARIF_BASE`). -/
theorem C31_vf_spif_field_not_written :
    (∀ (c : bnxt_ulp_consts) (be : Bool) (ulp_ctx : bnxt_ulp_context) (param : ulp_tlv_param)
        (mp : bnxt_ulp_mapper_create_parms),
      (ulp_df_dev_port_handler c be ulp_ctx param mp).2.comp_fld
          bnxt_ulp_cf_idx.BNXT_ULP_CF_IDX_VF_FUNC_SPIF
        = mp.comp_fld bnxt_ulp_cf_idx.BNXT_ULP_CF_IDX_VF_FUNC_SPIF) ∧
    ctx_example.ulp_port_db_dev_port_to_ulp_index 2 = (0, 3) ∧
    ctx_example.ulp_port_db_spif_get 3 bnxt_ulp_spif_type.BNXT_ULP_VF_FUNC_SPIF = (0, 21) ∧
    (ulp_df_dev_port_handler consts_example false ctx_example param_port_2
      mapper_params_zero).1 = 0 ∧
    (ulp_df_dev_port_handler consts_example false ctx_example param_port_2
      mapper_params_zero).2.comp_fld bnxt_ulp_cf_idx.BNXT_ULP_CF_IDX_VF_FUNC_SPIF = none ∧
    (ulp_df_dev_port_handler consts_example false ctx_example param_port_2
      mapper_params_zero).2.comp_fld bnxt_ulp_cf_idx.BNXT_ULP_CF_IDX_PHY_PORT_SPIF = some 22 ∧
    (ulp_df_dev_port_handler consts_example false ctx_example param_port_2
      mapper_params_zero).2.comp_fld bnxt_ulp_cf_idx.BNXT_ULP_CF_IDX_DRV_FUNC_SPIF = some 20 ∧
    (ulp_df_dev_port_handler consts_example false ctx_example param_port_2
      mapper_params_zero).2.comp_fld bnxt_ulp_cf_idx.BNXT_ULP_CF_IDX_PHY_PORT_SVIF = some 12 ∧
    (ulp_df_dev_port_handler consts_example false ctx_example param_port_2
      mapper_params_zero).2.comp_fld bnxt_ulp_cf_idx.BNXT_ULP_CF_IDX_DRV_FUNC_SVIF = some 10 ∧
    (ulp_df_dev_port_handler consts_example false ctx_example param_port_2
      mapper_params_zero).2.comp_fld bnxt_ulp_cf_idx.BNXT_ULP_CF_IDX_VF_FUNC_SVIF = some 11 ∧
    (ulp_df_dev_port_handler consts_example false ctx_example param_port_2
      mapper_params_zero).2.comp_fld bnxt_ulp_cf_idx.BNXT_ULP_CF_IDX_PHY_PORT_PARIF = some 32 ∧
    (ulp_df_dev_port_handler consts_example false ctx_example param_port_2
      mapper_params_zero).2.comp_fld bnxt_ulp_cf_idx.BNXT_ULP_CF_IDX_DRV_FUNC_PARIF = some 41 ∧
    (ulp_df_dev_port_handler consts_example false ctx_example param_port_2
      mapper_params_zero).2.comp_fld bnxt_ulp_cf_idx.BNXT_ULP_CF_IDX_VF_FUNC_PARIF
      = some 31 := by
  refine ⟨?_, by decide, by decide, by decide, by decide, by decide, by decide, by decide,
    by decide, by decide, by decide, by decide, by decide⟩
  intro c be ulp_ctx param mp
  simp only [ulp_df_dev_port_handler]
  split_ifs
  · rfl
  · rw [ulp_then_foldl_keeps]
    intro f hf
    simp only [ulp_df_dev_port_steps, List.mem_cons, List.mem_singleton, List.not_mem_nil,
      or_false] at hf
    rcases hf with h | h | h | h | h | h | h | h | h | h | h | h | h | h <;> subst h <;> intro m
    · exact svif_keeps_vf_spif _ _ _ _
    · exact svif_keeps_vf_spif _ _ _ _
    · exact svif_keeps_vf_spif _ _ _ _
    · exact spif_keeps_vf_spif _ _ _ _ (by decide)
    · exact spif_keeps_vf_spif _ _ _ _ (by decide)
    · exact spif_keeps_vf_spif _ _ _ _ (by decide)
    · exact parif_keeps_vf_spif _ _ _ _
    · exact parif_keeps_vf_spif _ _ _ _
    · exact parif_keeps_vf_spif _ _ _ _
    · exact vnic_keeps_vf_spif _ _ _ _ _
    · exact vnic_keeps_vf_spif _ _ _ _ _
    · exact vport_keeps_vf_spif _ _ _
    · exact vlan_keeps_vf_spif _ _ _ _
    · exact mark_keeps_vf_spif _ _ _

end Bnxt
